import Mathlib

/-!
# hipBLAS client harnesses: `testing_her_batched`, `testing_syr2k_batched`,
# `testing_rotmg_strided_batched`

A shallow embedding of the three test harnesses under `clients/include/blas{1,2,3}`.

Each harness is a function from the test configuration (`Arguments`) and an
environment (the external collaborators: device routine, CPU reference routine,
data generator, memory transfers, comparators, clock) to an outcome: the final
values of the harness locals together with the ordered trace of the external
calls the harness made.  A fatal assertion (`ASSERT_*`) ends the run with
`Except.error`, a normal return with `Except.ok`; both carry the state reached.
-/

namespace HipBLAS

/-! ## Status codes, enumerations, machine integers -/

/-- Modelled from the spec: the closed status enumeration of the system-under-test
contract (`hipblasStatus_t`, declared outside the three files). -/
inductive hipblasStatus_t
  | SUCCESS
  | HANDLE_IS_NULLPTR
  | INVALID_VALUE
  | ALLOC_FAILED
  | INTERNAL_ERROR
  | NOT_SUPPORTED
  | NOT_INITIALIZED
  deriving DecidableEq, Repr

/-- Result of a HIP runtime call (`hipError_t`): success or an error code. -/
inductive hipError_t
  | hipSuccess
  | hipError (code : Nat)
  deriving DecidableEq, Repr

inductive hipblasPointerMode_t
  | HOST
  | DEVICE
  deriving DecidableEq, Repr

inductive hipblasOperation_t
  | OP_N
  | OP_T
  | OP_C
  deriving DecidableEq, Repr

inductive hipblasFillMode_t
  | UPPER
  | LOWER
  | FULL
  deriving DecidableEq, Repr

inductive hipblas_client_api
  | C
  | FORTRAN
  deriving DecidableEq, Repr

/-- Conversion of a signed value to `size_t` (64-bit unsigned). -/
def size_t (z : Int) : Nat := (z % 2 ^ 64).toNat

/-- Product of two `size_t` values. -/
def size_mul (a b : Nat) : Nat := (a * b) % 2 ^ 64

/-- Reduction of an integer to the two's-complement range of a `w`-bit signed integer. -/
def wrapS (w : Nat) (z : Int) : Int := (z + 2 ^ (w - 1)) % 2 ^ w - 2 ^ (w - 1)

/-- Value of an `int` expression (32-bit signed). -/
def int32 (z : Int) : Int := wrapS 32 z

/-- Value of a `hipblasStride` (`int64_t`) expression. -/
def int64 (z : Int) : Int := wrapS 64 z

/-- Conversion of a `double` (here a rational) to a signed integer: truncation toward zero. -/
def trunc (q : ℚ) : Int := if 0 ≤ q then Int.floor q else Int.ceil q

/-- The integer nearest to `y`, the even one of the two when `y` is half-way. -/
def round_even (y : ℚ) : Int :=
  if y - ⌊y⌋ < 1 / 2 then ⌊y⌋
  else if 1 / 2 < y - ⌊y⌋ then ⌊y⌋ + 1
  else if ⌊y⌋ % 2 = 0 then ⌊y⌋ else ⌊y⌋ + 1

/-- The `double` (IEEE binary64: 53-bit significand, least exponent `-1074`) nearest to
the rational `x`, ties to even.  A result of magnitude `2^1024` or more, which binary64
replaces by an infinity, is left as the rounded number: no integer conversion of it is
defined in either case. -/
def double_round (x : ℚ) : ℚ :=
  if x = 0 then 0
  else round_even (x / 2 ^ max (Int.log 2 |x| - 52) (-1074)) *
    2 ^ max (Int.log 2 |x| - 52) (-1074)

/-- The product of two `double`s: the exact product, rounded. -/
def double_mul (a b : ℚ) : ℚ := double_round (a * b)

/-- The fields of `Arguments` read by the three harnesses.  The `int` fields hold
32-bit signed values; the flags `unit_check`, `norm_check`, `timing` are tested
for being non-zero only; `alpha`, `beta`, `stride_scale` are `double`s. -/
structure Arguments where
  api : hipblas_client_api
  fortran : Bool
  uplo : Char
  transA : Char
  N : Int
  K : Int
  lda : Int
  ldb : Int
  ldc : Int
  incx : Int
  batch_count : Int
  stride_scale : ℚ
  alpha : ℚ
  beta : ℚ
  unit_check : Bool
  norm_check : Bool
  timing : Bool
  cold_iters : Int
  iters : Int

/-! ## Observable events and harness state -/

/-- A pointer argument handed to a routine: null, the address of a host object,
or the address of a device object. -/
inductive Ptr (ν : Type)
  | nullptr
  | host (b : ν)
  | device (b : ν)
  deriving DecidableEq, Repr

/-- A `double` local of a harness, symbolically: locals are declared without an
initialiser, so they are `indeterminate` until assigned. -/
inductive Figure (ν : Type)
  | indeterminate
  | NA_value
  | time (t : Nat)
  | minus (a b : Figure ν)
  | norm (ref res : ν)
  | plus (a b : Figure ν)
  | gflop_count
  | gbyte_count
  deriving DecidableEq, Repr

/-- External calls made by a harness, in the vocabulary of the source. -/
inductive Event (ν : Type)
  /-- Construction of `hipblasLocalHandle handle(arg)`. -/
  | local_handle
  /-- Invocation of the device routine: the pointer mode the harness has set on
  the handle (if any), the pointer arguments in source order, the returned status. -/
  | device_call (mode : Option hipblasPointerMode_t) (ptrs : List (Ptr ν))
      (status : hipblasStatus_t)
  /-- An `EXPECT_HIPBLAS_STATUS2(actual, expected)`. -/
  | expect_status (actual expected : hipblasStatus_t)
  /-- Construction of a host or device container: element count, increment, batch count. -/
  | alloc (b : ν) (n : Nat) (inc : Int) (batch_count : Int)
  | memcheck (b : ν) (r : hipError_t)
  /-- A `hipblas_init_vector` call filling host buffer `b`. -/
  | init_vector (b : ν)
  /-- Host-to-host copy (`copy_from`, or copy construction). -/
  | copy_from (dst src : ν)
  /-- A `transfer_from` or `hipMemcpy` between host and device. -/
  | transfer (dst src : ν) (r : hipError_t)
  | set_pointer_mode (m : hipblasPointerMode_t) (status : hipblasStatus_t)
  /-- Reference (CBLAS) call for batch entry `b` on the given buffers,
  each with the element offset of the entry. -/
  | oracle (b : Nat) (bufs : List (ν × Int))
  /-- An element-wise check (`unit_check_general` / `near_check_general`):
  first operand (the reference), second operand (the result under test). -/
  | unit_check (ref res : ν)
  | norm_check (ref res : ν)
  | get_stream (status : hipblasStatus_t)
  /-- A `get_time_us_sync(stream)` clock read. -/
  | get_time
  /-- The `log_args` call: elapsed time, flop figure, byte figure, host-mode
  error, device-mode error. -/
  | log_args (gpu_time_used gflops gbytes err_host err_device : Figure ν)
  deriving DecidableEq, Repr

/-- Contents of the named buffers; `none` for a buffer that has not been written. -/
abbrev Store (ν : Type) (C : Type) := ν → Option C

/-- Overwrite the contents of one buffer. -/
def Store.write {ν C : Type} [DecidableEq ν] (m : Store ν C) (b : ν) (v : Option C) :
    Store ν C :=
  fun x => if x = b then v else m x

/-- The store in which no buffer has been written. -/
def Store.empty {ν C : Type} : Store ν C := fun _ => none

/-- Harness state: the trace of external calls so far, whether a test failure has
been recorded, the pointer mode the harness last set on its handle, the three
`double` locals, the contents of the buffers (`bufs`) and of the device-resident
scalars (`scal`). -/
structure St (ν C S : Type) where
  trace : List (Event ν)
  failed : Bool
  pointer_mode : Option hipblasPointerMode_t
  gpu_time_used : Figure ν
  hipblas_error_host : Figure ν
  hipblas_error_device : Figure ν
  bufs : Store ν C
  scal : Store ν S

/-- The external collaborators common to the three harnesses.  Every function takes
the position of the call in the trace first, so answers may vary from call to call. -/
structure Runtime (ν C : Type) where
  /-- Result of `memcheck()` on a device container. -/
  memcheck : Nat → ν → hipError_t
  /-- The data generator `hipblas_init_vector`, given the buffer and the integer
  arguments of the call (element count, increment, stride, batch count). -/
  hipblas_init_vector : Nat → ν → List Int → C
  /-- Result of `dst.transfer_from(src)`. -/
  transfer_from : Nat → ν → ν → hipError_t
  /-- Result of `hipMemcpy(dst, src, ...)`. -/
  hipMemcpy : Nat → ν → ν → hipError_t
  hipblasSetPointerMode : Nat → hipblasPointerMode_t → hipblasStatus_t
  hipblasGetStream : Nat → hipblasStatus_t
  /-- Outcome of `unit_check_general` / `near_check_general` on the integer
  arguments and the contents of the two operands. -/
  unit_check_general : Nat → List Int → Option C → Option C → Bool
  /-- Contents of the two operands after `norm_check_general` (which the source
  calls invasive). -/
  norm_check_general : Nat → List Int → Option C → Option C → Option C × Option C

/-- State in which a run stopped.  A run is an `Except σ σ`: `ok` when the harness
returned, `error` when a fatal assertion ended the test case; both carry the
state reached. -/
def final {σ : Type} : Except σ σ → σ
  | Except.ok s => s
  | Except.error s => s

/-- Whether the run was ended by a fatal assertion. -/
def aborted {σ : Type} : Except σ σ → Bool
  | Except.ok _ => false
  | Except.error _ => true

section Steps

variable {ν C S : Type}

/-- State on entry to a harness: nothing called, locals unassigned. -/
def St.init : St ν C S :=
  { trace := [], failed := false, pointer_mode := none,
    gpu_time_used := Figure.indeterminate,
    hipblas_error_host := Figure.indeterminate,
    hipblas_error_device := Figure.indeterminate,
    bufs := Store.empty, scal := Store.empty }

/-- Record an external call. -/
def St.emit (s : St ν C S) (e : Event ν) : St ν C S :=
  { s with trace := s.trace ++ [e] }

/-- Position of the next external call. -/
def St.now (s : St ν C S) : Nat := s.trace.length

/-- Modelled from the spec: `ASSERT_HIP_SUCCESS` (macro of the client framework,
not in the three files).  A memory transfer or allocation failure is fatal and
aborts the test case. -/
def ASSERT_HIP_SUCCESS (r : hipError_t) (s : St ν C S) : Except (St ν C S) (St ν C S) :=
  if r = hipError_t.hipSuccess then Except.ok s else Except.error { s with failed := true }

/-- Modelled from the spec: `ASSERT_HIPBLAS_SUCCESS` (macro of the client framework,
not in the three files).  Any non-success status is a fatal test failure. -/
def ASSERT_HIPBLAS_SUCCESS (r : hipblasStatus_t) (s : St ν C S) :
    Except (St ν C S) (St ν C S) :=
  if r = hipblasStatus_t.SUCCESS then Except.ok s else Except.error { s with failed := true }

/-- Modelled from the spec: `EXPECT_HIPBLAS_STATUS2` (macro of the client framework,
not in the three files).  The status must match the predicted one exactly,
otherwise the harness fails; execution continues. -/
def EXPECT_HIPBLAS_STATUS2 (actual expected : hipblasStatus_t) (s : St ν C S) : St ν C S :=
  { s.emit (Event.expect_status actual expected) with
    failed := s.failed || decide (actual ≠ expected) }

/-- Construction of a container. -/
def alloc (b : ν) (n : Nat) (inc : Int) (batch_count : Int) (s : St ν C S) : St ν C S :=
  s.emit (Event.alloc b n inc batch_count)

/-- The statement `ASSERT_HIP_SUCCESS(b.memcheck())`. -/
def memcheck (rt : Runtime ν C) (b : ν) (s : St ν C S) : Except (St ν C S) (St ν C S) :=
  ASSERT_HIP_SUCCESS (rt.memcheck s.now b) (s.emit (Event.memcheck b (rt.memcheck s.now b)))

variable [DecidableEq ν]

/-- The statement `hipblas_init_vector(b, arg, ...)`. -/
def init_vector (rt : Runtime ν C) (b : ν) (dims : List Int) (s : St ν C S) : St ν C S :=
  { s.emit (Event.init_vector b) with
    bufs := s.bufs.write b (some (rt.hipblas_init_vector s.now b dims)) }

/-- A host-to-host copy: `dst.copy_from(src)`, or the copy construction `dst = src`. -/
def copy_from (dst src : ν) (s : St ν C S) : St ν C S :=
  { s.emit (Event.copy_from dst src) with bufs := s.bufs.write dst (s.bufs src) }

/-- State after a copy between host and device that returned `r`; after a failed
copy the destination is indeterminate. -/
def transferred (r : hipError_t) (dst src : ν) (s : St ν C S) : St ν C S :=
  { s.emit (Event.transfer dst src r) with
    bufs := s.bufs.write dst (if r = hipError_t.hipSuccess then s.bufs src else none) }

/-- The statement `ASSERT_HIP_SUCCESS(dst.transfer_from(src))`. -/
def transfer_from (rt : Runtime ν C) (dst src : ν) (s : St ν C S) :
    Except (St ν C S) (St ν C S) :=
  ASSERT_HIP_SUCCESS (rt.transfer_from s.now dst src)
    (transferred (rt.transfer_from s.now dst src) dst src s)

/-- The statement `ASSERT_HIP_SUCCESS(hipMemcpy(dst, src, sizeof(T) * size, kind))`
between a host buffer and a device buffer. -/
def hipMemcpy (rt : Runtime ν C) (dst src : ν) (s : St ν C S) :
    Except (St ν C S) (St ν C S) :=
  ASSERT_HIP_SUCCESS (rt.hipMemcpy s.now dst src)
    (transferred (rt.hipMemcpy s.now dst src) dst src s)

/-- The statement `ASSERT_HIP_SUCCESS(hipMemcpy(dst, &src, sizeof(T),
hipMemcpyHostToDevice))` staging the host scalar `src`, of value `v`. -/
def memcpy_scalar (rt : Runtime ν C) (dst src : ν) (v : S) (s : St ν C S) :
    Except (St ν C S) (St ν C S) :=
  ASSERT_HIP_SUCCESS (rt.hipMemcpy s.now dst src)
    { s.emit (Event.transfer dst src (rt.hipMemcpy s.now dst src)) with
      scal := s.scal.write dst
        (if rt.hipMemcpy s.now dst src = hipError_t.hipSuccess then some v else none) }

/-- The statement `ASSERT_HIPBLAS_SUCCESS(hipblasSetPointerMode(handle, m))`. -/
def set_pointer_mode (rt : Runtime ν C) (m : hipblasPointerMode_t) (s : St ν C S) :
    Except (St ν C S) (St ν C S) :=
  ASSERT_HIPBLAS_SUCCESS (rt.hipblasSetPointerMode s.now m)
    { s.emit (Event.set_pointer_mode m (rt.hipblasSetPointerMode s.now m)) with
      pointer_mode :=
        if rt.hipblasSetPointerMode s.now m = hipblasStatus_t.SUCCESS then some m
        else s.pointer_mode }

/-- The statement `ASSERT_HIPBLAS_SUCCESS(hipblasGetStream(handle, &stream))`. -/
def get_stream (rt : Runtime ν C) (s : St ν C S) : Except (St ν C S) (St ν C S) :=
  ASSERT_HIPBLAS_SUCCESS (rt.hipblasGetStream s.now)
    (s.emit (Event.get_stream (rt.hipblasGetStream s.now)))

/-- An element-wise check `unit_check_general<T>(...)` or `near_check_general<T>(...)`
of `res` against `ref`; a mismatch is recorded as a test failure. -/
def unit_check (rt : Runtime ν C) (dims : List Int) (ref res : ν) (s : St ν C S) :
    St ν C S :=
  { s.emit (Event.unit_check ref res) with
    failed := s.failed || !(rt.unit_check_general s.now dims (s.bufs ref) (s.bufs res)) }

/-- A call `norm_check_general<T>('F', ..., ref, res, ...)`: the state after it; the
value returned is `Figure.norm ref res`. -/
def norm_check (rt : Runtime ν C) (dims : List Int) (ref res : ν) (s : St ν C S) :
    St ν C S :=
  { s.emit (Event.norm_check ref res) with
    bufs := (s.bufs.write ref (rt.norm_check_general s.now dims (s.bufs ref) (s.bufs res)).1).write
      res (rt.norm_check_general s.now dims (s.bufs ref) (s.bufs res)).2 }

/-- The statement `gpu_time_used = get_time_us_sync(stream);`. -/
def start_clock (s : St ν C S) : St ν C S :=
  { s.emit Event.get_time with gpu_time_used := Figure.time s.now }

/-- The statement `gpu_time_used = get_time_us_sync(stream) - gpu_time_used;`. -/
def stop_clock (s : St ν C S) : St ν C S :=
  { s.emit Event.get_time with
    gpu_time_used := Figure.minus (Figure.time s.now) s.gpu_time_used }

/-- The timing loop shared by the three harnesses:
`for(int iter = 0; iter < runs; iter++) { if(iter == arg.cold_iters) gpu_time_used =
get_time_us_sync(stream); ASSERT_HIPBLAS_SUCCESS(fn(...)); }`, with `n` iterations
left and `call` the asserted device invocation. -/
def timing_loop (call : St ν C S → Except (St ν C S) (St ν C S)) (cold_iters : Int) :
    Nat → Int → St ν C S → Except (St ν C S) (St ν C S)
  | 0, _, s => Except.ok s
  | n + 1, iter, s =>
    match call (if iter = cold_iters then start_clock s else s) with
    | Except.ok s2 => timing_loop call cold_iters n (iter + 1) s2
    | Except.error s2 => Except.error s2

end Steps

/-- A batched container: one block of elements per batch entry. -/
abbrev Batch (T : Type) := List (List T)

/-! ## `testing_her_batched` (blas2/testing_her_batched.hpp) -/

namespace Her

/-- Objects of `testing_her_batched` whose addresses are passed around. -/
inductive Buf
  | h_alpha
  | hA
  | hA_cpu
  | hA_host
  | hA_device
  | hx
  | dA
  | dx
  | d_alpha
  deriving DecidableEq, Repr

/-- External collaborators of `testing_her_batched<T>`, with `U = real_t<T>`. -/
structure Env (T U : Type) extends Runtime Buf (Batch T) where
  char2hipblas_fill : Char → hipblasFillMode_t
  /-- The conversion `arg.get_alpha<U>()`. -/
  get_alpha : Arguments → U
  /-- The device routine `hipblasHerBatched<T, U, FORTRAN>`: given the position,
  FORTRAN, the pointer mode set on the handle, `uplo`, `N`, what `alpha` points to
  (`none` for a null pointer), the contents of `x`, `incx`, the contents of `A`,
  `lda` and `batch_count`, the status and the new contents of `A`. -/
  hipblasHerBatched : Nat → Bool → Option hipblasPointerMode_t → hipblasFillMode_t → Int →
    Option U → Option (Batch T) → Int → Option (Batch T) → Int → Int →
    hipblasStatus_t × Option (Batch T)
  /-- The reference routine `cblas_her<T>` on one batch entry (`uplo`, `N`, `alpha`,
  `x`, `incx`, `A`, `lda`): the new contents of `A`. -/
  cblas_her : hipblasFillMode_t → Int → U → Option (List T) → Int → Option (List T) → Int →
    List T

abbrev State (T U : Type) := St Buf (Batch T) U

variable {T U : Type}

/-- What the scalar pointer `alpha` points to. -/
def alpha_value (env : Env T U) (arg : Arguments) (s : State T U) : Ptr Buf → Option U
  | Ptr.host Buf.h_alpha => some (env.get_alpha arg)
  | Ptr.device Buf.d_alpha => s.scal Buf.d_alpha
  | _ => none

/-- Result of `hipblasHerBatchedFn(handle, uplo, N, alpha, dx.ptr_on_device(), incx,
dA.ptr_on_device(), lda, batch_count)` in state `s`. -/
def run_live (env : Env T U) (arg : Arguments) (alpha : Ptr Buf) (s : State T U) :
    hipblasStatus_t × Option (Batch T) :=
  env.hipblasHerBatched s.now (decide (arg.api = hipblas_client_api.FORTRAN)) s.pointer_mode
    (env.char2hipblas_fill arg.uplo) arg.N (alpha_value env arg s alpha)
    (s.bufs Buf.dx) arg.incx (s.bufs Buf.dA) arg.lda arg.batch_count

/-- The statement `ASSERT_HIPBLAS_SUCCESS(hipblasHerBatchedFn(handle, uplo, N, alpha,
dx.ptr_on_device(), incx, dA.ptr_on_device(), lda, batch_count))`: the routine
writes `dA`. -/
def assert_call (env : Env T U) (arg : Arguments) (alpha : Ptr Buf) (s : State T U) :
    Except (State T U) (State T U) :=
  ASSERT_HIPBLAS_SUCCESS (run_live env arg alpha s).1
    { s.emit (Event.device_call s.pointer_mode
        [alpha, Ptr.device Buf.dx, Ptr.device Buf.dA] (run_live env arg alpha s).1) with
      bufs := s.bufs.write Buf.dA (run_live env arg alpha s).2 }

/-- Status of the call `hipblasHerBatchedFn(handle, uplo, N, nullptr, nullptr, incx,
nullptr, lda, batch_count)` of the quick-return path. -/
def run_null (env : Env T U) (arg : Arguments) (s : State T U) : hipblasStatus_t :=
  (env.hipblasHerBatched s.now (decide (arg.api = hipblas_client_api.FORTRAN)) s.pointer_mode
    (env.char2hipblas_fill arg.uplo) arg.N none none arg.incx none arg.lda arg.batch_count).1

/-- The reference loop `for(int b = 0; b < batch_count; b++) cblas_her<T>(uplo, N, h_alpha,
hx[b], incx, hA_cpu[b], lda);` with `n` iterations left. -/
def oracle_loop (env : Env T U) (arg : Arguments) : Nat → Nat → State T U → State T U
  | 0, _, s => s
  | n + 1, b, s =>
    oracle_loop env arg n (b + 1)
      { s.emit (Event.oracle b [(Buf.hx, 0), (Buf.hA_cpu, 0)]) with
        bufs := s.bufs.write Buf.hA_cpu ((s.bufs Buf.hA_cpu).map (fun l => l.set b
          (env.cblas_her (env.char2hipblas_fill arg.uplo) arg.N (env.get_alpha arg)
            ((s.bufs Buf.hx).bind (fun l => l.get? b)) arg.incx
            ((s.bufs Buf.hA_cpu).bind (fun l => l.get? b)) arg.lda))) }

/-- The flag `invalid_size` of line 65. -/
def invalid_size (arg : Arguments) : Bool :=
  decide (arg.N < 0) || decide (arg.lda < arg.N) || decide (arg.lda < 1) || (arg.incx == 0)
    || decide (arg.batch_count < 0)

/-- The integer arguments `N, N, batch_count, lda` of the checks. -/
def check_dims (arg : Arguments) : List Int := [arg.N, arg.N, arg.batch_count, arg.lda]

/-- The block `if(arg.unit_check || arg.norm_check) { ... }` (lines 98-152). -/
def correctness (env : Env T U) (arg : Arguments) (s : State T U) :
    Except (State T U) (State T U) :=
  if arg.unit_check || arg.norm_check then do
    let s ← set_pointer_mode env.toRuntime hipblasPointerMode_t.HOST s
    let s ← assert_call env arg (Ptr.host Buf.h_alpha) s
    let s ← transfer_from env.toRuntime Buf.hA_host Buf.dA s
    let s ← transfer_from env.toRuntime Buf.dA Buf.hA s
    let s ← set_pointer_mode env.toRuntime hipblasPointerMode_t.DEVICE s
    let s ← assert_call env arg (Ptr.device Buf.d_alpha) s
    let s ← transfer_from env.toRuntime Buf.hA_device Buf.dA s
    let s := oracle_loop env arg arg.batch_count.toNat 0 s
    let s := if arg.unit_check then
        unit_check env.toRuntime (check_dims arg) Buf.hA_cpu Buf.hA_host
          (unit_check env.toRuntime (check_dims arg) Buf.hA_cpu Buf.hA_host s)
      else s
    let s := if arg.norm_check then
        { norm_check env.toRuntime (check_dims arg) Buf.hA_cpu Buf.hA_device
            { norm_check env.toRuntime (check_dims arg) Buf.hA_cpu Buf.hA_host s with
              hipblas_error_host := Figure.norm Buf.hA_cpu Buf.hA_host } with
          hipblas_error_device := Figure.norm Buf.hA_cpu Buf.hA_device }
      else s
    pure s
  else pure s

/-- The block `if(arg.timing) { ... }` (lines 154-186). -/
def timing (env : Env T U) (arg : Arguments) (s : State T U) :
    Except (State T U) (State T U) :=
  if arg.timing then do
    let s ← transfer_from env.toRuntime Buf.dA Buf.hA s
    let s ← get_stream env.toRuntime s
    let s ← set_pointer_mode env.toRuntime hipblasPointerMode_t.DEVICE s
    let s ← timing_loop (assert_call env arg (Ptr.device Buf.d_alpha)) arg.cold_iters
      (int32 (arg.cold_iters + arg.iters)).toNat 0 s
    let s := stop_clock s
    pure (s.emit (Event.log_args s.gpu_time_used Figure.gflop_count Figure.gbyte_count
      s.hipblas_error_host s.hipblas_error_device))
  else pure s

/-- The value `size_t A_size = size_t(lda) * N` of line 55. -/
def A_size (arg : Arguments) : Nat := size_mul (size_t arg.lda) (size_t arg.N)

/-- Lines 76-91: construction of the containers and data generation. -/
def setup (env : Env T U) (arg : Arguments) (s : State T U) :
    Except (State T U) (State T U) := do
  let s := alloc Buf.hA (A_size arg) 1 arg.batch_count s
  let s := alloc Buf.hA_cpu (A_size arg) 1 arg.batch_count s
  let s := alloc Buf.hA_host (A_size arg) 1 arg.batch_count s
  let s := alloc Buf.hA_device (A_size arg) 1 arg.batch_count s
  let s := alloc Buf.hx (size_t arg.N) arg.incx arg.batch_count s
  let s := alloc Buf.dA (A_size arg) 1 arg.batch_count s
  let s := alloc Buf.dx (size_t arg.N) arg.incx arg.batch_count s
  let s := alloc Buf.d_alpha 1 1 1 s
  let s ← memcheck env.toRuntime Buf.dA s
  let s ← memcheck env.toRuntime Buf.dx s
  let s := init_vector env.toRuntime Buf.hA [A_size arg, 1, arg.batch_count] s
  pure (init_vector env.toRuntime Buf.hx [size_t arg.N, arg.incx, arg.batch_count] s)

/-- Lines 93-96: the copy for the reference routine and the transfers to the device. -/
def staging (env : Env T U) (arg : Arguments) (s : State T U) :
    Except (State T U) (State T U) := do
  let s := copy_from Buf.hA_cpu Buf.hA s
  let s ← transfer_from env.toRuntime Buf.dA Buf.hA s
  let s ← transfer_from env.toRuntime Buf.dx Buf.hx s
  memcpy_scalar env.toRuntime Buf.d_alpha Buf.h_alpha (env.get_alpha arg) s

/-- The harness `testing_her_batched<T>(arg)`. -/
def testing_her_batched (env : Env T U) (arg : Arguments) : Except (State T U) (State T U) :=
  let s : State T U := St.init.emit Event.local_handle
  if invalid_size arg || (arg.N == 0) || (arg.batch_count == 0) then
    pure (EXPECT_HIPBLAS_STATUS2 (run_null env arg s)
      (if invalid_size arg then hipblasStatus_t.INVALID_VALUE else hipblasStatus_t.SUCCESS)
      (s.emit (Event.device_call s.pointer_mode [Ptr.nullptr, Ptr.nullptr, Ptr.nullptr]
        (run_null env arg s))))
  else do
    let s ← setup env arg s
    let s ← staging env arg s
    let s ← correctness env arg s
    timing env arg s

end Her

/-! ## `testing_syr2k_batched` (blas3/testing_syr2k_batched.hpp) -/

namespace Syr2k

/-- Objects of `testing_syr2k_batched` whose addresses are passed around. -/
inductive Buf
  | h_alpha
  | h_beta
  | hA
  | hB
  | hC_host
  | hC_device
  | hC_gold
  | dA
  | dB
  | dC
  | d_alpha
  | d_beta
  deriving DecidableEq, Repr

/-- External collaborators of `testing_syr2k_batched<T>`. -/
structure Env (T : Type) extends Runtime Buf (Batch T) where
  char2hipblas_fill : Char → hipblasFillMode_t
  char2hipblas_operation : Char → hipblasOperation_t
  /-- The conversion `arg.get_alpha<T>()`. -/
  get_alpha : Arguments → T
  /-- The conversion `arg.get_beta<T>()`. -/
  get_beta : Arguments → T
  /-- The device routine `hipblasSyr2kBatched<T, FORTRAN>`: given the position,
  FORTRAN, the pointer mode set on the handle, `uplo`, `transA`, `N`, `K`, what
  `alpha` points to, the contents of `A`, `lda`, the contents of `B`, `ldb`, what
  `beta` points to, the contents of `C`, `ldc` and `batch_count`, the status and the
  new contents of `C`. -/
  hipblasSyr2kBatched : Nat → Bool → Option hipblasPointerMode_t → hipblasFillMode_t →
    hipblasOperation_t → Int → Int → Option T → Option (Batch T) → Int → Option (Batch T) →
    Int → Option T → Option (Batch T) → Int → Int → hipblasStatus_t × Option (Batch T)
  /-- The reference routine `cblas_syr2k<T>` on one batch entry (`uplo`, `transA`, `N`,
  `K`, `alpha`, `A`, `lda`, `B`, `ldb`, `beta`, `C`, `ldc`): the new contents of `C`. -/
  cblas_syr2k : hipblasFillMode_t → hipblasOperation_t → Int → Int → T → Option (List T) →
    Int → Option (List T) → Int → T → Option (List T) → Int → List T

abbrev State (T : Type) := St Buf (Batch T) T

variable {T : Type}

/-- What a scalar pointer (`alpha` or `beta`) points to. -/
def scalar_value (env : Env T) (arg : Arguments) (s : State T) : Ptr Buf → Option T
  | Ptr.host Buf.h_alpha => some (env.get_alpha arg)
  | Ptr.host Buf.h_beta => some (env.get_beta arg)
  | Ptr.device b => s.scal b
  | _ => none

/-- Result of `hipblasSyr2kBatchedFn(handle, uplo, transA, N, K, alpha,
dA.ptr_on_device(), lda, dB.ptr_on_device(), ldb, beta, dC.ptr_on_device(), ldc,
batch_count)` in state `s`. -/
def run_live (env : Env T) (arg : Arguments) (alpha beta : Ptr Buf) (s : State T) :
    hipblasStatus_t × Option (Batch T) :=
  env.hipblasSyr2kBatched s.now arg.fortran s.pointer_mode
    (env.char2hipblas_fill arg.uplo) (env.char2hipblas_operation arg.transA) arg.N arg.K
    (scalar_value env arg s alpha) (s.bufs Buf.dA) arg.lda (s.bufs Buf.dB) arg.ldb
    (scalar_value env arg s beta) (s.bufs Buf.dC) arg.ldc arg.batch_count

/-- The statement `ASSERT_HIPBLAS_SUCCESS(hipblasSyr2kBatchedFn(handle, uplo, transA, N,
K, alpha, dA.ptr_on_device(), lda, dB.ptr_on_device(), ldb, beta, dC.ptr_on_device(),
ldc, batch_count))`: the routine writes `dC`. -/
def assert_call (env : Env T) (arg : Arguments) (alpha beta : Ptr Buf) (s : State T) :
    Except (State T) (State T) :=
  ASSERT_HIPBLAS_SUCCESS (run_live env arg alpha beta s).1
    { s.emit (Event.device_call s.pointer_mode
        [alpha, Ptr.device Buf.dA, Ptr.device Buf.dB, beta, Ptr.device Buf.dC]
        (run_live env arg alpha beta s).1) with
      bufs := s.bufs.write Buf.dC (run_live env arg alpha beta s).2 }

/-- The reference loop `for(int b = 0; b < batch_count; b++) cblas_syr2k<T>(uplo, transA,
N, K, h_alpha, hA[b], lda, hB[b], ldb, h_beta, hC_gold[b], ldc);` with `n` iterations
left. -/
def oracle_loop (env : Env T) (arg : Arguments) : Nat → Nat → State T → State T
  | 0, _, s => s
  | n + 1, b, s =>
    oracle_loop env arg n (b + 1)
      { s.emit (Event.oracle b [(Buf.hA, 0), (Buf.hB, 0), (Buf.hC_gold, 0)]) with
        bufs := s.bufs.write Buf.hC_gold ((s.bufs Buf.hC_gold).map (fun l => l.set b
          (env.cblas_syr2k (env.char2hipblas_fill arg.uplo)
            (env.char2hipblas_operation arg.transA) arg.N arg.K (env.get_alpha arg)
            ((s.bufs Buf.hA).bind (fun l => l.get? b)) arg.lda
            ((s.bufs Buf.hB).bind (fun l => l.get? b)) arg.ldb (env.get_beta arg)
            ((s.bufs Buf.hC_gold).bind (fun l => l.get? b)) arg.ldc))) }

/-- The condition of the `if` of lines 71-72, with `transA` the converted operation. -/
def invalid (transA : hipblasOperation_t) (arg : Arguments) : Bool :=
  decide (arg.N < 0) || decide (arg.K < 0) || decide (arg.ldc < arg.N)
    || (decide (transA = hipblasOperation_t.OP_N)
        && (decide (arg.lda < arg.N) || decide (arg.ldb < arg.N)))
    || (decide (transA ≠ hipblasOperation_t.OP_N)
        && (decide (arg.lda < arg.K) || decide (arg.ldb < arg.K)))
    || decide (arg.batch_count < 0)

/-- The value `int K1 = (transA == HIPBLAS_OP_N ? K : N)` of line 84. -/
def K1 (transA : hipblasOperation_t) (arg : Arguments) : Int :=
  if transA = hipblasOperation_t.OP_N then arg.K else arg.N

/-- The value `size_t A_size = size_t(lda) * K1`. -/
def A_size (transA : hipblasOperation_t) (arg : Arguments) : Nat :=
  size_mul (size_t arg.lda) (size_t (K1 transA arg))

/-- The value `size_t B_size = size_t(ldb) * K1`. -/
def B_size (transA : hipblasOperation_t) (arg : Arguments) : Nat :=
  size_mul (size_t arg.ldb) (size_t (K1 transA arg))

/-- The value `size_t C_size = size_t(ldc) * N`. -/
def C_size (arg : Arguments) : Nat := size_mul (size_t arg.ldc) (size_t arg.N)

/-- The integer arguments `N, N, batch_count, ldc` of the checks. -/
def check_dims (arg : Arguments) : List Int := [arg.N, arg.N, arg.batch_count, arg.ldc]

/-- The block `if(arg.unit_check || arg.norm_check) { ... }` (lines 119-185). -/
def correctness (env : Env T) (arg : Arguments) (s : State T) :
    Except (State T) (State T) :=
  if arg.unit_check || arg.norm_check then do
    let s ← set_pointer_mode env.toRuntime hipblasPointerMode_t.HOST s
    let s ← assert_call env arg (Ptr.host Buf.h_alpha) (Ptr.host Buf.h_beta) s
    let s ← transfer_from env.toRuntime Buf.hC_host Buf.dC s
    let s ← transfer_from env.toRuntime Buf.dC Buf.hC_device s
    let s ← set_pointer_mode env.toRuntime hipblasPointerMode_t.DEVICE s
    let s ← assert_call env arg (Ptr.device Buf.d_alpha) (Ptr.device Buf.d_beta) s
    let s ← transfer_from env.toRuntime Buf.hC_device Buf.dC s
    let s := oracle_loop env arg arg.batch_count.toNat 0 s
    let s := if arg.unit_check then
        unit_check env.toRuntime (check_dims arg) Buf.hC_gold Buf.hC_device
          (unit_check env.toRuntime (check_dims arg) Buf.hC_gold Buf.hC_host s)
      else s
    let s := if arg.norm_check then
        { norm_check env.toRuntime (check_dims arg) Buf.hC_gold Buf.hC_device
            { norm_check env.toRuntime (check_dims arg) Buf.hC_gold Buf.hC_host s with
              hipblas_error_host := Figure.norm Buf.hC_gold Buf.hC_host } with
          hipblas_error_device := Figure.norm Buf.hC_gold Buf.hC_device }
      else s
    pure s
  else pure s

/-- The block `if(arg.timing) { ... }` (lines 187-223). -/
def timing (env : Env T) (arg : Arguments) (s : State T) : Except (State T) (State T) :=
  if arg.timing then do
    let s ← get_stream env.toRuntime s
    let s ← set_pointer_mode env.toRuntime hipblasPointerMode_t.DEVICE s
    let s ← timing_loop (assert_call env arg (Ptr.device Buf.d_alpha) (Ptr.device Buf.d_beta))
      arg.cold_iters (int32 (arg.cold_iters + arg.iters)).toNat 0 s
    let s := stop_clock s
    pure (s.emit (Event.log_args s.gpu_time_used Figure.gflop_count Figure.gbyte_count
      s.hipblas_error_host s.hipblas_error_device))
  else pure s

/-- Lines 81-108: the handle, construction of the containers, data generation. -/
def setup (env : Env T) (arg : Arguments) (s : State T) : Except (State T) (State T) := do
  let transA := env.char2hipblas_operation arg.transA
  let s := s.emit Event.local_handle
  let s := alloc Buf.hA (A_size transA arg) 1 arg.batch_count s
  let s := alloc Buf.hB (B_size transA arg) 1 arg.batch_count s
  let s := alloc Buf.hC_host (C_size arg) 1 arg.batch_count s
  let s := alloc Buf.hC_device (C_size arg) 1 arg.batch_count s
  let s := alloc Buf.hC_gold (C_size arg) 1 arg.batch_count s
  let s := alloc Buf.dA (A_size transA arg) 1 arg.batch_count s
  let s := alloc Buf.dB (B_size transA arg) 1 arg.batch_count s
  let s := alloc Buf.dC (C_size arg) 1 arg.batch_count s
  let s := alloc Buf.d_alpha 1 1 1 s
  let s := alloc Buf.d_beta 1 1 1 s
  let s ← memcheck env.toRuntime Buf.dA s
  let s ← memcheck env.toRuntime Buf.dB s
  let s ← memcheck env.toRuntime Buf.dC s
  let s := init_vector env.toRuntime Buf.hA [A_size transA arg, 1, arg.batch_count] s
  let s := init_vector env.toRuntime Buf.hB [B_size transA arg, 1, arg.batch_count] s
  pure (init_vector env.toRuntime Buf.hC_host [C_size arg, 1, arg.batch_count] s)

/-- Lines 110-117: the copies of `C` and the transfers to the device. -/
def staging (env : Env T) (arg : Arguments) (s : State T) : Except (State T) (State T) := do
  let s := copy_from Buf.hC_device Buf.hC_host s
  let s := copy_from Buf.hC_gold Buf.hC_host s
  let s ← transfer_from env.toRuntime Buf.dA Buf.hA s
  let s ← transfer_from env.toRuntime Buf.dB Buf.hB s
  let s ← transfer_from env.toRuntime Buf.dC Buf.hC_host s
  let s ← memcpy_scalar env.toRuntime Buf.d_alpha Buf.h_alpha (env.get_alpha arg) s
  memcpy_scalar env.toRuntime Buf.d_beta Buf.h_beta (env.get_beta arg) s

/-- The harness `testing_syr2k_batched<T>(arg)`. -/
def testing_syr2k_batched (env : Env T) (arg : Arguments) : Except (State T) (State T) :=
  if invalid (env.char2hipblas_operation arg.transA) arg then
    pure St.init
  else if arg.batch_count == 0 then
    pure St.init
  else do
    let s ← setup env arg St.init
    let s ← staging env arg s
    let s ← correctness env arg s
    timing env arg s

end Syr2k

/-! ## `testing_rotmg_strided_batched` (blas1/testing_rotmg_strided_batched.hpp) -/

namespace Rotmg

/-- Objects of `testing_rotmg_strided_batched` whose addresses are passed around. -/
inductive Buf
  | hd1
  | hd2
  | hx1
  | hy1
  | hparams
  | cd1
  | cd2
  | cx1
  | cy1
  | cparams
  | hd1_d
  | hd2_d
  | hx1_d
  | hy1_d
  | hparams_d
  | dd1
  | dd2
  | dx1
  | dy1
  | dparams
  deriving DecidableEq, Repr

/-- The five operands of a rotmg call. -/
structure Five (α : Type) where
  d1 : α
  d2 : α
  x1 : α
  y1 : α
  param : α
  deriving DecidableEq, Repr

/-- External collaborators of `testing_rotmg_strided_batched<T>`. -/
structure Env (T : Type) extends Runtime Buf (List T) where
  /-- The device routine `hipblasRotmgStridedBatched<T, FORTRAN>`: given the position,
  FORTRAN, the pointer mode set on the handle, the contents of the five strided
  operands, their strides and `batch_count`, the status and the new contents of the
  five operands. -/
  hipblasRotmgStridedBatched : Nat → Bool → Option hipblasPointerMode_t →
    Five (Option (List T)) → Five Int → Int → hipblasStatus_t × Five (Option (List T))
  /-- The reference routine `cblas_rotmg<T>(d1, d2, x1, y1, param)` on one batch entry:
  given the elements the five pointers address (one each for `d1`, `d2`, `x1`, `y1`,
  five for `param`; `none` where the address is outside the buffer), the new values. -/
  cblas_rotmg : Five (List (Option T)) → Five (List T)

abbrev State (T : Type) := St Buf (List T) T

variable {T : Type}

/-- The value `hipblasStride stride_d1 = stride_scale` (also `stride_d2`, `stride_x1`,
`stride_y1`). -/
def stride_d1 (arg : Arguments) : Int := int64 (trunc arg.stride_scale)

/-- The value `hipblasStride stride_param = 5 * stride_scale` of line 52: the product is
taken in `double` and rounded, then converted. -/
def stride_param (arg : Arguments) : Int := int64 (trunc (double_mul 5 arg.stride_scale))

/-- The strides passed to the routine. -/
def strides (arg : Arguments) : Five Int :=
  { d1 := stride_d1 arg, d2 := stride_d1 arg, x1 := stride_d1 arg, y1 := stride_d1 arg,
    param := stride_param arg }

/-- The value `size_t size_d1 = batch_count * stride_d1` (also `size_d2`, `size_x1`,
`size_y1`). -/
def size_d1 (arg : Arguments) : Nat := size_t (int64 (arg.batch_count * stride_d1 arg))

/-- The value `size_t size_param = batch_count * stride_param`. -/
def size_param (arg : Arguments) : Nat := size_t (int64 (arg.batch_count * stride_param arg))

/-- The `n` elements of a buffer from element offset `off` on; `none` where the
address is outside the buffer. -/
def read_block (l : Option (List T)) (off : Int) (n : Nat) : List (Option T) :=
  (List.range n).map (fun k =>
    if 0 ≤ off + k then l.bind (fun c => c.get? (off + k).toNat) else none)

/-- Store the values `vs` at element offset `off` on; addresses outside the buffer
are not written. -/
def write_block (c : List T) (off : Int) : List T → List T
  | [] => c
  | v :: vs => write_block (if 0 ≤ off then c.set off.toNat v else c) (off + 1) vs

/-- The statement `ASSERT_HIPBLAS_SUCCESS(hipblasRotmgStridedBatchedFn(handle, d1,
stride_d1, d2, stride_d2, x1, stride_x1, y1, stride_y1, params, stride_param,
batch_count))` on the five buffers `p` (host or device, as `ptr` says): the routine
writes them. -/
def assert_call (env : Env T) (arg : Arguments) (ptr : Buf → Ptr Buf) (p : Five Buf)
    (s : State T) : Except (State T) (State T) :=
  let r := env.hipblasRotmgStridedBatched s.now (decide (arg.api = hipblas_client_api.FORTRAN))
    s.pointer_mode
    { d1 := s.bufs p.d1, d2 := s.bufs p.d2, x1 := s.bufs p.x1, y1 := s.bufs p.y1,
      param := s.bufs p.param }
    (strides arg) arg.batch_count
  ASSERT_HIPBLAS_SUCCESS r.1
    { s.emit (Event.device_call s.pointer_mode
        [ptr p.d1, ptr p.d2, ptr p.x1, ptr p.y1, ptr p.param] r.1) with
      bufs := ((((s.bufs.write p.d1 r.2.d1).write p.d2 r.2.d2).write p.x1 r.2.x1).write
        p.y1 r.2.y1).write p.param r.2.param }

/-- The host buffers `hd1, hd2, hx1, hy1, hparams`. -/
def host_bufs : Five Buf :=
  { d1 := Buf.hd1, d2 := Buf.hd2, x1 := Buf.hx1, y1 := Buf.hy1, param := Buf.hparams }

/-- The device buffers `dd1, dd2, dx1, dy1, dparams`. -/
def device_bufs : Five Buf :=
  { d1 := Buf.dd1, d2 := Buf.dd2, x1 := Buf.dx1, y1 := Buf.dy1, param := Buf.dparams }

/-- The reference loop `for(int b = 0; b < batch_count; b++) cblas_rotmg<T>(cd1 + b *
stride_d1, cd2 + b * stride_d2, cx1 + b * stride_x1, cy1 + b * stride_y1, cparams + b *
stride_param);` with `n` iterations left. -/
def oracle_loop (env : Env T) (arg : Arguments) : Nat → Nat → State T → State T
  | 0, _, s => s
  | n + 1, b, s =>
    let o1 := int64 (b * stride_d1 arg)
    let op := int64 (b * stride_param arg)
    let r := env.cblas_rotmg
      { d1 := read_block (s.bufs Buf.cd1) o1 1, d2 := read_block (s.bufs Buf.cd2) o1 1,
        x1 := read_block (s.bufs Buf.cx1) o1 1, y1 := read_block (s.bufs Buf.cy1) o1 1,
        param := read_block (s.bufs Buf.cparams) op 5 }
    oracle_loop env arg n (b + 1)
      { s.emit (Event.oracle b [(Buf.cd1, o1), (Buf.cd2, o1), (Buf.cx1, o1), (Buf.cy1, o1),
          (Buf.cparams, op)]) with
        bufs := ((((s.bufs.write Buf.cd1
            ((s.bufs Buf.cd1).map (fun c => write_block c o1 (r.d1.take 1)))).write Buf.cd2
            ((s.bufs Buf.cd2).map (fun c => write_block c o1 (r.d2.take 1)))).write Buf.cx1
            ((s.bufs Buf.cx1).map (fun c => write_block c o1 (r.x1.take 1)))).write Buf.cy1
            ((s.bufs Buf.cy1).map (fun c => write_block c o1 (r.y1.take 1)))).write Buf.cparams
            ((s.bufs Buf.cparams).map (fun c => write_block c op (r.param.take 5))) }

/-- The integer arguments `1, 1, batch_count, 1, stride` of the checks on a scalar
operand. -/
def dims1 (arg : Arguments) : List Int := [1, 1, arg.batch_count, 1, stride_d1 arg]

/-- The integer arguments `1, 5, batch_count, 1, stride_param` of the checks on the
parameter blocks. -/
def dims5 (arg : Arguments) : List Int := [1, 5, arg.batch_count, 1, stride_param arg]

/-- Five `near_check_general<T>` calls (lines 164-168 or 170-175) of the reference
buffers against the result buffers `r`. -/
def near_checks (env : Env T) (arg : Arguments) (r : Five Buf) (s : State T) : State T :=
  let s := unit_check env.toRuntime (dims1 arg) Buf.cd1 r.d1 s
  let s := unit_check env.toRuntime (dims1 arg) Buf.cd2 r.d2 s
  let s := unit_check env.toRuntime (dims1 arg) Buf.cx1 r.x1 s
  let s := unit_check env.toRuntime (dims1 arg) Buf.cy1 r.y1 s
  unit_check env.toRuntime (dims5 arg) Buf.cparams r.param s

/-- Five `norm_check_general<T>` calls (lines 180-189 or 191-200) of the reference
buffers against the result buffers `r`: the state after them and the accumulated
error (`=` for the first, `+=` for the others). -/
def norm_checks (env : Env T) (arg : Arguments) (r : Five Buf) (s : State T) :
    State T × Figure Buf :=
  let s := norm_check env.toRuntime (dims1 arg) Buf.cd1 r.d1 s
  let e := Figure.norm Buf.cd1 r.d1
  let s := norm_check env.toRuntime (dims1 arg) Buf.cd2 r.d2 s
  let e := Figure.plus e (Figure.norm Buf.cd2 r.d2)
  let s := norm_check env.toRuntime (dims1 arg) Buf.cx1 r.x1 s
  let e := Figure.plus e (Figure.norm Buf.cx1 r.x1)
  let s := norm_check env.toRuntime (dims1 arg) Buf.cy1 r.y1 s
  let e := Figure.plus e (Figure.norm Buf.cy1 r.y1)
  let s := norm_check env.toRuntime (dims5 arg) Buf.cparams r.param s
  (s, Figure.plus e (Figure.norm Buf.cparams r.param))

/-- The result buffers of the device-pointer-mode pass, `hd1_d, ..., hparams_d`. -/
def device_results : Five Buf :=
  { d1 := Buf.hd1_d, d2 := Buf.hd2_d, x1 := Buf.hx1_d, y1 := Buf.hy1_d,
    param := Buf.hparams_d }

/-- The block `if(arg.unit_check || arg.norm_check) { ... }` (lines 116-202). -/
def correctness (env : Env T) (arg : Arguments) (s : State T) :
    Except (State T) (State T) :=
  if arg.unit_check || arg.norm_check then do
    let s ← set_pointer_mode env.toRuntime hipblasPointerMode_t.HOST s
    let s ← assert_call env arg Ptr.host host_bufs s
    let s ← set_pointer_mode env.toRuntime hipblasPointerMode_t.DEVICE s
    let s ← assert_call env arg Ptr.device device_bufs s
    let s ← hipMemcpy env.toRuntime Buf.hd1_d Buf.dd1 s
    let s ← hipMemcpy env.toRuntime Buf.hd2_d Buf.dd2 s
    let s ← hipMemcpy env.toRuntime Buf.hx1_d Buf.dx1 s
    let s ← hipMemcpy env.toRuntime Buf.hy1_d Buf.dy1 s
    let s ← hipMemcpy env.toRuntime Buf.hparams_d Buf.dparams s
    let s := oracle_loop env arg arg.batch_count.toNat 0 s
    let s := if arg.unit_check then
        near_checks env arg device_results (near_checks env arg host_bufs s)
      else s
    let s := if arg.norm_check then
        let h := norm_checks env arg host_bufs s
        let d := norm_checks env arg device_results h.1
        { d.1 with hipblas_error_host := h.2, hipblas_error_device := d.2 }
      else s
    pure s
  else pure s

/-- The block `if(arg.timing) { ... }` (lines 204-238). -/
def timing (env : Env T) (arg : Arguments) (s : State T) : Except (State T) (State T) :=
  if arg.timing then do
    let s ← get_stream env.toRuntime s
    let s ← set_pointer_mode env.toRuntime hipblasPointerMode_t.DEVICE s
    let s ← timing_loop (assert_call env arg Ptr.device device_bufs) arg.cold_iters
      (int32 (arg.cold_iters + arg.iters)).toNat 0 s
    let s := stop_clock s
    pure (s.emit (Event.log_args s.gpu_time_used Figure.NA_value Figure.NA_value
      s.hipblas_error_host s.hipblas_error_device))
  else pure s

/-- Lines 60-87: the handle, construction of the host buffers, data generation. -/
def setup (env : Env T) (arg : Arguments) (s : State T) : State T :=
  let s := s.emit Event.local_handle
  let s := alloc Buf.hd1 (size_d1 arg) 1 1 s
  let s := alloc Buf.hd2 (size_d1 arg) 1 1 s
  let s := alloc Buf.hx1 (size_d1 arg) 1 1 s
  let s := alloc Buf.hy1 (size_d1 arg) 1 1 s
  let s := alloc Buf.hparams (size_param arg) 1 1 s
  let s := init_vector env.toRuntime Buf.hparams [5, 1, stride_param arg, arg.batch_count] s
  let s := init_vector env.toRuntime Buf.hd1 [1, 1, stride_d1 arg, arg.batch_count] s
  let s := init_vector env.toRuntime Buf.hd2 [1, 1, stride_d1 arg, arg.batch_count] s
  let s := init_vector env.toRuntime Buf.hx1 [1, 1, stride_d1 arg, arg.batch_count] s
  init_vector env.toRuntime Buf.hy1 [1, 1, stride_d1 arg, arg.batch_count] s

/-- Lines 89-114: the copies for the reference routine, the result and device buffers,
the transfers to the device. -/
def staging (env : Env T) (arg : Arguments) (s : State T) : Except (State T) (State T) := do
  let s := copy_from Buf.cparams Buf.hparams s
  let s := copy_from Buf.cd1 Buf.hd1 s
  let s := copy_from Buf.cd2 Buf.hd2 s
  let s := copy_from Buf.cx1 Buf.hx1 s
  let s := copy_from Buf.cy1 Buf.hy1 s
  let s := alloc Buf.hd1_d (size_d1 arg) 1 1 s
  let s := alloc Buf.hd2_d (size_d1 arg) 1 1 s
  let s := alloc Buf.hx1_d (size_d1 arg) 1 1 s
  let s := alloc Buf.hy1_d (size_d1 arg) 1 1 s
  let s := alloc Buf.hparams_d (size_param arg) 1 1 s
  let s := alloc Buf.dd1 (size_d1 arg) 1 1 s
  let s := alloc Buf.dd2 (size_d1 arg) 1 1 s
  let s := alloc Buf.dx1 (size_d1 arg) 1 1 s
  let s := alloc Buf.dy1 (size_d1 arg) 1 1 s
  let s := alloc Buf.dparams (size_param arg) 1 1 s
  let s ← hipMemcpy env.toRuntime Buf.dd1 Buf.hd1 s
  let s ← hipMemcpy env.toRuntime Buf.dd2 Buf.hd2 s
  let s ← hipMemcpy env.toRuntime Buf.dx1 Buf.hx1 s
  let s ← hipMemcpy env.toRuntime Buf.dy1 Buf.hy1 s
  hipMemcpy env.toRuntime Buf.dparams Buf.hparams s

/-- The harness `testing_rotmg_strided_batched<T>(arg)`. -/
def testing_rotmg_strided_batched (env : Env T) (arg : Arguments) :
    Except (State T) (State T) :=
  if arg.batch_count ≤ 0 then
    pure St.init
  else do
    let s ← staging env arg (setup env arg St.init)
    let s ← correctness env arg s
    timing env arg s

end Rotmg

/-! ## Vocabulary of the statements -/

section Vocabulary

variable {ν C S : Type}

/-- An invocation of the device routine. -/
def Event.is_device_call : Event ν → Bool
  | Event.device_call _ _ _ => true
  | _ => false

/-- A pointer-mode switch. -/
def Event.is_set_pointer_mode : Event ν → Bool
  | Event.set_pointer_mode _ _ => true
  | _ => false

/-- An invocation of the device routine or a pointer-mode switch. -/
def Event.is_call_or_mode : Event ν → Bool
  | Event.device_call _ _ _ => true
  | Event.set_pointer_mode _ _ => true
  | _ => false

/-- A comparison of results: an element-wise check or a norm check. -/
def Event.is_comparison : Event ν → Bool
  | Event.unit_check _ _ => true
  | Event.norm_check _ _ => true
  | _ => false

/-- Construction of a container. -/
def Event.is_alloc : Event ν → Bool
  | Event.alloc _ _ _ _ => true
  | _ => false

/-- Every status-returning call of the common runtime reports success. -/
structure Runtime.Succeeds (rt : Runtime ν C) : Prop where
  memcheck : ∀ t b, rt.memcheck t b = hipError_t.hipSuccess
  transfer_from : ∀ t d s, rt.transfer_from t d s = hipError_t.hipSuccess
  hipMemcpy : ∀ t d s, rt.hipMemcpy t d s = hipError_t.hipSuccess
  hipblasSetPointerMode : ∀ t m, rt.hipblasSetPointerMode t m = hipblasStatus_t.SUCCESS
  hipblasGetStream : ∀ t, rt.hipblasGetStream t = hipblasStatus_t.SUCCESS

/-- State `s1` is reached from `s0` by external calls that all satisfy `A` and by
writes to buffers in `W` only. -/
def Reach (A : Event ν → Prop) (W : ν → Prop) (s0 s1 : St ν C S) : Prop :=
  (∃ t, s1.trace = s0.trace ++ t ∧ ∀ e ∈ t, A e) ∧ ∀ b, ¬ W b → s1.bufs b = s0.bufs b

/-- Events of `n` iterations of the timing loop from iteration `iter` on, when every
invocation is the event `ev`. -/
def loop_events (cold_iters : Int) (ev : Event ν) : Nat → Int → List (Event ν)
  | 0, _ => []
  | n + 1, iter =>
    (if iter = cold_iters then [Event.get_time] else []) ++ ev ::
      loop_events cold_iters ev n (iter + 1)

/-- The part of a state that the statements about traces depend on. -/
structure Summary (ν : Type) where
  trace : List (Event ν)
  pointer_mode : Option hipblasPointerMode_t
  hipblas_error_host : Figure ν
  hipblas_error_device : Figure ν

/-- Summary of a state. -/
def St.summary (s : St ν C S) : Summary ν :=
  { trace := s.trace, pointer_mode := s.pointer_mode,
    hipblas_error_host := s.hipblas_error_host,
    hipblas_error_device := s.hipblas_error_device }

/-- The summary `q` extended by the events `t`. -/
def Summary.add (q : Summary ν) (t : List (Event ν)) : Summary ν :=
  { q with trace := q.trace ++ t }

/-- The run `x` is not ended by an assertion, and stops in a state of summary `q`. -/
def Yields (x : Except (St ν C S) (St ν C S)) (q : Summary ν) : Prop :=
  ∃ s1, x = Except.ok s1 ∧ s1.summary = q

/-- A runtime in which every call succeeds, data are generated by `gen`, an
element-wise check passes when the two operands are equal and the norm check
leaves its operands alone. -/
def Runtime.sample (gen : ν → List Int → C) [DecidableEq C] : Runtime ν C :=
  { memcheck := fun _ _ => hipError_t.hipSuccess
    hipblas_init_vector := fun _ b d => gen b d
    transfer_from := fun _ _ _ => hipError_t.hipSuccess
    hipMemcpy := fun _ _ _ => hipError_t.hipSuccess
    hipblasSetPointerMode := fun _ _ => hipblasStatus_t.SUCCESS
    hipblasGetStream := fun _ => hipblasStatus_t.SUCCESS
    unit_check_general := fun _ _ a b => decide (a = b)
    norm_check_general := fun _ _ a b => (a, b) }

/-- An element-wise check (`unit_check_general` or `near_check_general`). -/
def Event.is_unit_check : Event ν → Bool
  | Event.unit_check _ _ => true
  | _ => false

/-- A norm check (`norm_check_general`). -/
def Event.is_norm_check : Event ν → Bool
  | Event.norm_check _ _ => true
  | _ => false

/-- The same call, reporting success. -/
def Event.succeeded : Event ν → Event ν
  | Event.device_call m p _ => Event.device_call m p hipblasStatus_t.SUCCESS
  | Event.memcheck b _ => Event.memcheck b hipError_t.hipSuccess
  | Event.transfer d s _ => Event.transfer d s hipError_t.hipSuccess
  | Event.set_pointer_mode m _ => Event.set_pointer_mode m hipblasStatus_t.SUCCESS
  | Event.get_stream _ => Event.get_stream hipblasStatus_t.SUCCESS
  | e => e

/-- The call reports a status other than success. -/
def Event.is_failure : Event ν → Bool
  | Event.device_call _ _ st => decide (st ≠ hipblasStatus_t.SUCCESS)
  | Event.memcheck _ r => decide (r ≠ hipError_t.hipSuccess)
  | Event.transfer _ _ r => decide (r ≠ hipError_t.hipSuccess)
  | Event.set_pointer_mode _ st => decide (st ≠ hipblasStatus_t.SUCCESS)
  | Event.get_stream st => decide (st ≠ hipblasStatus_t.SUCCESS)
  | _ => false

/-- The run `x`, started in a state of summary `q0`, follows the plan `q1` (the summary
of the run in which every call succeeds): either it returns in a state of summary `q1`,
or it is ended by a call `f` that reports a failure, with a failure recorded, after
having made the calls that the plan lists before that call, then that call, and nothing
more. -/
def Follows (x : Except (St ν C S) (St ν C S)) (q0 q1 : Summary ν) : Prop :=
  q0.trace <+: q1.trace ∧
    match x with
    | Except.ok s => s.summary = q1
    | Except.error s => s.failed = true ∧ ∃ t1 f t2,
        q1.trace = t1 ++ f.succeeded :: t2 ∧ s.trace = t1 ++ [f] ∧ f.is_failure = true

/-- In the trace `t` no element-wise check comes after a norm check. -/
def UnitBeforeNorm (t : List (Event ν)) : Prop :=
  ∀ t1 e t2, t = t1 ++ e :: t2 → e.is_norm_check = true → ∀ e2 ∈ t2, e2.is_unit_check = false

/-- In the trace `t` a call that reports a failure is the last call. -/
def FailStop (t : List (Event ν)) : Prop :=
  ∀ t1 f t2, t = t1 ++ f :: t2 → f.is_failure = true → t2 = []

end Vocabulary

/-- The configuration asks for timing, with `cold_iters ≥ 0` cold and `iters ≥ 1` measured
iterations whose sum `runs` is a representable `int`. -/
def Timed (arg : Arguments) : Prop :=
  arg.timing = true ∧ 0 ≤ arg.cold_iters ∧ 1 ≤ arg.iters ∧ arg.cold_iters + arg.iters < 2 ^ 31

/-- A configuration valid for the three harnesses: `N = 2`, `K = 1`, leading dimensions
2, unit increment, two batch entries, unit check only. -/
def sampleArg : Arguments :=
  { api := hipblas_client_api.C, fortran := false, uplo := 'U', transA := 'N',
    N := 2, K := 1, lda := 2, ldb := 2, ldc := 2, incx := 1, batch_count := 2,
    stride_scale := 1, alpha := 1, beta := 0,
    unit_check := true, norm_check := false, timing := false, cold_iters := 5, iters := 20 }

/-- The sample configuration with `lda = N - 1`, invalid for an untransposed operand. -/
def argShortLda : Arguments := { sampleArg with lda := 1 }

/-- The sample configuration with `batch_count = 0`. -/
def argZeroBatch : Arguments := { sampleArg with batch_count := 0 }

/-- The sample configuration with `N = 0`, unit check and timing (one cold and one
measured iteration). -/
def argZeroN : Arguments :=
  { sampleArg with N := 0, timing := true, cold_iters := 1, iters := 1 }

/-- The sample configuration with timing only: 5 cold and 20 measured iterations. -/
def argTimingOnly : Arguments := { sampleArg with unit_check := false, timing := true }

/-- The sample configuration with unit check and timing: 5 cold and 20 measured
iterations. -/
def argTimed : Arguments := { sampleArg with timing := true }

/-- Batched sample data: `batch_count` blocks of `n` sevens, from the integer arguments
`[n, inc, batch_count]` of the generator call. -/
def sampleBatch (d : List Int) : Batch Int :=
  List.replicate (d.getD 2 0).toNat (List.replicate (d.getD 0 0).toNat 7)

/-- The value is a 32-bit signed `int`. -/
def IsInt32 (z : Int) : Prop := -2 ^ 31 ≤ z ∧ z < 2 ^ 31

/-- The sample configuration with unit check and norm check. -/
def argBothChecks : Arguments := { sampleArg with norm_check := true }

/-- The sample configuration with `stride_scale = 2^60` and `batch_count = 16`. -/
def argHugeStride : Arguments := { sampleArg with stride_scale := 2 ^ 60, batch_count := 16 }

/-- The sample configuration with `stride_scale` the `double` nearest to 1.2, which is
`5404319552844595 / 2^52`, a little below 1.2. -/
def argRoundedStride : Arguments :=
  { sampleArg with stride_scale := 5404319552844595 / 2 ^ 52 }

/-- The sample configuration with `batch_count = 11` and `stride_scale` the `double`
`167697673397359552`, for which `5 * stride_scale * batch_count = 2^63 - 448`. -/
def argTieStride : Arguments :=
  { sampleArg with stride_scale := 167697673397359552, batch_count := 11 }

namespace Her

variable {T U : Type}

/-- Every call of the environment reports success. -/
structure Env.Succeeds (env : Env T U) : Prop where
  runtime : env.toRuntime.Succeeds
  routine : ∀ t f m u n a x i A l b,
    (env.hipblasHerBatched t f m u n a x i A l b).1 = hipblasStatus_t.SUCCESS

/-- The configuration does not take the quick return of lines 65-73. -/
def Checked (arg : Arguments) : Prop :=
  ¬ (arg.N < 0 ∨ arg.lda < arg.N ∨ arg.lda < 1 ∨ arg.incx = 0 ∨ arg.batch_count < 0) ∧
    arg.N ≠ 0 ∧ arg.batch_count ≠ 0

/-- The event of a successful invocation on the live buffers in pointer mode `m`. -/
def live_call (m : hipblasPointerMode_t) (alpha : Ptr Buf) : Event Buf :=
  Event.device_call (some m) [alpha, Ptr.device Buf.dx, Ptr.device Buf.dA]
    hipblasStatus_t.SUCCESS

/-- Events of lines 76-91 when every call succeeds. -/
def setup_events (arg : Arguments) : List (Event Buf) :=
  [Event.alloc Buf.hA (A_size arg) 1 arg.batch_count,
   Event.alloc Buf.hA_cpu (A_size arg) 1 arg.batch_count,
   Event.alloc Buf.hA_host (A_size arg) 1 arg.batch_count,
   Event.alloc Buf.hA_device (A_size arg) 1 arg.batch_count,
   Event.alloc Buf.hx (size_t arg.N) arg.incx arg.batch_count,
   Event.alloc Buf.dA (A_size arg) 1 arg.batch_count,
   Event.alloc Buf.dx (size_t arg.N) arg.incx arg.batch_count,
   Event.alloc Buf.d_alpha 1 1 1,
   Event.memcheck Buf.dA hipError_t.hipSuccess,
   Event.memcheck Buf.dx hipError_t.hipSuccess,
   Event.init_vector Buf.hA, Event.init_vector Buf.hx]

/-- Events of lines 93-96 when every call succeeds. -/
def staging_events : List (Event Buf) :=
  [Event.copy_from Buf.hA_cpu Buf.hA,
   Event.transfer Buf.dA Buf.hA hipError_t.hipSuccess,
   Event.transfer Buf.dx Buf.hx hipError_t.hipSuccess,
   Event.transfer Buf.d_alpha Buf.h_alpha hipError_t.hipSuccess]

/-- Events of the reference loop. -/
def oracle_events (arg : Arguments) : List (Event Buf) :=
  (List.range' 0 arg.batch_count.toNat).map
    (fun b => Event.oracle b [(Buf.hx, 0), (Buf.hA_cpu, 0)])

/-- Events of lines 98-152 when every call succeeds. -/
def correctness_events (arg : Arguments) : List (Event Buf) :=
  if arg.unit_check || arg.norm_check then
    [Event.set_pointer_mode hipblasPointerMode_t.HOST hipblasStatus_t.SUCCESS,
     live_call hipblasPointerMode_t.HOST (Ptr.host Buf.h_alpha),
     Event.transfer Buf.hA_host Buf.dA hipError_t.hipSuccess,
     Event.transfer Buf.dA Buf.hA hipError_t.hipSuccess,
     Event.set_pointer_mode hipblasPointerMode_t.DEVICE hipblasStatus_t.SUCCESS,
     live_call hipblasPointerMode_t.DEVICE (Ptr.device Buf.d_alpha),
     Event.transfer Buf.hA_device Buf.dA hipError_t.hipSuccess]
    ++ oracle_events arg
    ++ (if arg.unit_check then
          [Event.unit_check Buf.hA_cpu Buf.hA_host, Event.unit_check Buf.hA_cpu Buf.hA_host]
        else [])
    ++ (if arg.norm_check then
          [Event.norm_check Buf.hA_cpu Buf.hA_host, Event.norm_check Buf.hA_cpu Buf.hA_device]
        else [])
  else []

/-- Events of lines 154-186 when every call succeeds; `g` is the elapsed time and
`eh`, `ed` the values of the error locals. -/
def timing_events (arg : Arguments) (g eh ed : Figure Buf) : List (Event Buf) :=
  if arg.timing then
    [Event.transfer Buf.dA Buf.hA hipError_t.hipSuccess,
     Event.get_stream hipblasStatus_t.SUCCESS,
     Event.set_pointer_mode hipblasPointerMode_t.DEVICE hipblasStatus_t.SUCCESS]
    ++ loop_events arg.cold_iters
        (live_call hipblasPointerMode_t.DEVICE (Ptr.device Buf.d_alpha))
        (int32 (arg.cold_iters + arg.iters)).toNat 0
    ++ [Event.get_time,
        Event.log_args g Figure.gflop_count Figure.gbyte_count eh ed]
  else []

/-- Value of `hipblas_error_host` after the correctness block. -/
def error_host (arg : Arguments) : Figure Buf :=
  if arg.norm_check then Figure.norm Buf.hA_cpu Buf.hA_host else Figure.indeterminate

/-- Value of `hipblas_error_device` after the correctness block. -/
def error_device (arg : Arguments) : Figure Buf :=
  if arg.norm_check then Figure.norm Buf.hA_cpu Buf.hA_device else Figure.indeterminate

/-- Events of a whole run past the quick return when every call succeeds. -/
def run_events (arg : Arguments) (g : Figure Buf) : List (Event Buf) :=
  Event.local_handle :: (setup_events arg ++ staging_events ++ correctness_events arg
    ++ timing_events arg g (error_host arg) (error_device arg))

/-- Events a run can contain, whatever the environment answers. -/
def emits : Event Buf → Bool
  | Event.local_handle => true
  | Event.device_call _ [Ptr.nullptr, Ptr.nullptr, Ptr.nullptr] _ => true
  | Event.device_call _ [Ptr.host Buf.h_alpha, Ptr.device Buf.dx, Ptr.device Buf.dA] _ => true
  | Event.device_call _ [Ptr.device Buf.d_alpha, Ptr.device Buf.dx, Ptr.device Buf.dA] _ =>
    true
  | Event.expect_status _ _ => true
  | Event.alloc _ _ _ _ => true
  | Event.memcheck _ _ => true
  | Event.init_vector Buf.hA => true
  | Event.init_vector Buf.hx => true
  | Event.copy_from Buf.hA_cpu Buf.hA => true
  | Event.transfer _ _ _ => true
  | Event.set_pointer_mode _ _ => true
  | Event.oracle _ [(Buf.hx, 0), (Buf.hA_cpu, 0)] => true
  | Event.unit_check Buf.hA_cpu Buf.hA_host => true
  | Event.norm_check Buf.hA_cpu Buf.hA_host => true
  | Event.norm_check Buf.hA_cpu Buf.hA_device => true
  | Event.get_stream _ => true
  | Event.get_time => true
  | Event.log_args _ _ _ _ _ => true
  | _ => false

/-- Buffers written after data generation (lines 93-186). -/
def later_written : Buf → Bool
  | Buf.hA_cpu => true
  | Buf.hA_host => true
  | Buf.hA_device => true
  | Buf.dA => true
  | Buf.dx => true
  | _ => false

/-- The statements of lines 93-186, which follow data generation. -/
def after_setup (env : Env T U) (arg : Arguments) (s : State T U) :
    Except (State T U) (State T U) := do
  let s ← staging env arg s
  let s ← correctness env arg s
  timing env arg s

/-- A sample environment: every call succeeds; the device routine adds `alpha` to every
element of `A` in host pointer mode and `alpha + bias` in device pointer mode; the
reference routine adds `alpha`. -/
def sampleEnv (bias : Int) : Env Int Int :=
  { toRuntime := Runtime.sample (fun _ d => sampleBatch d)
    char2hipblas_fill := fun c => if c = 'U' then hipblasFillMode_t.UPPER
      else hipblasFillMode_t.LOWER
    get_alpha := fun _ => 1
    hipblasHerBatched := fun _ _ m _ _ a _ _ A _ _ =>
      (hipblasStatus_t.SUCCESS, A.map (fun l => l.map (fun e => e.map (fun v =>
        v + a.getD 0 + (if m = some hipblasPointerMode_t.DEVICE then bias else 0)))))
    cblas_her := fun _ _ a _ _ A _ => (A.getD []).map (fun v => v + a) }

/-- Lines 103-117: the host-pointer-mode pass: the invocation, the capture of its
result in `hA_host`, the restoring of `dA` from `hA` and the switch to device pointer
mode. -/
def host_pass (env : Env T U) (arg : Arguments) (s : State T U) :
    Except (State T U) (State T U) := do
  let s ← set_pointer_mode env.toRuntime hipblasPointerMode_t.HOST s
  let s ← assert_call env arg (Ptr.host Buf.h_alpha) s
  let s ← transfer_from env.toRuntime Buf.hA_host Buf.dA s
  let s ← transfer_from env.toRuntime Buf.dA Buf.hA s
  set_pointer_mode env.toRuntime hipblasPointerMode_t.DEVICE s

/-- Lines 118-128: the device-pointer-mode invocation and the capture of its result in
`hA_device`. -/
def device_pass (env : Env T U) (arg : Arguments) (s : State T U) :
    Except (State T U) (State T U) := do
  let s ← assert_call env arg (Ptr.device Buf.d_alpha) s
  transfer_from env.toRuntime Buf.hA_device Buf.dA s

/-- Lines 140-151: the comparisons with the reference result. -/
def comparisons (env : Env T U) (arg : Arguments) (s : State T U) : State T U :=
  let s := if arg.unit_check then
      unit_check env.toRuntime (check_dims arg) Buf.hA_cpu Buf.hA_host
        (unit_check env.toRuntime (check_dims arg) Buf.hA_cpu Buf.hA_host s)
    else s
  if arg.norm_check then
    { norm_check env.toRuntime (check_dims arg) Buf.hA_cpu Buf.hA_device
        { norm_check env.toRuntime (check_dims arg) Buf.hA_cpu Buf.hA_host s with
          hipblas_error_host := Figure.norm Buf.hA_cpu Buf.hA_host } with
      hipblas_error_device := Figure.norm Buf.hA_cpu Buf.hA_device }
  else s

/-- Lines 61-117 past the quick return: the run up to the device-pointer-mode
invocation of the correctness block. -/
def before_device_call (env : Env T U) (arg : Arguments) : Except (State T U) (State T U) := do
  let s ← setup env arg (St.init.emit Event.local_handle)
  let s ← staging env arg s
  host_pass env arg s

/-- Lines 61-128 past the quick return: the run up to the reference loop. -/
def before_oracle (env : Env T U) (arg : Arguments) : Except (State T U) (State T U) := do
  let s ← before_device_call env arg
  device_pass env arg s

/-- Lines 133-186: the run from the reference loop on. -/
def from_oracle (env : Env T U) (arg : Arguments) (s : State T U) :
    Except (State T U) (State T U) :=
  timing env arg (comparisons env arg (oracle_loop env arg arg.batch_count.toNat 0 s))

/-- Lines 118-186: the run from the device-pointer-mode invocation of the correctness
block on. -/
def from_device_call (env : Env T U) (arg : Arguments) (s : State T U) :
    Except (State T U) (State T U) := do
  let s ← device_pass env arg s
  from_oracle env arg s

/-- The sample environment, except that the device routine reports an internal error
when it is invoked in host pointer mode. -/
def failingEnv : Env Int Int :=
  { sampleEnv 0 with
    hipblasHerBatched := fun _ _ m _ _ _ _ _ A _ _ =>
      (if m = some hipblasPointerMode_t.HOST then hipblasStatus_t.INTERNAL_ERROR
        else hipblasStatus_t.SUCCESS, A) }

end Her

namespace Syr2k

variable {T : Type}

/-- Every call of the environment reports success. -/
structure Env.Succeeds (env : Env T) : Prop where
  runtime : env.toRuntime.Succeeds
  routine : ∀ t f m u o n k a A la B lb be cc lc b,
    (env.hipblasSyr2kBatched t f m u o n k a A la B lb be cc lc b).1 = hipblasStatus_t.SUCCESS

/-- The configuration is invalid in the sense of lines 71-72, for the converted
operation `transA`. -/
def Invalid (transA : hipblasOperation_t) (arg : Arguments) : Prop :=
  arg.N < 0 ∨ arg.K < 0 ∨ arg.ldc < arg.N ∨ arg.batch_count < 0 ∨
    (transA = hipblasOperation_t.OP_N ∧ (arg.lda < arg.N ∨ arg.ldb < arg.N)) ∨
    (transA ≠ hipblasOperation_t.OP_N ∧ (arg.lda < arg.K ∨ arg.ldb < arg.K))

/-- The configuration passes the checks of lines 71-79. -/
def Checked (transA : hipblasOperation_t) (arg : Arguments) : Prop :=
  ¬ Invalid transA arg ∧ arg.batch_count ≠ 0

/-- The event of a successful invocation on the live buffers in pointer mode `m`. -/
def live_call (m : hipblasPointerMode_t) (alpha beta : Ptr Buf) : Event Buf :=
  Event.device_call (some m)
    [alpha, Ptr.device Buf.dA, Ptr.device Buf.dB, beta, Ptr.device Buf.dC]
    hipblasStatus_t.SUCCESS

/-- Events of lines 81-108 when every call succeeds. -/
def setup_events (transA : hipblasOperation_t) (arg : Arguments) : List (Event Buf) :=
  [Event.local_handle,
   Event.alloc Buf.hA (A_size transA arg) 1 arg.batch_count,
   Event.alloc Buf.hB (B_size transA arg) 1 arg.batch_count,
   Event.alloc Buf.hC_host (C_size arg) 1 arg.batch_count,
   Event.alloc Buf.hC_device (C_size arg) 1 arg.batch_count,
   Event.alloc Buf.hC_gold (C_size arg) 1 arg.batch_count,
   Event.alloc Buf.dA (A_size transA arg) 1 arg.batch_count,
   Event.alloc Buf.dB (B_size transA arg) 1 arg.batch_count,
   Event.alloc Buf.dC (C_size arg) 1 arg.batch_count,
   Event.alloc Buf.d_alpha 1 1 1,
   Event.alloc Buf.d_beta 1 1 1,
   Event.memcheck Buf.dA hipError_t.hipSuccess,
   Event.memcheck Buf.dB hipError_t.hipSuccess,
   Event.memcheck Buf.dC hipError_t.hipSuccess,
   Event.init_vector Buf.hA, Event.init_vector Buf.hB, Event.init_vector Buf.hC_host]

/-- Events of lines 110-117 when every call succeeds. -/
def staging_events : List (Event Buf) :=
  [Event.copy_from Buf.hC_device Buf.hC_host,
   Event.copy_from Buf.hC_gold Buf.hC_host,
   Event.transfer Buf.dA Buf.hA hipError_t.hipSuccess,
   Event.transfer Buf.dB Buf.hB hipError_t.hipSuccess,
   Event.transfer Buf.dC Buf.hC_host hipError_t.hipSuccess,
   Event.transfer Buf.d_alpha Buf.h_alpha hipError_t.hipSuccess,
   Event.transfer Buf.d_beta Buf.h_beta hipError_t.hipSuccess]

/-- Events of the reference loop. -/
def oracle_events (arg : Arguments) : List (Event Buf) :=
  (List.range' 0 arg.batch_count.toNat).map
    (fun b => Event.oracle b [(Buf.hA, 0), (Buf.hB, 0), (Buf.hC_gold, 0)])

/-- Events of lines 119-185 when every call succeeds. -/
def correctness_events (arg : Arguments) : List (Event Buf) :=
  if arg.unit_check || arg.norm_check then
    [Event.set_pointer_mode hipblasPointerMode_t.HOST hipblasStatus_t.SUCCESS,
     live_call hipblasPointerMode_t.HOST (Ptr.host Buf.h_alpha) (Ptr.host Buf.h_beta),
     Event.transfer Buf.hC_host Buf.dC hipError_t.hipSuccess,
     Event.transfer Buf.dC Buf.hC_device hipError_t.hipSuccess,
     Event.set_pointer_mode hipblasPointerMode_t.DEVICE hipblasStatus_t.SUCCESS,
     live_call hipblasPointerMode_t.DEVICE (Ptr.device Buf.d_alpha) (Ptr.device Buf.d_beta),
     Event.transfer Buf.hC_device Buf.dC hipError_t.hipSuccess]
    ++ oracle_events arg
    ++ (if arg.unit_check then
          [Event.unit_check Buf.hC_gold Buf.hC_host, Event.unit_check Buf.hC_gold Buf.hC_device]
        else [])
    ++ (if arg.norm_check then
          [Event.norm_check Buf.hC_gold Buf.hC_host, Event.norm_check Buf.hC_gold Buf.hC_device]
        else [])
  else []

/-- Events of lines 187-223 when every call succeeds; `g` is the elapsed time and
`eh`, `ed` the values of the error locals. -/
def timing_events (arg : Arguments) (g eh ed : Figure Buf) : List (Event Buf) :=
  if arg.timing then
    [Event.get_stream hipblasStatus_t.SUCCESS,
     Event.set_pointer_mode hipblasPointerMode_t.DEVICE hipblasStatus_t.SUCCESS]
    ++ loop_events arg.cold_iters
        (live_call hipblasPointerMode_t.DEVICE (Ptr.device Buf.d_alpha)
          (Ptr.device Buf.d_beta))
        (int32 (arg.cold_iters + arg.iters)).toNat 0
    ++ [Event.get_time,
        Event.log_args g Figure.gflop_count Figure.gbyte_count eh ed]
  else []

/-- Value of `hipblas_error_host` after the correctness block. -/
def error_host (arg : Arguments) : Figure Buf :=
  if arg.norm_check then Figure.norm Buf.hC_gold Buf.hC_host else Figure.indeterminate

/-- Value of `hipblas_error_device` after the correctness block. -/
def error_device (arg : Arguments) : Figure Buf :=
  if arg.norm_check then Figure.norm Buf.hC_gold Buf.hC_device else Figure.indeterminate

/-- Events of a whole run past the checks when every call succeeds. -/
def run_events (transA : hipblasOperation_t) (arg : Arguments) (g : Figure Buf) :
    List (Event Buf) :=
  setup_events transA arg ++ staging_events ++ correctness_events arg
    ++ timing_events arg g (error_host arg) (error_device arg)

/-- Events a run can contain, whatever the environment answers. -/
def emits : Event Buf → Bool
  | Event.local_handle => true
  | Event.device_call _
      [Ptr.host Buf.h_alpha, Ptr.device Buf.dA, Ptr.device Buf.dB, Ptr.host Buf.h_beta,
        Ptr.device Buf.dC] _ => true
  | Event.device_call _
      [Ptr.device Buf.d_alpha, Ptr.device Buf.dA, Ptr.device Buf.dB, Ptr.device Buf.d_beta,
        Ptr.device Buf.dC] _ => true
  | Event.alloc _ _ _ _ => true
  | Event.memcheck _ _ => true
  | Event.init_vector Buf.hA => true
  | Event.init_vector Buf.hB => true
  | Event.init_vector Buf.hC_host => true
  | Event.copy_from Buf.hC_device Buf.hC_host => true
  | Event.copy_from Buf.hC_gold Buf.hC_host => true
  | Event.transfer _ _ _ => true
  | Event.set_pointer_mode _ _ => true
  | Event.oracle _ [(Buf.hA, 0), (Buf.hB, 0), (Buf.hC_gold, 0)] => true
  | Event.unit_check Buf.hC_gold Buf.hC_host => true
  | Event.unit_check Buf.hC_gold Buf.hC_device => true
  | Event.norm_check Buf.hC_gold Buf.hC_host => true
  | Event.norm_check Buf.hC_gold Buf.hC_device => true
  | Event.get_stream _ => true
  | Event.get_time => true
  | Event.log_args _ _ _ _ _ => true
  | _ => false

/-- Buffers written after data generation (lines 110-223). -/
def later_written : Buf → Bool
  | Buf.hC_host => true
  | Buf.hC_device => true
  | Buf.hC_gold => true
  | Buf.dA => true
  | Buf.dB => true
  | Buf.dC => true
  | _ => false

/-- The statements of lines 110-223, which follow data generation. -/
def after_setup (env : Env T) (arg : Arguments) (s : State T) :
    Except (State T) (State T) := do
  let s ← staging env arg s
  let s ← correctness env arg s
  timing env arg s

/-- A sample environment: every call succeeds; the device routine adds `alpha` to every
element of `C` in host pointer mode and `alpha + bias` in device pointer mode; the
reference routine adds `alpha`. -/
def sampleEnv (bias : Int) : Env Int :=
  { toRuntime := Runtime.sample (fun _ d => sampleBatch d)
    char2hipblas_fill := fun c => if c = 'U' then hipblasFillMode_t.UPPER
      else hipblasFillMode_t.LOWER
    char2hipblas_operation := fun c => if c = 'N' then hipblasOperation_t.OP_N
      else hipblasOperation_t.OP_T
    get_alpha := fun _ => 1
    get_beta := fun _ => 0
    hipblasSyr2kBatched := fun _ _ m _ _ _ _ a _ _ _ _ _ cc _ _ =>
      (hipblasStatus_t.SUCCESS, cc.map (fun l => l.map (fun e => e.map (fun v =>
        v + a.getD 0 + (if m = some hipblasPointerMode_t.DEVICE then bias else 0)))))
    cblas_syr2k := fun _ _ _ _ a _ _ _ _ _ cc _ => (cc.getD []).map (fun v => v + a) }

/-- Lines 124-143: the host-pointer-mode pass: the invocation, the capture of its
result in `hC_host`, the restoring of `dC` from `hC_device` and the switch to device
pointer mode. -/
def host_pass (env : Env T) (arg : Arguments) (s : State T) : Except (State T) (State T) := do
  let s ← set_pointer_mode env.toRuntime hipblasPointerMode_t.HOST s
  let s ← assert_call env arg (Ptr.host Buf.h_alpha) (Ptr.host Buf.h_beta) s
  let s ← transfer_from env.toRuntime Buf.hC_host Buf.dC s
  let s ← transfer_from env.toRuntime Buf.dC Buf.hC_device s
  set_pointer_mode env.toRuntime hipblasPointerMode_t.DEVICE s

/-- Lines 144-159: the device-pointer-mode invocation and the capture of its result in
`hC_device`. -/
def device_pass (env : Env T) (arg : Arguments) (s : State T) : Except (State T) (State T) := do
  let s ← assert_call env arg (Ptr.device Buf.d_alpha) (Ptr.device Buf.d_beta) s
  transfer_from env.toRuntime Buf.hC_device Buf.dC s

/-- Lines 172-184: the comparisons with the reference result. -/
def comparisons (env : Env T) (arg : Arguments) (s : State T) : State T :=
  let s := if arg.unit_check then
      unit_check env.toRuntime (check_dims arg) Buf.hC_gold Buf.hC_device
        (unit_check env.toRuntime (check_dims arg) Buf.hC_gold Buf.hC_host s)
    else s
  if arg.norm_check then
    { norm_check env.toRuntime (check_dims arg) Buf.hC_gold Buf.hC_device
        { norm_check env.toRuntime (check_dims arg) Buf.hC_gold Buf.hC_host s with
          hipblas_error_host := Figure.norm Buf.hC_gold Buf.hC_host } with
      hipblas_error_device := Figure.norm Buf.hC_gold Buf.hC_device }
  else s

/-- Lines 81-143: the run, past the checks of lines 71-79, up to the
device-pointer-mode invocation of the correctness block. -/
def before_device_call (env : Env T) (arg : Arguments) : Except (State T) (State T) := do
  let s ← setup env arg St.init
  let s ← staging env arg s
  host_pass env arg s

/-- Lines 81-159: the run up to the reference loop. -/
def before_oracle (env : Env T) (arg : Arguments) : Except (State T) (State T) := do
  let s ← before_device_call env arg
  device_pass env arg s

/-- Lines 164-223: the run from the reference loop on. -/
def from_oracle (env : Env T) (arg : Arguments) (s : State T) : Except (State T) (State T) :=
  timing env arg (comparisons env arg (oracle_loop env arg arg.batch_count.toNat 0 s))

/-- Lines 144-223: the run from the device-pointer-mode invocation of the correctness
block on. -/
def from_device_call (env : Env T) (arg : Arguments) (s : State T) :
    Except (State T) (State T) := do
  let s ← device_pass env arg s
  from_oracle env arg s

end Syr2k

namespace Rotmg

variable {T : Type}

/-- Every call of the environment reports success. -/
structure Env.Succeeds (env : Env T) : Prop where
  runtime : env.toRuntime.Succeeds
  routine : ∀ t f m p st b,
    (env.hipblasRotmgStridedBatched t f m p st b).1 = hipblasStatus_t.SUCCESS

/-- The event of a successful invocation on the buffers `p` in pointer mode `m`. -/
def live_call (m : hipblasPointerMode_t) (ptr : Buf → Ptr Buf) (p : Five Buf) : Event Buf :=
  Event.device_call (some m) [ptr p.d1, ptr p.d2, ptr p.x1, ptr p.y1, ptr p.param]
    hipblasStatus_t.SUCCESS

/-- Events of lines 60-87. -/
def setup_events (arg : Arguments) : List (Event Buf) :=
  [Event.local_handle,
   Event.alloc Buf.hd1 (size_d1 arg) 1 1,
   Event.alloc Buf.hd2 (size_d1 arg) 1 1,
   Event.alloc Buf.hx1 (size_d1 arg) 1 1,
   Event.alloc Buf.hy1 (size_d1 arg) 1 1,
   Event.alloc Buf.hparams (size_param arg) 1 1,
   Event.init_vector Buf.hparams, Event.init_vector Buf.hd1, Event.init_vector Buf.hd2,
   Event.init_vector Buf.hx1, Event.init_vector Buf.hy1]

/-- Events of lines 89-114 when every call succeeds. -/
def staging_events (arg : Arguments) : List (Event Buf) :=
  [Event.copy_from Buf.cparams Buf.hparams,
   Event.copy_from Buf.cd1 Buf.hd1,
   Event.copy_from Buf.cd2 Buf.hd2,
   Event.copy_from Buf.cx1 Buf.hx1,
   Event.copy_from Buf.cy1 Buf.hy1,
   Event.alloc Buf.hd1_d (size_d1 arg) 1 1,
   Event.alloc Buf.hd2_d (size_d1 arg) 1 1,
   Event.alloc Buf.hx1_d (size_d1 arg) 1 1,
   Event.alloc Buf.hy1_d (size_d1 arg) 1 1,
   Event.alloc Buf.hparams_d (size_param arg) 1 1,
   Event.alloc Buf.dd1 (size_d1 arg) 1 1,
   Event.alloc Buf.dd2 (size_d1 arg) 1 1,
   Event.alloc Buf.dx1 (size_d1 arg) 1 1,
   Event.alloc Buf.dy1 (size_d1 arg) 1 1,
   Event.alloc Buf.dparams (size_param arg) 1 1,
   Event.transfer Buf.dd1 Buf.hd1 hipError_t.hipSuccess,
   Event.transfer Buf.dd2 Buf.hd2 hipError_t.hipSuccess,
   Event.transfer Buf.dx1 Buf.hx1 hipError_t.hipSuccess,
   Event.transfer Buf.dy1 Buf.hy1 hipError_t.hipSuccess,
   Event.transfer Buf.dparams Buf.hparams hipError_t.hipSuccess]

/-- The event of the reference call for batch entry `b`. -/
def oracle_event (arg : Arguments) (b : Nat) : Event Buf :=
  Event.oracle b [(Buf.cd1, int64 (b * stride_d1 arg)), (Buf.cd2, int64 (b * stride_d1 arg)),
    (Buf.cx1, int64 (b * stride_d1 arg)), (Buf.cy1, int64 (b * stride_d1 arg)),
    (Buf.cparams, int64 (b * stride_param arg))]

/-- Events of the reference loop. -/
def oracle_events (arg : Arguments) : List (Event Buf) :=
  (List.range' 0 arg.batch_count.toNat).map (oracle_event arg)

/-- Events of five element-wise checks against the result buffers `r`. -/
def near_events (r : Five Buf) : List (Event Buf) :=
  [Event.unit_check Buf.cd1 r.d1, Event.unit_check Buf.cd2 r.d2,
   Event.unit_check Buf.cx1 r.x1, Event.unit_check Buf.cy1 r.y1,
   Event.unit_check Buf.cparams r.param]

/-- Events of five norm checks against the result buffers `r`. -/
def norm_events (r : Five Buf) : List (Event Buf) :=
  [Event.norm_check Buf.cd1 r.d1, Event.norm_check Buf.cd2 r.d2,
   Event.norm_check Buf.cx1 r.x1, Event.norm_check Buf.cy1 r.y1,
   Event.norm_check Buf.cparams r.param]

/-- The error accumulated by five norm checks against the result buffers `r`. -/
def norm_sum (r : Five Buf) : Figure Buf :=
  Figure.plus (Figure.plus (Figure.plus (Figure.plus (Figure.norm Buf.cd1 r.d1)
    (Figure.norm Buf.cd2 r.d2)) (Figure.norm Buf.cx1 r.x1)) (Figure.norm Buf.cy1 r.y1))
    (Figure.norm Buf.cparams r.param)

/-- Events of lines 116-202 when every call succeeds. -/
def correctness_events (arg : Arguments) : List (Event Buf) :=
  if arg.unit_check || arg.norm_check then
    [Event.set_pointer_mode hipblasPointerMode_t.HOST hipblasStatus_t.SUCCESS,
     live_call hipblasPointerMode_t.HOST Ptr.host host_bufs,
     Event.set_pointer_mode hipblasPointerMode_t.DEVICE hipblasStatus_t.SUCCESS,
     live_call hipblasPointerMode_t.DEVICE Ptr.device device_bufs,
     Event.transfer Buf.hd1_d Buf.dd1 hipError_t.hipSuccess,
     Event.transfer Buf.hd2_d Buf.dd2 hipError_t.hipSuccess,
     Event.transfer Buf.hx1_d Buf.dx1 hipError_t.hipSuccess,
     Event.transfer Buf.hy1_d Buf.dy1 hipError_t.hipSuccess,
     Event.transfer Buf.hparams_d Buf.dparams hipError_t.hipSuccess]
    ++ oracle_events arg
    ++ (if arg.unit_check then near_events host_bufs ++ near_events device_results else [])
    ++ (if arg.norm_check then norm_events host_bufs ++ norm_events device_results else [])
  else []

/-- Events of lines 204-238 when every call succeeds; `g` is the elapsed time and
`eh`, `ed` the values of the error locals. -/
def timing_events (arg : Arguments) (g eh ed : Figure Buf) : List (Event Buf) :=
  if arg.timing then
    [Event.get_stream hipblasStatus_t.SUCCESS,
     Event.set_pointer_mode hipblasPointerMode_t.DEVICE hipblasStatus_t.SUCCESS]
    ++ loop_events arg.cold_iters (live_call hipblasPointerMode_t.DEVICE Ptr.device device_bufs)
        (int32 (arg.cold_iters + arg.iters)).toNat 0
    ++ [Event.get_time,
        Event.log_args g Figure.NA_value Figure.NA_value eh ed]
  else []

/-- Value of `hipblas_error_host` after the correctness block. -/
def error_host (arg : Arguments) : Figure Buf :=
  if arg.norm_check then norm_sum host_bufs else Figure.indeterminate

/-- Value of `hipblas_error_device` after the correctness block. -/
def error_device (arg : Arguments) : Figure Buf :=
  if arg.norm_check then norm_sum device_results else Figure.indeterminate

/-- Events of a whole run with `batch_count > 0` when every call succeeds. -/
def run_events (arg : Arguments) (g : Figure Buf) : List (Event Buf) :=
  setup_events arg ++ staging_events arg ++ correctness_events arg
    ++ timing_events arg g (error_host arg) (error_device arg)

/-- The statements of lines 89-238, which follow data generation. -/
def after_setup (env : Env T) (arg : Arguments) (s : State T) :
    Except (State T) (State T) := do
  let s ← staging env arg s
  let s ← correctness env arg s
  timing env arg s

/-- A sample environment: every call succeeds; every buffer is generated as two
sevens; the device routine and the reference routine add one to `d1`. -/
def sampleEnv : Env Int :=
  { toRuntime := Runtime.sample (fun _ _ => [7, 7])
    hipblasRotmgStridedBatched := fun _ _ _ p _ _ =>
      (hipblasStatus_t.SUCCESS, { p with d1 := p.d1.map (fun l => l.map (fun v => v + 1)) })
    cblas_rotmg := fun p =>
      { d1 := p.d1.map (fun v => v.getD 0 + 1), d2 := p.d2.map (fun v => v.getD 0),
        x1 := p.x1.map (fun v => v.getD 0), y1 := p.y1.map (fun v => v.getD 0),
        param := p.param.map (fun v => v.getD 0) } }

/-- Lines 118-132: the host-pointer-mode pass, on the host buffers, and the switch to
device pointer mode. -/
def host_pass (env : Env T) (arg : Arguments) (s : State T) : Except (State T) (State T) := do
  let s ← set_pointer_mode env.toRuntime hipblasPointerMode_t.HOST s
  let s ← assert_call env arg Ptr.host host_bufs s
  set_pointer_mode env.toRuntime hipblasPointerMode_t.DEVICE s

/-- Lines 133-151: the device-pointer-mode invocation and the capture of its results
in `hd1_d, ..., hparams_d`. -/
def device_pass (env : Env T) (arg : Arguments) (s : State T) : Except (State T) (State T) := do
  let s ← assert_call env arg Ptr.device device_bufs s
  let s ← hipMemcpy env.toRuntime Buf.hd1_d Buf.dd1 s
  let s ← hipMemcpy env.toRuntime Buf.hd2_d Buf.dd2 s
  let s ← hipMemcpy env.toRuntime Buf.hx1_d Buf.dx1 s
  let s ← hipMemcpy env.toRuntime Buf.hy1_d Buf.dy1 s
  hipMemcpy env.toRuntime Buf.hparams_d Buf.dparams s

/-- Lines 162-201: the comparisons with the reference results. -/
def comparisons (env : Env T) (arg : Arguments) (s : State T) : State T :=
  let s := if arg.unit_check then
      near_checks env arg device_results (near_checks env arg host_bufs s)
    else s
  if arg.norm_check then
    let h := norm_checks env arg host_bufs s
    let d := norm_checks env arg device_results h.1
    { d.1 with hipblas_error_host := h.2, hipblas_error_device := d.2 }
  else s

/-- Lines 60-132: the run, for `batch_count > 0`, up to the device-pointer-mode
invocation of the correctness block. -/
def before_device_call (env : Env T) (arg : Arguments) : Except (State T) (State T) := do
  let s ← staging env arg (setup env arg St.init)
  host_pass env arg s

/-- Lines 60-151: the run up to the reference loop. -/
def before_oracle (env : Env T) (arg : Arguments) : Except (State T) (State T) := do
  let s ← before_device_call env arg
  device_pass env arg s

/-- Lines 153-238: the run from the reference loop on. -/
def from_oracle (env : Env T) (arg : Arguments) (s : State T) : Except (State T) (State T) :=
  timing env arg (comparisons env arg (oracle_loop env arg arg.batch_count.toNat 0 s))

/-- Lines 133-238: the run from the device-pointer-mode invocation of the correctness
block on. -/
def from_device_call (env : Env T) (arg : Arguments) (s : State T) :
    Except (State T) (State T) := do
  let s ← device_pass env arg s
  from_oracle env arg s

/-- The strides are at least one element (`stride_scale ≥ 1`) and the largest buffer
size, `batch_count * stride_param` with `stride_param` the converted `double` product
`5 * stride_scale` of line 52, is a representable `hipblasStride`. -/
def Strided (arg : Arguments) : Prop :=
  1 ≤ arg.batch_count ∧ 1 ≤ arg.stride_scale ∧
    arg.batch_count * trunc (double_mul 5 arg.stride_scale) < 2 ^ 63

end Rotmg

/-! # Theorems -/

/-! ## Sequencing and machine integers -/

theorem ok_bind {σ : Type} (a : σ) (f : σ → Except σ σ) : (Except.ok a >>= f) = f a := rfl

theorem error_bind {σ : Type} (a : σ) (f : σ → Except σ σ) :
    ((Except.error a : Except σ σ) >>= f) = Except.error a := rfl

theorem final_ok {σ : Type} (a : σ) : final (Except.ok a : Except σ σ) = a := rfl

theorem final_pure {σ : Type} (a : σ) : final (pure a : Except σ σ) = a := rfl

theorem int32_eq_self (z : Int) (h0 : -2 ^ 31 ≤ z) (h1 : z < 2 ^ 31) : int32 z = z := by
  unfold int32 wrapS
  norm_num at h0 h1 ⊢
  omega

section Generic

variable {ν C S : Type}

/-! ## Runs in which every call succeeds -/

theorem Yields.andThen {x : Except (St ν C S) (St ν C S)}
    {g : St ν C S → Except (St ν C S) (St ν C S)} {q q1 : Summary ν}
    (hx : Yields x q) (hg : ∀ s, s.summary = q → Yields (g s) q1) : Yields (x >>= g) q1 := by
  obtain ⟨s1, h1, h2⟩ := hx
  rw [h1]
  exact hg s1 h2

theorem Yields.of_eq {x : Except (St ν C S) (St ν C S)} {q q1 : Summary ν}
    (hx : Yields x q) (h : q = q1) : Yields x q1 := h ▸ hx

theorem Yields.pure {s : St ν C S} {q : Summary ν} (h : s.summary = q) :
    Yields (Pure.pure s) q :=
  ⟨s, rfl, h⟩

theorem Yields.final_summary {x : Except (St ν C S) (St ν C S)} {q : Summary ν}
    (h : Yields x q) : (final x).summary = q ∧ aborted x = false := by
  obtain ⟨s1, h1, h2⟩ := h
  rw [h1]
  exact ⟨h2, rfl⟩

theorem trace_eq_summary (s : St ν C S) : s.trace = s.summary.trace := rfl

theorem pointer_mode_eq_summary (s : St ν C S) : s.pointer_mode = s.summary.pointer_mode := rfl

theorem error_host_eq_summary (s : St ν C S) :
    s.hipblas_error_host = s.summary.hipblas_error_host := rfl

theorem error_device_eq_summary (s : St ν C S) :
    s.hipblas_error_device = s.summary.hipblas_error_device := rfl

theorem summary_mk (t : List (Event ν)) (f : Bool) (m : Option hipblasPointerMode_t)
    (g eh ed : Figure ν) (b : Store ν C) (sc : Store ν S) :
    (St.mk t f m g eh ed b sc).summary =
      { trace := t, pointer_mode := m, hipblas_error_host := eh, hipblas_error_device := ed } :=
  rfl

theorem summary_init :
    (St.init : St ν C S).summary =
      { trace := [], pointer_mode := none, hipblas_error_host := Figure.indeterminate,
        hipblas_error_device := Figure.indeterminate } := rfl

theorem summary_emit (s : St ν C S) (e : Event ν) : (s.emit e).summary = s.summary.add [e] := rfl

theorem summary_alloc (b : ν) (n : Nat) (i c : Int) (s : St ν C S) :
    (alloc b n i c s).summary = s.summary.add [Event.alloc b n i c] := rfl

theorem summary_start_clock (s : St ν C S) :
    (start_clock s).summary = s.summary.add [Event.get_time] := rfl

theorem summary_stop_clock (s : St ν C S) :
    (stop_clock s).summary = s.summary.add [Event.get_time] := rfl

theorem Summary.add_add (q : Summary ν) (t u : List (Event ν)) :
    (q.add t).add u = q.add (t ++ u) := by
  simp [Summary.add]

theorem Summary.add_nil (q : Summary ν) : q.add [] = q := by
  simp [Summary.add]

theorem memcheck_ok {rt : Runtime ν C} (hs : rt.Succeeds) (b : ν) (s : St ν C S) :
    memcheck rt b s = Except.ok (s.emit (Event.memcheck b hipError_t.hipSuccess)) := by
  simp [memcheck, hs.memcheck, ASSERT_HIP_SUCCESS]

theorem get_stream_ok {rt : Runtime ν C} (hs : rt.Succeeds) (s : St ν C S) :
    get_stream rt s = Except.ok (s.emit (Event.get_stream hipblasStatus_t.SUCCESS)) := by
  simp [get_stream, hs.hipblasGetStream, ASSERT_HIPBLAS_SUCCESS]

theorem set_pointer_mode_ok {rt : Runtime ν C} (hs : rt.Succeeds) (m : hipblasPointerMode_t)
    (s : St ν C S) :
    set_pointer_mode rt m s = Except.ok
      { s.emit (Event.set_pointer_mode m hipblasStatus_t.SUCCESS) with
        pointer_mode := some m } := by
  simp [set_pointer_mode, hs.hipblasSetPointerMode, ASSERT_HIPBLAS_SUCCESS]

theorem memcheck_yields {rt : Runtime ν C} (hs : rt.Succeeds) (b : ν) (s : St ν C S) :
    Yields (memcheck rt b s) (s.summary.add [Event.memcheck b hipError_t.hipSuccess]) :=
  ⟨_, memcheck_ok hs b s, rfl⟩

theorem get_stream_yields {rt : Runtime ν C} (hs : rt.Succeeds) (s : St ν C S) :
    Yields (get_stream rt s) (s.summary.add [Event.get_stream hipblasStatus_t.SUCCESS]) :=
  ⟨_, get_stream_ok hs s, rfl⟩

theorem set_pointer_mode_yields {rt : Runtime ν C} (hs : rt.Succeeds) (m : hipblasPointerMode_t)
    (s : St ν C S) :
    Yields (set_pointer_mode rt m s)
      { s.summary.add [Event.set_pointer_mode m hipblasStatus_t.SUCCESS] with
        pointer_mode := some m } :=
  ⟨_, set_pointer_mode_ok hs m s, rfl⟩

theorem summary_unit_check (rt : Runtime ν C) (d : List Int) (ref res : ν) (s : St ν C S) :
    (unit_check rt d ref res s).summary = s.summary.add [Event.unit_check ref res] := rfl

/-- The timing loop when every invocation succeeds and emits `ev` in pointer mode `m`. -/
theorem timing_loop_yields (call : St ν C S → Except (St ν C S) (St ν C S)) (c : Int)
    (ev : Event ν) (m : Option hipblasPointerMode_t)
    (hcall : ∀ s, s.summary.pointer_mode = m → Yields (call s) (s.summary.add [ev])) :
    ∀ (n : Nat) (i : Int) (s : St ν C S), s.summary.pointer_mode = m →
      Yields (timing_loop call c n i s) (s.summary.add (loop_events c ev n i)) := by
  intro n
  induction n with
  | zero =>
    intro i s _
    exact ⟨s, rfl, by simp [loop_events, Summary.add]⟩
  | succ n ih =>
    intro i s hm
    by_cases hi : i = c
    · subst hi
      obtain ⟨s1, h1, q1⟩ := hcall (start_clock s) hm
      have hm1 : s1.summary.pointer_mode = m := by rw [q1]; exact hm
      obtain ⟨s2, h2, q2⟩ := ih (i + 1) s1 hm1
      refine ⟨s2, by simp [timing_loop, h1, h2], ?_⟩
      rw [q2, q1, summary_start_clock]
      simp [Summary.add, loop_events]
    · obtain ⟨s1, h1, q1⟩ := hcall s hm
      have hm1 : s1.summary.pointer_mode = m := by rw [q1]; exact hm
      obtain ⟨s2, h2, q2⟩ := ih (i + 1) s1 hm1
      refine ⟨s2, by simp [timing_loop, hi, h1, h2], ?_⟩
      rw [q2, q1]
      simp [Summary.add, loop_events, hi]

/-- Past the cold iterations the loop only invokes. -/
theorem loop_events_past (c : Int) (ev : Event ν) :
    ∀ (n : Nat) (i : Int), c < i → loop_events c ev n i = List.replicate n ev := by
  intro n
  induction n with
  | zero => intro i _; rfl
  | succ n ih =>
    intro i hi
    have hne : i ≠ c := by omega
    simp [loop_events, hne, ih (i + 1) (by omega), List.replicate_succ]

/-- Shape of the loop events: `k` cold invocations, the clock read, then the rest. -/
theorem loop_events_cold (ev : Event ν) :
    ∀ (k n : Nat) (i : Int), loop_events (i + k) ev (k + (n + 1)) i =
      List.replicate k ev ++ Event.get_time :: List.replicate (n + 1) ev := by
  intro k
  induction k with
  | zero =>
    intro n i
    have h := loop_events_past i ev n (i + 1) (by omega)
    simp [loop_events, h, List.replicate_succ]
  | succ k ih =>
    intro n i
    have hne : i ≠ i + ((k + 1 : Nat) : Int) := by omega
    have h := ih n (i + 1)
    have e1 : i + 1 + (k : Int) = i + ((k + 1 : Nat) : Int) := by push_cast; ring
    rw [e1] at h
    have e2 : k + 1 + (n + 1) = (k + (n + 1)) + 1 := by omega
    rw [e2, loop_events, if_neg hne, h]
    simp [List.replicate_succ]

/-- With `C ≥ 0` cold and `M ≥ 1` measured iterations whose sum is a representable
`int`, the loop events are `C` invocations, one clock read, `M` invocations. -/
theorem loop_events_runs (ev : Event ν) (c m : Int) (hc : 0 ≤ c) (hm : 1 ≤ m)
    (hcm : c + m < 2 ^ 31) :
    loop_events c ev (int32 (c + m)).toNat 0 =
      List.replicate c.toNat ev ++ Event.get_time :: List.replicate m.toNat ev := by
  rw [int32_eq_self _ (by norm_num; omega) hcm]
  obtain ⟨k, rfl⟩ := Int.eq_ofNat_of_zero_le hc
  obtain ⟨j, hj⟩ := Int.eq_ofNat_of_zero_le (show 0 ≤ m - 1 by omega)
  have hmj : m = ((j + 1 : Nat) : Int) := by push_cast; omega
  subst hmj
  have e : ((k : Int) + ((j + 1 : Nat) : Int)).toNat = k + (j + 1) := by
    have : (k : Int) + ((j + 1 : Nat) : Int) = ((k + (j + 1) : Nat) : Int) := by push_cast; ring
    rw [this, Int.toNat_ofNat]
  rw [e]
  have h := loop_events_cold ev k j 0
  simp only [zero_add] at h
  simpa using h

variable [DecidableEq ν]


theorem transfer_from_ok {rt : Runtime ν C} (hs : rt.Succeeds) (dst src : ν) (s : St ν C S) :
    transfer_from rt dst src s = Except.ok (transferred hipError_t.hipSuccess dst src s) := by
  simp [transfer_from, hs.transfer_from, ASSERT_HIP_SUCCESS]

theorem hipMemcpy_ok {rt : Runtime ν C} (hs : rt.Succeeds) (dst src : ν) (s : St ν C S) :
    hipMemcpy rt dst src s = Except.ok (transferred hipError_t.hipSuccess dst src s) := by
  simp [hipMemcpy, hs.hipMemcpy, ASSERT_HIP_SUCCESS]

theorem memcpy_scalar_ok {rt : Runtime ν C} (hs : rt.Succeeds) (dst src : ν) (v : S)
    (s : St ν C S) :
    memcpy_scalar rt dst src v s = Except.ok
      { s.emit (Event.transfer dst src hipError_t.hipSuccess) with
        scal := s.scal.write dst (some v) } := by
  simp [memcpy_scalar, hs.hipMemcpy, ASSERT_HIP_SUCCESS]

theorem summary_init_vector (rt : Runtime ν C) (b : ν) (d : List Int) (s : St ν C S) :
    (init_vector rt b d s).summary = s.summary.add [Event.init_vector b] := rfl

theorem summary_copy_from (dst src : ν) (s : St ν C S) :
    (copy_from dst src s).summary = s.summary.add [Event.copy_from dst src] := rfl

theorem summary_norm_check (rt : Runtime ν C) (d : List Int) (ref res : ν) (s : St ν C S) :
    (norm_check rt d ref res s).summary = s.summary.add [Event.norm_check ref res] := rfl

theorem transfer_from_yields {rt : Runtime ν C} (hs : rt.Succeeds) (dst src : ν)
    (s : St ν C S) :
    Yields (transfer_from rt dst src s)
      (s.summary.add [Event.transfer dst src hipError_t.hipSuccess]) :=
  ⟨_, transfer_from_ok hs dst src s, rfl⟩

theorem hipMemcpy_yields {rt : Runtime ν C} (hs : rt.Succeeds) (dst src : ν) (s : St ν C S) :
    Yields (hipMemcpy rt dst src s)
      (s.summary.add [Event.transfer dst src hipError_t.hipSuccess]) :=
  ⟨_, hipMemcpy_ok hs dst src s, rfl⟩

theorem memcpy_scalar_yields {rt : Runtime ν C} (hs : rt.Succeeds) (dst src : ν) (v : S)
    (s : St ν C S) :
    Yields (memcpy_scalar rt dst src v s)
      (s.summary.add [Event.transfer dst src hipError_t.hipSuccess]) :=
  ⟨_, memcpy_scalar_ok hs dst src v s, rfl⟩

end Generic

/-! ## Runs in an arbitrary environment -/

section ReachLemmas

variable {ν C S : Type} {A : Event ν → Prop} {W : ν → Prop} {s0 s : St ν C S}

theorem Reach.refl (s : St ν C S) : Reach A W s s :=
  ⟨⟨[], by simp, by simp⟩, fun _ _ => rfl⟩

/-- One more external call, with writes inside `W` only. -/
theorem Reach.step (h : Reach A W s0 s) (s1 : St ν C S) (e : Event ν) (he : A e)
    (ht : s1.trace = s.trace ++ [e]) (hb : ∀ b, ¬ W b → s1.bufs b = s.bufs b) :
    Reach A W s0 s1 := by
  obtain ⟨⟨t, ht0, hA⟩, hb0⟩ := h
  refine ⟨⟨t ++ [e], by simp [ht, ht0], ?_⟩, fun b hW => (hb b hW).trans (hb0 b hW)⟩
  intro x hx
  rcases List.mem_append.1 hx with h1 | h1
  · exact hA x h1
  · rw [List.mem_singleton.1 h1]; exact he

theorem Reach.emit (h : Reach A W s0 s) (e : Event ν) (he : A e) :
    Reach A W s0 (s.emit e) :=
  h.step _ e he rfl (fun _ _ => rfl)

theorem Reach.bind (x : Except (St ν C S) (St ν C S))
    (g : St ν C S → Except (St ν C S) (St ν C S))
    (hx : Reach A W s0 (final x)) (hg : ∀ s, Reach A W s0 s → Reach A W s0 (final (g s))) :
    Reach A W s0 (final (x >>= g)) := by
  cases x with
  | ok s => exact hg s hx
  | error s => exact hx

theorem Reach.assert_hip (h : Reach A W s0 s) (r : hipError_t) :
    Reach A W s0 (final (ASSERT_HIP_SUCCESS r s)) := by
  unfold ASSERT_HIP_SUCCESS
  split
  · exact h
  · exact ⟨h.1, h.2⟩

theorem Reach.assert_hipblas (h : Reach A W s0 s) (r : hipblasStatus_t) :
    Reach A W s0 (final (ASSERT_HIPBLAS_SUCCESS r s)) := by
  unfold ASSERT_HIPBLAS_SUCCESS
  split
  · exact h
  · exact ⟨h.1, h.2⟩

theorem Reach.alloc (h : Reach A W s0 s) (b : ν) (n : Nat) (inc bc : Int)
    (he : A (Event.alloc b n inc bc)) : Reach A W s0 (alloc b n inc bc s) :=
  h.emit _ he

theorem Reach.memcheck (h : Reach A W s0 s) (rt : Runtime ν C) (b : ν)
    (he : ∀ r, A (Event.memcheck b r)) : Reach A W s0 (final (memcheck rt b s)) :=
  (h.emit _ (he _)).assert_hip _

theorem Reach.get_stream (h : Reach A W s0 s) (rt : Runtime ν C)
    (he : ∀ r, A (Event.get_stream r)) : Reach A W s0 (final (get_stream rt s)) :=
  (h.emit _ (he _)).assert_hipblas _

theorem Reach.set_pointer_mode (h : Reach A W s0 s) (rt : Runtime ν C)
    (m : hipblasPointerMode_t) (he : ∀ r, A (Event.set_pointer_mode m r)) :
    Reach A W s0 (final (set_pointer_mode rt m s)) := by
  unfold HipBLAS.set_pointer_mode
  refine Reach.assert_hipblas ?_ _
  exact h.step _ _ (he _) rfl (fun _ _ => rfl)

theorem Reach.start_clock (h : Reach A W s0 s) (he : A Event.get_time) :
    Reach A W s0 (start_clock s) :=
  h.step _ _ he rfl (fun _ _ => rfl)

theorem Reach.stop_clock (h : Reach A W s0 s) (he : A Event.get_time) :
    Reach A W s0 (stop_clock s) :=
  h.step _ _ he rfl (fun _ _ => rfl)

theorem Reach.timing_loop (call : St ν C S → Except (St ν C S) (St ν C S)) (c : Int)
    (he : A Event.get_time)
    (hcall : ∀ s, Reach A W s0 s → Reach A W s0 (final (call s))) :
    ∀ (n : Nat) (i : Int) (s : St ν C S), Reach A W s0 s →
      Reach A W s0 (final (timing_loop call c n i s)) := by
  intro n
  induction n with
  | zero => intro i s h; exact h
  | succ n ih =>
    intro i s h
    have h1 : Reach A W s0 (if i = c then HipBLAS.start_clock s else s) := by
      split
      · exact h.start_clock he
      · exact h
    have h2 := hcall _ h1
    unfold HipBLAS.timing_loop
    generalize call (if i = c then HipBLAS.start_clock s else s) = x at h2
    cases x with
    | ok s2 => exact ih (i + 1) s2 h2
    | error s2 => exact h2

theorem Reach.unit_check (h : Reach A W s0 s) (rt : Runtime ν C) (d : List Int)
    (ref res : ν) (he : A (Event.unit_check ref res)) :
    Reach A W s0 (unit_check rt d ref res s) :=
  h.step _ _ he rfl (fun _ _ => rfl)

variable [DecidableEq ν]

theorem Store.write_other (m : Store ν C) (b x : ν) (v : Option C) (h : x ≠ b) :
    m.write b v x = m x := by
  simp [Store.write, h]

theorem Store.write_same (m : Store ν C) (b : ν) (v : Option C) : m.write b v b = v := by
  simp [Store.write]

/-- A write to a buffer of `W` leaves the buffers outside `W` alone. -/
theorem Store.write_frame (m : Store ν C) (b : ν) (v : Option C) (hw : W b) (x : ν)
    (hx : ¬ W x) : m.write b v x = m x :=
  Store.write_other m b x v (fun hxb => hx (hxb ▸ hw))

theorem Reach.init_vector (h : Reach A W s0 s) (rt : Runtime ν C) (b : ν) (d : List Int)
    (he : A (Event.init_vector b)) (hw : W b) : Reach A W s0 (init_vector rt b d s) :=
  h.step _ _ he rfl (Store.write_frame _ _ _ hw)

theorem Reach.copy_from (h : Reach A W s0 s) (dst src : ν)
    (he : A (Event.copy_from dst src)) (hw : W dst) : Reach A W s0 (copy_from dst src s) :=
  h.step _ _ he rfl (Store.write_frame _ _ _ hw)

theorem Reach.transferred (h : Reach A W s0 s) (r : hipError_t) (dst src : ν)
    (he : A (Event.transfer dst src r)) (hw : W dst) :
    Reach A W s0 (transferred r dst src s) :=
  h.step _ _ he rfl (Store.write_frame _ _ _ hw)

theorem Reach.transfer_from (h : Reach A W s0 s) (rt : Runtime ν C) (dst src : ν)
    (he : ∀ r, A (Event.transfer dst src r)) (hw : W dst) :
    Reach A W s0 (final (transfer_from rt dst src s)) :=
  (h.transferred _ dst src (he _) hw).assert_hip _

theorem Reach.hipMemcpy (h : Reach A W s0 s) (rt : Runtime ν C) (dst src : ν)
    (he : ∀ r, A (Event.transfer dst src r)) (hw : W dst) :
    Reach A W s0 (final (hipMemcpy rt dst src s)) :=
  (h.transferred _ dst src (he _) hw).assert_hip _

theorem Reach.memcpy_scalar (h : Reach A W s0 s) (rt : Runtime ν C) (dst src : ν) (v : S)
    (he : ∀ r, A (Event.transfer dst src r)) :
    Reach A W s0 (final (memcpy_scalar rt dst src v s)) := by
  unfold HipBLAS.memcpy_scalar
  refine Reach.assert_hip ?_ _
  exact h.step _ _ (he _) rfl (fun _ _ => rfl)

theorem Reach.norm_check (h : Reach A W s0 s) (rt : Runtime ν C) (d : List Int)
    (ref res : ν) (he : A (Event.norm_check ref res)) (hr : W ref) (hw : W res) :
    Reach A W s0 (norm_check rt d ref res s) :=
  h.step _ _ he rfl (fun x hx => by
    show ((s.bufs.write ref _).write res _) x = s.bufs x
    rw [Store.write_frame _ _ _ hw x hx, Store.write_frame _ _ _ hr x hx])

end ReachLemmas


/-! ## `testing_her_batched` -/

namespace Her

variable {T U : Type}

/-- The flag `invalid_size` as a proposition. -/
theorem her_invalid_size_iff (arg : Arguments) :
    invalid_size arg = true ↔
      (arg.N < 0 ∨ arg.lda < arg.N ∨ arg.lda < 1 ∨ arg.incx = 0 ∨ arg.batch_count < 0) := by
  simp [invalid_size, or_assoc]

/-- The condition of the quick return as a proposition. -/
theorem her_quick_iff (arg : Arguments) :
    (invalid_size arg || (arg.N == 0) || (arg.batch_count == 0)) = true ↔
      (arg.N < 0 ∨ arg.lda < arg.N ∨ arg.lda < 1 ∨ arg.incx = 0 ∨ arg.batch_count < 0 ∨
        arg.N = 0 ∨ arg.batch_count = 0) := by
  simp [invalid_size, or_assoc]

theorem her_quick_of_not_checked (arg : Arguments) (h : ¬ Checked arg) :
    (invalid_size arg || (arg.N == 0) || (arg.batch_count == 0)) = true := by
  rw [her_quick_iff]
  unfold Checked at h
  by_contra hq
  apply h
  refine ⟨fun h1 => hq ?_, fun h1 => hq ?_, fun h1 => hq ?_⟩
  · rcases h1 with h1 | h1 | h1 | h1 | h1
    · exact Or.inl h1
    · exact Or.inr (Or.inl h1)
    · exact Or.inr (Or.inr (Or.inl h1))
    · exact Or.inr (Or.inr (Or.inr (Or.inl h1)))
    · exact Or.inr (Or.inr (Or.inr (Or.inr (Or.inl h1))))
  · exact Or.inr (Or.inr (Or.inr (Or.inr (Or.inr (Or.inl h1)))))
  · exact Or.inr (Or.inr (Or.inr (Or.inr (Or.inr (Or.inr h1)))))

theorem her_not_quick_of_checked (arg : Arguments) (h : Checked arg) :
    (invalid_size arg || (arg.N == 0) || (arg.batch_count == 0)) = false := by
  rw [Bool.eq_false_iff]
  intro hq
  rw [her_quick_iff] at hq
  obtain ⟨h1, h2, h3⟩ := h
  rcases hq with hq | hq | hq | hq | hq | hq | hq
  · exact h1 (Or.inl hq)
  · exact h1 (Or.inr (Or.inl hq))
  · exact h1 (Or.inr (Or.inr (Or.inl hq)))
  · exact h1 (Or.inr (Or.inr (Or.inr (Or.inl hq))))
  · exact h1 (Or.inr (Or.inr (Or.inr (Or.inr hq))))
  · exact h2 hq
  · exact h3 hq

/-- Past the quick return the harness is data generation followed by the rest. -/
theorem her_testing_of_checked (env : Env T U) (arg : Arguments) (h : Checked arg) :
    testing_her_batched env arg =
      (setup env arg (St.init.emit Event.local_handle) >>= after_setup env arg) := by
  unfold testing_her_batched
  simp only [her_not_quick_of_checked arg h]
  rfl

/-- The quick return: one invocation with null pointers and one expectation. -/
theorem her_testing_of_quick (env : Env T U) (arg : Arguments)
    (h : (invalid_size arg || (arg.N == 0) || (arg.batch_count == 0)) = true) :
    testing_her_batched env arg = Except.ok
      (EXPECT_HIPBLAS_STATUS2 (run_null env arg (St.init.emit Event.local_handle))
        (if invalid_size arg then hipblasStatus_t.INVALID_VALUE else hipblasStatus_t.SUCCESS)
        ((St.init.emit Event.local_handle).emit (Event.device_call none
          [Ptr.nullptr, Ptr.nullptr, Ptr.nullptr]
          (run_null env arg (St.init.emit Event.local_handle))))) := by
  unfold testing_her_batched
  simp only [h, if_true]
  rfl

/-- Trace of the quick return. -/
theorem her_trace_of_quick (env : Env T U) (arg : Arguments)
    (h : (invalid_size arg || (arg.N == 0) || (arg.batch_count == 0)) = true) :
    (final (testing_her_batched env arg)).trace =
      [Event.local_handle,
        Event.device_call none [Ptr.nullptr, Ptr.nullptr, Ptr.nullptr]
          (run_null env arg (St.init.emit Event.local_handle)),
        Event.expect_status (run_null env arg (St.init.emit Event.local_handle))
          (if invalid_size arg then hipblasStatus_t.INVALID_VALUE
            else hipblasStatus_t.SUCCESS)] := by
  rw [her_testing_of_quick env arg h]
  simp [final, EXPECT_HIPBLAS_STATUS2, St.emit, St.init]

/-! ### Runs in which every call succeeds -/

theorem her_setup_yields {env : Env T U} (hs : env.Succeeds) (arg : Arguments) (s : State T U) :
    Yields (setup env arg s) (s.summary.add (setup_events arg)) := by
  unfold setup
  refine (memcheck_yields hs.runtime _ _).andThen (fun s1 h1 => ?_)
  refine (memcheck_yields hs.runtime _ _).andThen (fun s2 h2 => ?_)
  refine Yields.pure ?_
  simp only [summary_init_vector, summary_alloc, h2, h1, Summary.add_add, setup_events,
    List.cons_append, List.nil_append]

theorem her_staging_yields {env : Env T U} (hs : env.Succeeds) (arg : Arguments) (s : State T U) :
    Yields (staging env arg s) (s.summary.add staging_events) := by
  unfold staging
  refine (transfer_from_yields hs.runtime _ _ _).andThen (fun s1 h1 => ?_)
  refine (transfer_from_yields hs.runtime _ _ _).andThen (fun s2 h2 => ?_)
  refine (memcpy_scalar_yields hs.runtime _ _ _ _).of_eq ?_
  simp only [summary_copy_from, h2, h1, Summary.add_add, staging_events,
    List.cons_append, List.nil_append]

theorem her_assert_call_ok {env : Env T U} (hs : env.Succeeds) (arg : Arguments) (alpha : Ptr Buf)
    (s : State T U) :
    assert_call env arg alpha s = Except.ok
      { s.emit (Event.device_call s.pointer_mode
          [alpha, Ptr.device Buf.dx, Ptr.device Buf.dA] hipblasStatus_t.SUCCESS) with
        bufs := s.bufs.write Buf.dA (run_live env arg alpha s).2 } := by
  have h : (run_live env arg alpha s).1 = hipblasStatus_t.SUCCESS :=
    hs.routine _ _ _ _ _ _ _ _ _ _ _
  simp [assert_call, h, ASSERT_HIPBLAS_SUCCESS]

theorem her_assert_call_yields {env : Env T U} (hs : env.Succeeds) (arg : Arguments)
    (alpha : Ptr Buf) (s : State T U) :
    Yields (assert_call env arg alpha s)
      (s.summary.add [Event.device_call s.summary.pointer_mode
        [alpha, Ptr.device Buf.dx, Ptr.device Buf.dA] hipblasStatus_t.SUCCESS]) :=
  ⟨_, her_assert_call_ok hs arg alpha s, rfl⟩

theorem her_summary_oracle_loop (env : Env T U) (arg : Arguments) :
    ∀ (n b : Nat) (s : State T U),
      (oracle_loop env arg n b s).summary = s.summary.add ((List.range' b n).map
          (fun b => Event.oracle b [(Buf.hx, 0), (Buf.hA_cpu, 0)])) := by
  intro n
  induction n with
  | zero => intro b s; simp [oracle_loop, Summary.add]
  | succ n ih =>
    intro b s
    rw [oracle_loop, ih]
    simp [St.summary, St.emit, Summary.add, List.range'_succ]

theorem her_correctness_yields {env : Env T U} (hs : env.Succeeds) (arg : Arguments)
    (s : State T U) :
    Yields (correctness env arg s)
      { trace := s.trace ++ correctness_events arg
        pointer_mode := if arg.unit_check || arg.norm_check then
          some hipblasPointerMode_t.DEVICE else s.pointer_mode
        hipblas_error_host := if arg.norm_check then Figure.norm Buf.hA_cpu Buf.hA_host
          else s.hipblas_error_host
        hipblas_error_device := if arg.norm_check then Figure.norm Buf.hA_cpu Buf.hA_device
          else s.hipblas_error_device } := by
  unfold correctness correctness_events
  cases hu : arg.unit_check <;> cases hn : arg.norm_check
  · exact Yields.pure (by simp [St.summary])
  all_goals
    simp only [Bool.or_true, Bool.true_or, Bool.or_false, if_true]
    refine (set_pointer_mode_yields hs.runtime _ _).andThen (fun s1 h1 => ?_)
    refine (her_assert_call_yields hs _ _ _).andThen (fun s2 h2 => ?_)
    refine (transfer_from_yields hs.runtime _ _ _).andThen (fun s3 h3 => ?_)
    refine (transfer_from_yields hs.runtime _ _ _).andThen (fun s4 h4 => ?_)
    refine (set_pointer_mode_yields hs.runtime _ _).andThen (fun s5 h5 => ?_)
    refine (her_assert_call_yields hs _ _ _).andThen (fun s6 h6 => ?_)
    refine (transfer_from_yields hs.runtime _ _ _).andThen (fun s7 h7 => ?_)
    refine Yields.pure ?_
    simp [trace_eq_summary, pointer_mode_eq_summary, error_host_eq_summary,
      error_device_eq_summary, summary_mk, summary_unit_check, summary_norm_check,
      her_summary_oracle_loop, h7, h6, h5, h4, h3, h2, h1, Summary.add, live_call, oracle_events]

theorem her_timing_yields {env : Env T U} (hs : env.Succeeds) (arg : Arguments) (s : State T U) :
    ∃ g, Yields (timing env arg s)
      { trace := s.trace ++ timing_events arg g s.hipblas_error_host s.hipblas_error_device
        pointer_mode := if arg.timing then some hipblasPointerMode_t.DEVICE
          else s.pointer_mode
        hipblas_error_host := s.hipblas_error_host
        hipblas_error_device := s.hipblas_error_device } := by
  unfold timing timing_events
  cases ht : arg.timing
  · exact ⟨Figure.indeterminate, Yields.pure (by simp [St.summary])⟩
  · obtain ⟨s1, e1, h1⟩ := transfer_from_yields hs.runtime Buf.dA Buf.hA s
    obtain ⟨s2, e2, h2⟩ := get_stream_yields hs.runtime s1
    obtain ⟨s3, e3, h3⟩ := set_pointer_mode_yields hs.runtime hipblasPointerMode_t.DEVICE s2
    have hm3 : s3.summary.pointer_mode = some hipblasPointerMode_t.DEVICE := by rw [h3]
    obtain ⟨s4, e4, h4⟩ := timing_loop_yields
      (assert_call env arg (Ptr.device Buf.d_alpha)) arg.cold_iters
      (live_call hipblasPointerMode_t.DEVICE (Ptr.device Buf.d_alpha))
      (some hipblasPointerMode_t.DEVICE)
      (fun s hm => (her_assert_call_yields hs arg _ s).of_eq (by rw [hm]; rfl))
      (int32 (arg.cold_iters + arg.iters)).toNat 0 s3 hm3
    refine ⟨(stop_clock s4).gpu_time_used,
      (stop_clock s4).emit (Event.log_args (stop_clock s4).gpu_time_used
        Figure.gflop_count Figure.gbyte_count (stop_clock s4).hipblas_error_host
        (stop_clock s4).hipblas_error_device), ?_, ?_⟩
    · simp only [if_true, e1, e2, e3, e4, ok_bind]
      rfl
    · simp [trace_eq_summary, pointer_mode_eq_summary, error_host_eq_summary,
        error_device_eq_summary, summary_emit, summary_stop_clock, h4, h3, h2, h1,
        Summary.add]

/-- The events of a whole run past the quick return when every call succeeds. -/
theorem her_run_yields {env : Env T U} (hs : env.Succeeds) (arg : Arguments) (hv : Checked arg) :
    ∃ g, Yields (testing_her_batched env arg)
      { trace := run_events arg g
        pointer_mode := if arg.timing then some hipblasPointerMode_t.DEVICE
          else if arg.unit_check || arg.norm_check then some hipblasPointerMode_t.DEVICE
          else none
        hipblas_error_host := error_host arg
        hipblas_error_device := error_device arg } := by
  rw [her_testing_of_checked env arg hv]
  obtain ⟨s1, e1, h1⟩ := her_setup_yields hs arg (St.init.emit Event.local_handle)
  obtain ⟨s2, e2, h2⟩ := her_staging_yields hs arg s1
  obtain ⟨s3, e3, h3⟩ := her_correctness_yields hs arg s2
  obtain ⟨g, s4, e4, h4⟩ := her_timing_yields hs arg s3
  refine ⟨g, s4, ?_, ?_⟩
  · simp only [after_setup, e1, e2, e3, e4, ok_bind]
  · rw [h4]
    simp [trace_eq_summary, pointer_mode_eq_summary, error_host_eq_summary,
      error_device_eq_summary, h3, h2, h1, Summary.add, run_events, error_host, error_device,
      summary_emit, summary_init]

/-! ### Runs in an arbitrary environment -/

theorem her_reach_assert_call {s0 s : State T U} {W : Buf → Prop}
    (h : Reach (fun e => emits e = true) W s0 s) (env : Env T U)
    (arg : Arguments) (alpha : Ptr Buf)
    (ha : alpha = Ptr.host Buf.h_alpha ∨ alpha = Ptr.device Buf.d_alpha) (hw : W Buf.dA) :
    Reach (fun e => emits e = true) W s0 (final (assert_call env arg alpha s)) := by
  unfold assert_call
  refine Reach.assert_hipblas ?_ _
  refine h.step _ _ ?_ (by rfl) (Store.write_frame _ _ _ hw)
  rcases ha with ha | ha <;> subst ha <;> rfl

theorem her_reach_oracle_loop {s0 : State T U} {W : Buf → Prop} (env : Env T U) (arg : Arguments)
    (hw : W Buf.hA_cpu) :
    ∀ (n b : Nat) (s : State T U), Reach (fun e => emits e = true) W s0 s →
      Reach (fun e => emits e = true) W s0 (oracle_loop env arg n b s) := by
  intro n
  induction n with
  | zero => intro b s h; exact h
  | succ n ih =>
    intro b s h
    exact ih (b + 1) _ (h.step _ (Event.oracle b [(Buf.hx, 0), (Buf.hA_cpu, 0)]) (by rfl)
      (by rfl) (Store.write_frame _ _ _ hw))

theorem her_reach_setup {s0 s : State T U} (env : Env T U) (arg : Arguments)
    (h : Reach (fun e => emits e = true) (fun _ => True) s0
      (alloc Buf.hA (A_size arg) 1 arg.batch_count s)) :
    Reach (fun e => emits e = true) (fun _ => True) s0 (final (setup env arg s)) := by
  unfold setup
  refine Reach.bind _ _ ?_ (fun s1 h1 => Reach.bind _ _ ?_ (fun s2 h2 => ?_))
  · refine Reach.memcheck ?_ _ _ (fun _ => by rfl)
    exact ((((((h.alloc _ _ _ _ (by rfl)).alloc _ _ _ _ (by rfl)).alloc _ _ _ _ (by rfl)).alloc _ _ _ _
      (by rfl)).alloc _ _ _ _ (by rfl)).alloc _ _ _ _ (by rfl)).alloc _ _ _ _ (by rfl)
  · exact h1.memcheck _ _ (fun _ => by rfl)
  · exact (h2.init_vector _ _ _ (by rfl) trivial).init_vector _ _ _ (by rfl) trivial

theorem her_reach_staging {s0 s : State T U} (env : Env T U) (arg : Arguments)
    (h : Reach (fun e => emits e = true) (fun b => later_written b = true) s0 s) :
    Reach (fun e => emits e = true) (fun b => later_written b = true) s0
      (final (staging env arg s)) := by
  unfold staging
  refine Reach.bind _ _ ?_ (fun s1 h1 => Reach.bind _ _ ?_ (fun s2 h2 => ?_))
  · exact (h.copy_from _ _ (by rfl) (by rfl)).transfer_from _ _ _ (fun _ => by rfl) (by rfl)
  · exact h1.transfer_from _ _ _ (fun _ => by rfl) (by rfl)
  · exact h2.memcpy_scalar _ _ _ _ (fun _ => by rfl)

theorem her_reach_correctness {s0 s : State T U} (env : Env T U) (arg : Arguments)
    (h : Reach (fun e => emits e = true) (fun b => later_written b = true) s0 s) :
    Reach (fun e => emits e = true) (fun b => later_written b = true) s0
      (final (correctness env arg s)) := by
  unfold correctness
  split
  · refine Reach.bind _ _ (h.set_pointer_mode _ _ (fun _ => by rfl)) (fun s1 h1 => ?_)
    refine Reach.bind _ _ (her_reach_assert_call h1 _ _ _ (Or.inl rfl) (by rfl)) (fun s2 h2 => ?_)
    refine Reach.bind _ _ (h2.transfer_from _ _ _ (fun _ => by rfl) (by rfl)) (fun s3 h3 => ?_)
    refine Reach.bind _ _ (h3.transfer_from _ _ _ (fun _ => by rfl) (by rfl)) (fun s4 h4 => ?_)
    refine Reach.bind _ _ (h4.set_pointer_mode _ _ (fun _ => by rfl)) (fun s5 h5 => ?_)
    refine Reach.bind _ _ (her_reach_assert_call h5 _ _ _ (Or.inr rfl) (by rfl)) (fun s6 h6 => ?_)
    refine Reach.bind _ _ (h6.transfer_from _ _ _ (fun _ => by rfl) (by rfl)) (fun s7 h7 => ?_)
    have h8 := her_reach_oracle_loop env arg (show later_written Buf.hA_cpu = true from rfl)
      arg.batch_count.toNat 0 s7 h7
    have h9 : Reach (fun e => emits e = true) (fun b => later_written b = true) s0
        (if arg.unit_check then
          unit_check env.toRuntime (check_dims arg) Buf.hA_cpu Buf.hA_host
            (unit_check env.toRuntime (check_dims arg) Buf.hA_cpu Buf.hA_host
              (oracle_loop env arg arg.batch_count.toNat 0 s7))
        else oracle_loop env arg arg.batch_count.toNat 0 s7) := by
      split
      · exact (h8.unit_check _ _ _ _ (by rfl)).unit_check _ _ _ _ (by rfl)
      · exact h8
    show Reach _ _ s0 (if arg.norm_check = true then _ else _)
    split
    · have h10 := h9.norm_check env.toRuntime (check_dims arg) Buf.hA_cpu Buf.hA_host (by rfl) (by rfl) (by rfl)
      have h11 : Reach (fun e => emits e = true) (fun b => later_written b = true) s0
          { norm_check env.toRuntime (check_dims arg) Buf.hA_cpu Buf.hA_host _ with
            hipblas_error_host := Figure.norm Buf.hA_cpu Buf.hA_host } := ⟨h10.1, h10.2⟩
      have h12 := h11.norm_check env.toRuntime (check_dims arg) Buf.hA_cpu Buf.hA_device
        (by rfl) (by rfl) (by rfl)
      exact ⟨h12.1, h12.2⟩
    · exact h9
  · exact h

theorem her_reach_timing {s0 s : State T U} (env : Env T U) (arg : Arguments)
    (h : Reach (fun e => emits e = true) (fun b => later_written b = true) s0 s) :
    Reach (fun e => emits e = true) (fun b => later_written b = true) s0
      (final (timing env arg s)) := by
  unfold timing
  split
  · refine Reach.bind _ _ (h.transfer_from _ _ _ (fun _ => by rfl) (by rfl)) (fun s1 h1 => ?_)
    refine Reach.bind _ _ (h1.get_stream _ (fun _ => by rfl)) (fun s2 h2 => ?_)
    refine Reach.bind _ _ (h2.set_pointer_mode _ _ (fun _ => by rfl)) (fun s3 h3 => ?_)
    refine Reach.bind _ _ (Reach.timing_loop _ _ (by rfl)
      (fun s hs => her_reach_assert_call hs _ _ _ (Or.inr rfl) (by rfl)) _ _ s3 h3) (fun s4 h4 => ?_)
    exact (h4.stop_clock (by rfl)).emit _ (by rfl)
  · exact h

/-- After data generation the harness only emits events of `emits` and only writes
buffers of `later_written`. -/
theorem her_reach_after_setup (env : Env T U) (arg : Arguments) (s : State T U) :
    Reach (fun e => emits e = true) (fun b => later_written b = true) s
      (final (after_setup env arg s)) := by
  unfold after_setup
  refine Reach.bind _ _ (her_reach_staging env arg (Reach.refl s)) (fun s1 h1 => ?_)
  exact Reach.bind _ _ (her_reach_correctness env arg h1) (fun s2 h2 => her_reach_timing env arg h2)

end Her

/-! ## `testing_syr2k_batched` -/

namespace Syr2k

variable {T : Type}

/-- The condition of lines 71-72 as a proposition. -/
theorem syr2k_invalid_iff (transA : hipblasOperation_t) (arg : Arguments) :
    invalid transA arg = true ↔ Invalid transA arg := by
  unfold invalid Invalid
  simp only [Bool.or_eq_true, Bool.and_eq_true, decide_eq_true_eq]
  tauto

theorem syr2k_invalid_eq_false (transA : hipblasOperation_t) (arg : Arguments)
    (h : ¬ Invalid transA arg) : invalid transA arg = false := by
  rw [Bool.eq_false_iff]
  intro hq
  exact h ((syr2k_invalid_iff transA arg).1 hq)

/-- An invalid configuration: the harness returns at once. -/
theorem syr2k_testing_of_invalid (env : Env T) (arg : Arguments)
    (h : Invalid (env.char2hipblas_operation arg.transA) arg) :
    testing_syr2k_batched env arg = Except.ok St.init := by
  unfold testing_syr2k_batched
  rw [if_pos ((syr2k_invalid_iff _ arg).2 h)]
  rfl

/-- A zero batch count: the harness returns at once. -/
theorem syr2k_testing_of_zero_batch (env : Env T) (arg : Arguments) (h : arg.batch_count = 0) :
    testing_syr2k_batched env arg = Except.ok St.init := by
  unfold testing_syr2k_batched
  split
  · rfl
  · simp [h]
    rfl

/-- Past the checks the harness is data generation followed by the rest. -/
theorem syr2k_testing_of_checked (env : Env T) (arg : Arguments)
    (h : Checked (env.char2hipblas_operation arg.transA) arg) :
    testing_syr2k_batched env arg = (setup env arg St.init >>= after_setup env arg) := by
  unfold testing_syr2k_batched
  have h2 : (arg.batch_count == 0) = false := by simpa using h.2
  simp only [syr2k_invalid_eq_false _ arg h.1, h2]
  rfl

/-! ### Runs in which every call succeeds -/

theorem syr2k_setup_yields {env : Env T} (hs : env.Succeeds) (arg : Arguments) (s : State T) :
    Yields (setup env arg s)
      (s.summary.add (setup_events (env.char2hipblas_operation arg.transA) arg)) := by
  unfold setup
  refine (memcheck_yields hs.runtime _ _).andThen (fun s1 h1 => ?_)
  refine (memcheck_yields hs.runtime _ _).andThen (fun s2 h2 => ?_)
  refine (memcheck_yields hs.runtime _ _).andThen (fun s3 h3 => ?_)
  refine Yields.pure ?_
  simp only [summary_init_vector, summary_alloc, summary_emit, h3, h2, h1, Summary.add_add,
    setup_events, List.cons_append, List.nil_append]

theorem syr2k_staging_yields {env : Env T} (hs : env.Succeeds) (arg : Arguments) (s : State T) :
    Yields (staging env arg s) (s.summary.add staging_events) := by
  unfold staging
  refine (transfer_from_yields hs.runtime _ _ _).andThen (fun s1 h1 => ?_)
  refine (transfer_from_yields hs.runtime _ _ _).andThen (fun s2 h2 => ?_)
  refine (transfer_from_yields hs.runtime _ _ _).andThen (fun s3 h3 => ?_)
  refine (memcpy_scalar_yields hs.runtime _ _ _ _).andThen (fun s4 h4 => ?_)
  refine (memcpy_scalar_yields hs.runtime _ _ _ _).of_eq ?_
  simp only [summary_copy_from, h4, h3, h2, h1, Summary.add_add, staging_events,
    List.cons_append, List.nil_append]

theorem syr2k_assert_call_ok {env : Env T} (hs : env.Succeeds) (arg : Arguments)
    (alpha beta : Ptr Buf) (s : State T) :
    assert_call env arg alpha beta s = Except.ok
      { s.emit (Event.device_call s.pointer_mode
          [alpha, Ptr.device Buf.dA, Ptr.device Buf.dB, beta, Ptr.device Buf.dC]
          hipblasStatus_t.SUCCESS) with
        bufs := s.bufs.write Buf.dC (run_live env arg alpha beta s).2 } := by
  have h : (run_live env arg alpha beta s).1 = hipblasStatus_t.SUCCESS :=
    hs.routine _ _ _ _ _ _ _ _ _ _ _ _ _ _ _ _
  simp [assert_call, h, ASSERT_HIPBLAS_SUCCESS]

theorem syr2k_assert_call_yields {env : Env T} (hs : env.Succeeds) (arg : Arguments)
    (alpha beta : Ptr Buf) (s : State T) :
    Yields (assert_call env arg alpha beta s)
      (s.summary.add [Event.device_call s.summary.pointer_mode
        [alpha, Ptr.device Buf.dA, Ptr.device Buf.dB, beta, Ptr.device Buf.dC]
        hipblasStatus_t.SUCCESS]) :=
  ⟨_, syr2k_assert_call_ok hs arg alpha beta s, rfl⟩

theorem syr2k_summary_oracle_loop (env : Env T) (arg : Arguments) :
    ∀ (n b : Nat) (s : State T),
      (oracle_loop env arg n b s).summary = s.summary.add ((List.range' b n).map
          (fun b => Event.oracle b [(Buf.hA, 0), (Buf.hB, 0), (Buf.hC_gold, 0)])) := by
  intro n
  induction n with
  | zero => intro b s; simp [oracle_loop, Summary.add]
  | succ n ih =>
    intro b s
    rw [oracle_loop, ih]
    simp [St.summary, St.emit, Summary.add, List.range'_succ]

theorem syr2k_correctness_yields {env : Env T} (hs : env.Succeeds) (arg : Arguments) (s : State T) :
    Yields (correctness env arg s)
      { trace := s.trace ++ correctness_events arg
        pointer_mode := if arg.unit_check || arg.norm_check then
          some hipblasPointerMode_t.DEVICE else s.pointer_mode
        hipblas_error_host := if arg.norm_check then Figure.norm Buf.hC_gold Buf.hC_host
          else s.hipblas_error_host
        hipblas_error_device := if arg.norm_check then Figure.norm Buf.hC_gold Buf.hC_device
          else s.hipblas_error_device } := by
  unfold correctness correctness_events
  cases hu : arg.unit_check <;> cases hn : arg.norm_check
  · exact Yields.pure (by simp [St.summary])
  all_goals
    simp only [Bool.or_true, Bool.true_or, Bool.or_false, if_true]
    refine (set_pointer_mode_yields hs.runtime _ _).andThen (fun s1 h1 => ?_)
    refine (syr2k_assert_call_yields hs _ _ _ _).andThen (fun s2 h2 => ?_)
    refine (transfer_from_yields hs.runtime _ _ _).andThen (fun s3 h3 => ?_)
    refine (transfer_from_yields hs.runtime _ _ _).andThen (fun s4 h4 => ?_)
    refine (set_pointer_mode_yields hs.runtime _ _).andThen (fun s5 h5 => ?_)
    refine (syr2k_assert_call_yields hs _ _ _ _).andThen (fun s6 h6 => ?_)
    refine (transfer_from_yields hs.runtime _ _ _).andThen (fun s7 h7 => ?_)
    refine Yields.pure ?_
    simp [trace_eq_summary, pointer_mode_eq_summary, error_host_eq_summary,
      error_device_eq_summary, summary_mk, summary_unit_check, summary_norm_check,
      syr2k_summary_oracle_loop, h7, h6, h5, h4, h3, h2, h1, Summary.add, live_call, oracle_events]

theorem syr2k_timing_yields {env : Env T} (hs : env.Succeeds) (arg : Arguments) (s : State T) :
    ∃ g, Yields (timing env arg s)
      { trace := s.trace ++ timing_events arg g s.hipblas_error_host s.hipblas_error_device
        pointer_mode := if arg.timing then some hipblasPointerMode_t.DEVICE
          else s.pointer_mode
        hipblas_error_host := s.hipblas_error_host
        hipblas_error_device := s.hipblas_error_device } := by
  unfold timing timing_events
  cases ht : arg.timing
  · exact ⟨Figure.indeterminate, Yields.pure (by simp [St.summary])⟩
  · obtain ⟨s2, e2, h2⟩ := get_stream_yields hs.runtime s
    obtain ⟨s3, e3, h3⟩ := set_pointer_mode_yields hs.runtime hipblasPointerMode_t.DEVICE s2
    have hm3 : s3.summary.pointer_mode = some hipblasPointerMode_t.DEVICE := by rw [h3]
    obtain ⟨s4, e4, h4⟩ := timing_loop_yields
      (assert_call env arg (Ptr.device Buf.d_alpha) (Ptr.device Buf.d_beta)) arg.cold_iters
      (live_call hipblasPointerMode_t.DEVICE (Ptr.device Buf.d_alpha) (Ptr.device Buf.d_beta))
      (some hipblasPointerMode_t.DEVICE)
      (fun s hm => (syr2k_assert_call_yields hs arg _ _ s).of_eq (by rw [hm]; rfl))
      (int32 (arg.cold_iters + arg.iters)).toNat 0 s3 hm3
    refine ⟨(stop_clock s4).gpu_time_used,
      (stop_clock s4).emit (Event.log_args (stop_clock s4).gpu_time_used
        Figure.gflop_count Figure.gbyte_count (stop_clock s4).hipblas_error_host
        (stop_clock s4).hipblas_error_device), ?_, ?_⟩
    · simp only [if_true, e2, e3, e4, ok_bind]
      rfl
    · simp [trace_eq_summary, pointer_mode_eq_summary, error_host_eq_summary,
        error_device_eq_summary, summary_emit, summary_stop_clock, h4, h3, h2,
        Summary.add]

/-- The events of a whole run past the checks when every call succeeds. -/
theorem syr2k_run_yields {env : Env T} (hs : env.Succeeds) (arg : Arguments)
    (hv : Checked (env.char2hipblas_operation arg.transA) arg) :
    ∃ g, Yields (testing_syr2k_batched env arg)
      { trace := run_events (env.char2hipblas_operation arg.transA) arg g
        pointer_mode := if arg.timing then some hipblasPointerMode_t.DEVICE
          else if arg.unit_check || arg.norm_check then some hipblasPointerMode_t.DEVICE
          else none
        hipblas_error_host := error_host arg
        hipblas_error_device := error_device arg } := by
  rw [syr2k_testing_of_checked env arg hv]
  obtain ⟨s1, e1, h1⟩ := syr2k_setup_yields hs arg St.init
  obtain ⟨s2, e2, h2⟩ := syr2k_staging_yields hs arg s1
  obtain ⟨s3, e3, h3⟩ := syr2k_correctness_yields hs arg s2
  obtain ⟨g, s4, e4, h4⟩ := syr2k_timing_yields hs arg s3
  refine ⟨g, s4, ?_, ?_⟩
  · simp only [after_setup, e1, e2, e3, e4, ok_bind]
  · rw [h4]
    simp [trace_eq_summary, pointer_mode_eq_summary, error_host_eq_summary,
      error_device_eq_summary, h3, h2, h1, Summary.add, run_events, error_host, error_device,
      summary_init]

/-! ### Runs in an arbitrary environment -/

theorem syr2k_reach_assert_call {s0 s : State T} {W : Buf → Prop}
    (h : Reach (fun e => emits e = true) W s0 s) (env : Env T)
    (arg : Arguments) (alpha beta : Ptr Buf)
    (ha : (alpha = Ptr.host Buf.h_alpha ∧ beta = Ptr.host Buf.h_beta) ∨
      (alpha = Ptr.device Buf.d_alpha ∧ beta = Ptr.device Buf.d_beta)) (hw : W Buf.dC) :
    Reach (fun e => emits e = true) W s0 (final (assert_call env arg alpha beta s)) := by
  unfold assert_call
  refine Reach.assert_hipblas ?_ _
  refine h.step _ _ ?_ rfl (Store.write_frame _ _ _ hw)
  rcases ha with ⟨ha, hb⟩ | ⟨ha, hb⟩ <;> subst ha <;> subst hb <;> rfl

theorem syr2k_reach_oracle_loop {s0 : State T} {W : Buf → Prop} (env : Env T) (arg : Arguments)
    (hw : W Buf.hC_gold) :
    ∀ (n b : Nat) (s : State T), Reach (fun e => emits e = true) W s0 s →
      Reach (fun e => emits e = true) W s0 (oracle_loop env arg n b s) := by
  intro n
  induction n with
  | zero => intro b s h; exact h
  | succ n ih =>
    intro b s h
    exact ih (b + 1) _ (h.step _
      (Event.oracle b [(Buf.hA, 0), (Buf.hB, 0), (Buf.hC_gold, 0)]) (by rfl)
      (by rfl) (Store.write_frame _ _ _ hw))

theorem syr2k_reach_setup {s0 s : State T} (env : Env T) (arg : Arguments)
    (h : Reach (fun e => emits e = true) (fun _ => True) s0
      (alloc Buf.hA (A_size (env.char2hipblas_operation arg.transA) arg) 1 arg.batch_count
        (s.emit Event.local_handle))) :
    Reach (fun e => emits e = true) (fun _ => True) s0 (final (setup env arg s)) := by
  unfold setup
  refine Reach.bind _ _ ?_ (fun s1 h1 => Reach.bind _ _ ?_ (fun s2 h2 =>
    Reach.bind _ _ ?_ (fun s3 h3 => ?_)))
  · refine Reach.memcheck ?_ _ _ (fun _ => by rfl)
    exact ((((((((h.alloc _ _ _ _ (by rfl)).alloc _ _ _ _ (by rfl)).alloc _ _ _ _
      (by rfl)).alloc _ _ _ _ (by rfl)).alloc _ _ _ _ (by rfl)).alloc _ _ _ _
      (by rfl)).alloc _ _ _ _ (by rfl)).alloc _ _ _ _ (by rfl)).alloc _ _ _ _ (by rfl)
  · exact h1.memcheck _ _ (fun _ => by rfl)
  · exact h2.memcheck _ _ (fun _ => by rfl)
  · exact ((h3.init_vector _ _ _ (by rfl) trivial).init_vector _ _ _ (by rfl)
      trivial).init_vector _ _ _ (by rfl) trivial

theorem syr2k_reach_staging {s0 s : State T} (env : Env T) (arg : Arguments)
    (h : Reach (fun e => emits e = true) (fun b => later_written b = true) s0 s) :
    Reach (fun e => emits e = true) (fun b => later_written b = true) s0
      (final (staging env arg s)) := by
  unfold staging
  refine Reach.bind _ _ ?_ (fun s1 h1 => Reach.bind _ _ ?_ (fun s2 h2 =>
    Reach.bind _ _ ?_ (fun s3 h3 => Reach.bind _ _ ?_ (fun s4 h4 => ?_))))
  · exact ((h.copy_from _ _ (by rfl) (by rfl)).copy_from _ _ (by rfl)
      (by rfl)).transfer_from _ _ _ (fun _ => by rfl) (by rfl)
  · exact h1.transfer_from _ _ _ (fun _ => by rfl) (by rfl)
  · exact h2.transfer_from _ _ _ (fun _ => by rfl) (by rfl)
  · exact h3.memcpy_scalar _ _ _ _ (fun _ => by rfl)
  · exact h4.memcpy_scalar _ _ _ _ (fun _ => by rfl)

theorem syr2k_reach_correctness {s0 s : State T} (env : Env T) (arg : Arguments)
    (h : Reach (fun e => emits e = true) (fun b => later_written b = true) s0 s) :
    Reach (fun e => emits e = true) (fun b => later_written b = true) s0
      (final (correctness env arg s)) := by
  unfold correctness
  split
  · refine Reach.bind _ _ (h.set_pointer_mode _ _ (fun _ => by rfl)) (fun s1 h1 => ?_)
    refine Reach.bind _ _ (syr2k_reach_assert_call h1 _ _ _ _ (Or.inl ⟨rfl, rfl⟩) (by rfl))
      (fun s2 h2 => ?_)
    refine Reach.bind _ _ (h2.transfer_from _ _ _ (fun _ => by rfl) (by rfl)) (fun s3 h3 => ?_)
    refine Reach.bind _ _ (h3.transfer_from _ _ _ (fun _ => by rfl) (by rfl)) (fun s4 h4 => ?_)
    refine Reach.bind _ _ (h4.set_pointer_mode _ _ (fun _ => by rfl)) (fun s5 h5 => ?_)
    refine Reach.bind _ _ (syr2k_reach_assert_call h5 _ _ _ _ (Or.inr ⟨rfl, rfl⟩) (by rfl))
      (fun s6 h6 => ?_)
    refine Reach.bind _ _ (h6.transfer_from _ _ _ (fun _ => by rfl) (by rfl)) (fun s7 h7 => ?_)
    have h8 := syr2k_reach_oracle_loop env arg (show later_written Buf.hC_gold = true from rfl)
      arg.batch_count.toNat 0 s7 h7
    have h9 : Reach (fun e => emits e = true) (fun b => later_written b = true) s0
        (if arg.unit_check then
          unit_check env.toRuntime (check_dims arg) Buf.hC_gold Buf.hC_device
            (unit_check env.toRuntime (check_dims arg) Buf.hC_gold Buf.hC_host
              (oracle_loop env arg arg.batch_count.toNat 0 s7))
        else oracle_loop env arg arg.batch_count.toNat 0 s7) := by
      split
      · exact (h8.unit_check _ _ _ _ (by rfl)).unit_check _ _ _ _ (by rfl)
      · exact h8
    show Reach _ _ s0 (if arg.norm_check = true then _ else _)
    split
    · have h10 := h9.norm_check env.toRuntime (check_dims arg) Buf.hC_gold Buf.hC_host
        (by rfl) (by rfl) (by rfl)
      have h11 : Reach (fun e => emits e = true) (fun b => later_written b = true) s0
          { norm_check env.toRuntime (check_dims arg) Buf.hC_gold Buf.hC_host _ with
            hipblas_error_host := Figure.norm Buf.hC_gold Buf.hC_host } := ⟨h10.1, h10.2⟩
      have h12 := h11.norm_check env.toRuntime (check_dims arg) Buf.hC_gold Buf.hC_device
        (by rfl) (by rfl) (by rfl)
      exact ⟨h12.1, h12.2⟩
    · exact h9
  · exact h

theorem syr2k_reach_timing {s0 s : State T} (env : Env T) (arg : Arguments)
    (h : Reach (fun e => emits e = true) (fun b => later_written b = true) s0 s) :
    Reach (fun e => emits e = true) (fun b => later_written b = true) s0
      (final (timing env arg s)) := by
  unfold timing
  split
  · refine Reach.bind _ _ (h.get_stream _ (fun _ => by rfl)) (fun s2 h2 => ?_)
    refine Reach.bind _ _ (h2.set_pointer_mode _ _ (fun _ => by rfl)) (fun s3 h3 => ?_)
    refine Reach.bind _ _ (Reach.timing_loop _ _ (by rfl)
      (fun s hs => syr2k_reach_assert_call hs _ _ _ _ (Or.inr ⟨rfl, rfl⟩) (by rfl)) _ _ s3 h3)
      (fun s4 h4 => ?_)
    exact (h4.stop_clock (by rfl)).emit _ (by rfl)
  · exact h

/-- After data generation the harness only emits events of `emits` and only writes
buffers of `later_written`. -/
theorem syr2k_reach_after_setup (env : Env T) (arg : Arguments) (s : State T) :
    Reach (fun e => emits e = true) (fun b => later_written b = true) s
      (final (after_setup env arg s)) := by
  unfold after_setup
  refine Reach.bind _ _ (syr2k_reach_staging env arg (Reach.refl s)) (fun s1 h1 => ?_)
  exact Reach.bind _ _ (syr2k_reach_correctness env arg h1) (fun s2 h2 => syr2k_reach_timing env arg h2)

end Syr2k

/-! ## `testing_rotmg_strided_batched` -/

namespace Rotmg

variable {T : Type}

/-- A batch count that is not positive: the harness returns at once. -/
theorem rotmg_testing_of_nonpositive (env : Env T) (arg : Arguments) (h : arg.batch_count ≤ 0) :
    testing_rotmg_strided_batched env arg = Except.ok St.init := by
  unfold testing_rotmg_strided_batched
  rw [if_pos h]
  rfl

/-- With a positive batch count the harness is data generation followed by the rest. -/
theorem rotmg_testing_of_positive (env : Env T) (arg : Arguments) (h : 0 < arg.batch_count) :
    testing_rotmg_strided_batched env arg = after_setup env arg (setup env arg St.init) := by
  unfold testing_rotmg_strided_batched
  rw [if_neg (not_le.2 h)]
  rfl

/-! ### Runs in which every call succeeds -/

theorem rotmg_summary_setup (env : Env T) (arg : Arguments) (s : State T) :
    (setup env arg s).summary = s.summary.add (setup_events arg) := by
  unfold setup
  simp only [summary_init_vector, summary_alloc, summary_emit, Summary.add_add, setup_events,
    List.cons_append, List.nil_append]

theorem rotmg_staging_yields {env : Env T} (hs : env.Succeeds) (arg : Arguments) (s : State T) :
    Yields (staging env arg s) (s.summary.add (staging_events arg)) := by
  unfold staging
  refine (hipMemcpy_yields hs.runtime _ _ _).andThen (fun s1 h1 => ?_)
  refine (hipMemcpy_yields hs.runtime _ _ _).andThen (fun s2 h2 => ?_)
  refine (hipMemcpy_yields hs.runtime _ _ _).andThen (fun s3 h3 => ?_)
  refine (hipMemcpy_yields hs.runtime _ _ _).andThen (fun s4 h4 => ?_)
  refine (hipMemcpy_yields hs.runtime _ _ _).of_eq ?_
  simp only [summary_copy_from, summary_alloc, h4, h3, h2, h1, Summary.add_add,
    staging_events, List.cons_append, List.nil_append]

theorem rotmg_assert_call_ok {env : Env T} (hs : env.Succeeds) (arg : Arguments)
    (ptr : Buf → Ptr Buf) (p : Five Buf) (s : State T) :
    ∃ s1, assert_call env arg ptr p s = Except.ok s1 ∧
      s1.summary = s.summary.add [Event.device_call s.summary.pointer_mode
        [ptr p.d1, ptr p.d2, ptr p.x1, ptr p.y1, ptr p.param] hipblasStatus_t.SUCCESS] := by
  unfold assert_call
  simp only [hs.routine, ASSERT_HIPBLAS_SUCCESS, if_true]
  exact ⟨_, rfl, rfl⟩

theorem rotmg_assert_call_yields {env : Env T} (hs : env.Succeeds) (arg : Arguments)
    (ptr : Buf → Ptr Buf) (p : Five Buf) (s : State T) :
    Yields (assert_call env arg ptr p s)
      (s.summary.add [Event.device_call s.summary.pointer_mode
        [ptr p.d1, ptr p.d2, ptr p.x1, ptr p.y1, ptr p.param] hipblasStatus_t.SUCCESS]) :=
  rotmg_assert_call_ok hs arg ptr p s

theorem rotmg_summary_oracle_loop (env : Env T) (arg : Arguments) :
    ∀ (n b : Nat) (s : State T),
      (oracle_loop env arg n b s).summary =
        s.summary.add ((List.range' b n).map (oracle_event arg)) := by
  intro n
  induction n with
  | zero => intro b s; simp [oracle_loop, Summary.add]
  | succ n ih =>
    intro b s
    rw [oracle_loop]
    simp only []
    rw [ih]
    simp [St.summary, St.emit, Summary.add, List.range'_succ, oracle_event]

theorem rotmg_summary_near_checks (env : Env T) (arg : Arguments) (r : Five Buf) (s : State T) :
    (near_checks env arg r s).summary = s.summary.add (near_events r) := by
  unfold near_checks
  simp only [summary_unit_check, Summary.add_add, near_events, List.cons_append,
    List.nil_append]

theorem rotmg_summary_norm_checks (env : Env T) (arg : Arguments) (r : Five Buf) (s : State T) :
    (norm_checks env arg r s).1.summary = s.summary.add (norm_events r) ∧
      (norm_checks env arg r s).2 = norm_sum r := by
  unfold norm_checks
  simp only [summary_norm_check, Summary.add_add, norm_events, List.cons_append,
    List.nil_append, norm_sum, and_self]

theorem rotmg_correctness_yields {env : Env T} (hs : env.Succeeds) (arg : Arguments) (s : State T) :
    Yields (correctness env arg s)
      { trace := s.trace ++ correctness_events arg
        pointer_mode := if arg.unit_check || arg.norm_check then
          some hipblasPointerMode_t.DEVICE else s.pointer_mode
        hipblas_error_host := if arg.norm_check then norm_sum host_bufs
          else s.hipblas_error_host
        hipblas_error_device := if arg.norm_check then norm_sum device_results
          else s.hipblas_error_device } := by
  unfold correctness correctness_events
  cases hu : arg.unit_check <;> cases hn : arg.norm_check
  · exact Yields.pure (by simp [St.summary])
  all_goals
    simp only [Bool.or_true, Bool.true_or, Bool.or_false, if_true]
    refine (set_pointer_mode_yields hs.runtime _ _).andThen (fun s1 h1 => ?_)
    refine (rotmg_assert_call_yields hs _ _ _ _).andThen (fun s2 h2 => ?_)
    refine (set_pointer_mode_yields hs.runtime _ _).andThen (fun s3 h3 => ?_)
    refine (rotmg_assert_call_yields hs _ _ _ _).andThen (fun s4 h4 => ?_)
    refine (hipMemcpy_yields hs.runtime _ _ _).andThen (fun s5 h5 => ?_)
    refine (hipMemcpy_yields hs.runtime _ _ _).andThen (fun s6 h6 => ?_)
    refine (hipMemcpy_yields hs.runtime _ _ _).andThen (fun s7 h7 => ?_)
    refine (hipMemcpy_yields hs.runtime _ _ _).andThen (fun s8 h8 => ?_)
    refine (hipMemcpy_yields hs.runtime _ _ _).andThen (fun s9 h9 => ?_)
    refine Yields.pure ?_
    simp [trace_eq_summary, pointer_mode_eq_summary, error_host_eq_summary,
      error_device_eq_summary, summary_mk, rotmg_summary_near_checks, rotmg_summary_norm_checks,
      rotmg_summary_oracle_loop, h9, h8, h7, h6, h5, h4, h3, h2, h1, Summary.add, live_call,
      oracle_events, host_bufs, device_bufs]

theorem rotmg_timing_yields {env : Env T} (hs : env.Succeeds) (arg : Arguments) (s : State T) :
    ∃ g, Yields (timing env arg s)
      { trace := s.trace ++ timing_events arg g s.hipblas_error_host s.hipblas_error_device
        pointer_mode := if arg.timing then some hipblasPointerMode_t.DEVICE
          else s.pointer_mode
        hipblas_error_host := s.hipblas_error_host
        hipblas_error_device := s.hipblas_error_device } := by
  unfold timing timing_events
  cases ht : arg.timing
  · exact ⟨Figure.indeterminate, Yields.pure (by simp [St.summary])⟩
  · obtain ⟨s2, e2, h2⟩ := get_stream_yields hs.runtime s
    obtain ⟨s3, e3, h3⟩ := set_pointer_mode_yields hs.runtime hipblasPointerMode_t.DEVICE s2
    have hm3 : s3.summary.pointer_mode = some hipblasPointerMode_t.DEVICE := by rw [h3]
    obtain ⟨s4, e4, h4⟩ := timing_loop_yields
      (assert_call env arg Ptr.device device_bufs) arg.cold_iters
      (live_call hipblasPointerMode_t.DEVICE Ptr.device device_bufs)
      (some hipblasPointerMode_t.DEVICE)
      (fun s hm => (rotmg_assert_call_yields hs arg _ _ s).of_eq (by rw [hm]; rfl))
      (int32 (arg.cold_iters + arg.iters)).toNat 0 s3 hm3
    refine ⟨(stop_clock s4).gpu_time_used,
      (stop_clock s4).emit (Event.log_args (stop_clock s4).gpu_time_used
        Figure.NA_value Figure.NA_value (stop_clock s4).hipblas_error_host
        (stop_clock s4).hipblas_error_device), ?_, ?_⟩
    · simp only [if_true, e2, e3, e4, ok_bind]
      rfl
    · simp [trace_eq_summary, pointer_mode_eq_summary, error_host_eq_summary,
        error_device_eq_summary, summary_emit, summary_stop_clock, h4, h3, h2,
        Summary.add]

/-- The events of a whole run with a positive batch count when every call succeeds. -/
theorem rotmg_run_yields {env : Env T} (hs : env.Succeeds) (arg : Arguments)
    (hv : 0 < arg.batch_count) :
    ∃ g, Yields (testing_rotmg_strided_batched env arg)
      { trace := run_events arg g
        pointer_mode := if arg.timing then some hipblasPointerMode_t.DEVICE
          else if arg.unit_check || arg.norm_check then some hipblasPointerMode_t.DEVICE
          else none
        hipblas_error_host := error_host arg
        hipblas_error_device := error_device arg } := by
  rw [rotmg_testing_of_positive env arg hv]
  have h1 := rotmg_summary_setup env arg St.init
  obtain ⟨s2, e2, h2⟩ := rotmg_staging_yields hs arg (setup env arg St.init)
  obtain ⟨s3, e3, h3⟩ := rotmg_correctness_yields hs arg s2
  obtain ⟨g, s4, e4, h4⟩ := rotmg_timing_yields hs arg s3
  refine ⟨g, s4, ?_, ?_⟩
  · simp only [after_setup, e2, e3, e4, ok_bind]
  · rw [h4]
    simp [trace_eq_summary, pointer_mode_eq_summary, error_host_eq_summary,
      error_device_eq_summary, h3, h2, h1, Summary.add, run_events, error_host, error_device,
      summary_init]

end Rotmg

/-! ## Whole runs in an arbitrary environment -/

section WholeRuns

variable {ν C S : Type} {A A1 : Event ν → Prop} {W W1 : ν → Prop} {s0 s1 s2 : St ν C S}

theorem Reach.trans (h1 : Reach A W s0 s1) (h2 : Reach A W s1 s2) : Reach A W s0 s2 := by
  obtain ⟨⟨t1, ht1, hA1⟩, hb1⟩ := h1
  obtain ⟨⟨t2, ht2, hA2⟩, hb2⟩ := h2
  refine ⟨⟨t1 ++ t2, by rw [ht2, ht1, List.append_assoc], ?_⟩,
    fun b hW => (hb2 b hW).trans (hb1 b hW)⟩
  intro e he
  rcases List.mem_append.1 he with h | h
  · exact hA1 e h
  · exact hA2 e h

theorem Reach.mono (h : Reach A W s0 s1) (hA : ∀ e, A e → A1 e) (hW : ∀ b, W b → W1 b) :
    Reach A1 W1 s0 s1 := by
  obtain ⟨⟨t, ht, hAt⟩, hb⟩ := h
  exact ⟨⟨t, ht, fun e he => hA e (hAt e he)⟩, fun b hb1 => hb b (fun hw => hb1 (hW b hw))⟩

/-- A continuation that leaves buffer `b` alone leaves it alone after sequencing. -/
theorem bufs_bind (x : Except (St ν C S) (St ν C S))
    (g : St ν C S → Except (St ν C S) (St ν C S)) (b : ν)
    (hg : ∀ s, (final (g s)).bufs b = s.bufs b) :
    (final (x >>= g)).bufs b = (final x).bufs b := by
  cases x with
  | ok s => exact hg s
  | error s => rfl

end WholeRuns

namespace Her

variable {T U : Type}

theorem her_reach_run (env : Env T U) (arg : Arguments) (hv : Checked arg) :
    Reach (fun e => emits e = true) (fun _ => True)
      (alloc Buf.hA (A_size arg) 1 arg.batch_count (St.init.emit Event.local_handle))
      (final (testing_her_batched env arg)) := by
  rw [her_testing_of_checked env arg hv]
  refine Reach.bind _ _ (her_reach_setup env arg (Reach.refl _)) (fun s hs => ?_)
  exact hs.trans ((her_reach_after_setup env arg s).mono (fun _ h => h) (fun _ _ => trivial))

/-- Past the quick return the trace starts with the handle and the first container. -/
theorem her_trace_head (env : Env T U) (arg : Arguments) (hv : Checked arg) :
    ∃ t, (final (testing_her_batched env arg)).trace =
      Event.local_handle :: Event.alloc Buf.hA (A_size arg) 1 arg.batch_count :: t := by
  obtain ⟨⟨t, ht, _⟩, _⟩ := her_reach_run env arg hv
  exact ⟨t, by rw [ht]; rfl⟩

/-- Every event of a run is one of `emits`. -/
theorem her_all_emitted (env : Env T U) (arg : Arguments) :
    ∀ e ∈ (final (testing_her_batched env arg)).trace, emits e = true := by
  by_cases hv : Checked arg
  · obtain ⟨⟨t, ht, hA⟩, _⟩ := her_reach_run env arg hv
    intro e he
    rw [ht] at he
    rcases List.mem_append.1 he with h | h
    · have h2 : e = Event.local_handle ∨ e = Event.alloc Buf.hA (A_size arg) 1 arg.batch_count := by
        simpa [alloc, St.emit, St.init] using h
      rcases h2 with h2 | h2 <;> subst h2 <;> rfl
    · exact hA e h
  · intro e he
    rw [her_trace_of_quick env arg (her_quick_of_not_checked arg hv)] at he
    simp only [List.mem_cons, List.mem_singleton, List.not_mem_nil, or_false] at he
    rcases he with h | h | h <;> subst h <;> rfl

/-- The buffers not written after data generation keep the generated contents. -/
theorem her_bufs_after_setup (env : Env T U) (arg : Arguments) (hv : Checked arg) (b : Buf)
    (hb : later_written b = false) :
    (final (testing_her_batched env arg)).bufs b =
      (final (setup env arg (St.init.emit Event.local_handle))).bufs b := by
  rw [her_testing_of_checked env arg hv]
  exact bufs_bind _ _ b (fun s => (her_reach_after_setup env arg s).2 b (by simp [hb]))

end Her

namespace Syr2k

variable {T : Type}

theorem syr2k_reach_run (env : Env T) (arg : Arguments)
    (hv : Checked (env.char2hipblas_operation arg.transA) arg) :
    Reach (fun e => emits e = true) (fun _ => True)
      (alloc Buf.hA (A_size (env.char2hipblas_operation arg.transA) arg) 1 arg.batch_count
        (St.init.emit Event.local_handle))
      (final (testing_syr2k_batched env arg)) := by
  rw [syr2k_testing_of_checked env arg hv]
  refine Reach.bind _ _ (syr2k_reach_setup env arg (Reach.refl _)) (fun s hs => ?_)
  exact hs.trans ((syr2k_reach_after_setup env arg s).mono (fun _ h => h) (fun _ _ => trivial))

/-- Past the checks the trace starts with the handle and the first container. -/
theorem syr2k_trace_head (env : Env T) (arg : Arguments)
    (hv : Checked (env.char2hipblas_operation arg.transA) arg) :
    ∃ t, (final (testing_syr2k_batched env arg)).trace =
      Event.local_handle ::
        Event.alloc Buf.hA (A_size (env.char2hipblas_operation arg.transA) arg) 1
          arg.batch_count :: t := by
  obtain ⟨⟨t, ht, _⟩, _⟩ := syr2k_reach_run env arg hv
  exact ⟨t, by rw [ht]; rfl⟩

/-- A run that does not pass the checks makes no external call. -/
theorem syr2k_testing_of_not_checked (env : Env T) (arg : Arguments)
    (hv : ¬ Checked (env.char2hipblas_operation arg.transA) arg) :
    testing_syr2k_batched env arg = Except.ok St.init := by
  by_cases hi : Invalid (env.char2hipblas_operation arg.transA) arg
  · exact syr2k_testing_of_invalid env arg hi
  · by_cases hb : arg.batch_count = 0
    · exact syr2k_testing_of_zero_batch env arg hb
    · exact absurd ⟨hi, hb⟩ hv

/-- The buffers not written after data generation keep the generated contents. -/
theorem syr2k_bufs_after_setup (env : Env T) (arg : Arguments)
    (hv : Checked (env.char2hipblas_operation arg.transA) arg) (b : Buf)
    (hb : later_written b = false) :
    (final (testing_syr2k_batched env arg)).bufs b =
      (final (setup env arg St.init)).bufs b := by
  rw [syr2k_testing_of_checked env arg hv]
  exact bufs_bind _ _ b (fun s => (syr2k_reach_after_setup env arg s).2 b (by simp [hb]))

end Syr2k

/-! ## Sample environments and trace lemmas -/

section TraceLemmas

variable {ν C S : Type}

theorem Yields.trace_eq {x : Except (St ν C S) (St ν C S)} {q : Summary ν} (h : Yields x q) :
    (final x).trace = q.trace := by
  obtain ⟨s1, h1, h2⟩ := h
  rw [h1, ← h2]
  rfl

theorem Yields.not_aborted {x : Except (St ν C S) (St ν C S)} {q : Summary ν}
    (h : Yields x q) : aborted x = false := by
  obtain ⟨s1, h1, _⟩ := h
  rw [h1]
  rfl

/-- No invocation and no pointer-mode switch among mapped events that are neither. -/
theorem filter_map_eq_nil {α : Type} (p : Event ν → Bool) (f : α → Event ν) (l : List α)
    (h : ∀ a, p (f a) = false) : (l.map f).filter p = [] := by
  induction l with
  | nil => rfl
  | cons a l ih => simp [List.filter, h a, ih]
end TraceLemmas


theorem Runtime.sample_succeeds {ν C : Type} [DecidableEq C] (gen : ν → List Int → C) :
    (Runtime.sample gen).Succeeds :=
  ⟨fun _ _ => rfl, fun _ _ _ => rfl, fun _ _ _ => rfl, fun _ _ => rfl, fun _ => rfl⟩

theorem Her.her_sampleEnv_succeeds (bias : Int) : (Her.sampleEnv bias).Succeeds :=
  ⟨Runtime.sample_succeeds _, fun _ _ _ _ _ _ _ _ _ _ _ => rfl⟩

theorem Syr2k.syr2k_sampleEnv_succeeds (bias : Int) : (Syr2k.sampleEnv bias).Succeeds :=
  ⟨Runtime.sample_succeeds _, fun _ _ _ _ _ _ _ _ _ _ _ _ _ _ _ _ => rfl⟩

theorem Rotmg.rotmg_sampleEnv_succeeds : Rotmg.sampleEnv.Succeeds :=
  ⟨Runtime.sample_succeeds _, fun _ _ _ _ _ _ => rfl⟩

theorem Her.her_sampleArg_checked : Her.Checked sampleArg := by
  unfold Her.Checked
  decide

theorem Syr2k.syr2k_sampleArg_checked :
    Syr2k.Checked ((Syr2k.sampleEnv 0).char2hipblas_operation sampleArg.transA) sampleArg := by
  unfold Syr2k.Checked Syr2k.Invalid
  decide

theorem getLast?_append_right {α : Type} (a b : List α) (y : α)
    (h : b.getLast? = some y) : (a ++ b).getLast? = some y := by
  cases b with
  | nil => simp at h
  | cons x b => simp [List.getLast?_append, h]

theorem getLast?_cons_right {α : Type} (e : α) (b : List α) (y : α)
    (h : b.getLast? = some y) : (e :: b).getLast? = some y :=
  getLast?_append_right [e] b y h

/-! ## Machine arithmetic of the sizes and strides -/

theorem int64_eq_self (z : Int) (h0 : -2 ^ 63 ≤ z) (h1 : z < 2 ^ 63) : int64 z = z := by
  unfold int64 wrapS
  norm_num at h0 h1 ⊢
  omega

theorem size_t_of_nonneg (z : Int) (h0 : 0 ≤ z) (h1 : z < 2 ^ 64) : (size_t z : Int) = z := by
  unfold size_t
  rw [Int.toNat_of_nonneg (Int.emod_nonneg _ (by norm_num))]
  exact Int.emod_eq_of_lt h0 h1

/-- The product of two non-negative `int` values, computed in `size_t`, does not wrap. -/
theorem size_mul_of_int32 (a b : Int) (ha : 0 ≤ a) (hb : 0 ≤ b) (ha1 : a < 2 ^ 31)
    (hb1 : b < 2 ^ 31) : (size_mul (size_t a) (size_t b) : Int) = a * b := by
  have e1 := size_t_of_nonneg a ha (by omega)
  have e2 := size_t_of_nonneg b hb (by omega)
  unfold size_mul
  push_cast
  rw [e1, e2]
  apply Int.emod_eq_of_lt (mul_nonneg ha hb)
  have : a * b ≤ (2 ^ 31 - 1) * (2 ^ 31 - 1) :=
    mul_le_mul (by omega) (by omega) hb (by norm_num)
  norm_num at this ⊢
  omega

/-- A column-major index of an `n × m` matrix with leading dimension `ld ≥ n`. -/
theorem index_lt (i j n m ld : Int) (hi0 : 0 ≤ i) (hi : i < n) (hj : j < m)
    (hld : n ≤ ld) : i + j * ld < ld * m := by
  have h1 : j * ld ≤ (m - 1) * ld := mul_le_mul_of_nonneg_right (by omega) (by omega)
  nlinarith

theorem trunc_intCast (z : Int) : trunc (z : ℚ) = z := by
  unfold trunc
  split <;> simp

theorem floor_le_round_even (y : ℚ) : ⌊y⌋ ≤ round_even y := by
  unfold round_even
  split_ifs <;> omega

theorem le_round_even (k : Int) (y : ℚ) (h : (k : ℚ) ≤ y) : k ≤ round_even y :=
  (Int.le_floor.2 h).trans (floor_le_round_even y)

theorem round_even_intCast (m : Int) : round_even (m : ℚ) = m := by
  unfold round_even
  simp

theorem log_two_eq {x : ℚ} (L : Int) (h0 : (2 : ℚ) ^ L ≤ x) (h1 : x < 2 ^ (L + 1)) :
    Int.log 2 x = L := by
  have hx : 0 < x := lt_of_lt_of_le (zpow_pos (by norm_num) L) h0
  apply le_antisymm
  · have := (Int.lt_zpow_iff_log_lt (R := ℚ) (b := 2) (by norm_num) hx).1
      (by simpa using h1)
    omega
  · exact (Int.zpow_le_iff_le_log (R := ℚ) (b := 2) (by norm_num) hx).1 (by simpa using h0)

/-- The value of `double_round` at a positive number of the normal range, from its binary
exponent. -/
theorem double_round_of_log {x : ℚ} (L m : Int) (h0 : (2 : ℚ) ^ L ≤ x)
    (h1 : x < 2 ^ (L + 1)) (hL : -1022 ≤ L) (hm : round_even (x / 2 ^ (L - 52)) = m) :
    double_round x = m * 2 ^ (L - 52) := by
  have hx : 0 < x := lt_of_lt_of_le (zpow_pos (by norm_num) L) h0
  unfold double_round
  rw [if_neg hx.ne', abs_of_pos hx, log_two_eq L h0 h1, max_eq_left (by omega), hm]

/-- A number `m * 2^(L - 52)` of the normal range is a `double`. -/
theorem double_round_of_exact {x : ℚ} (L m : Int) (h0 : (2 : ℚ) ^ L ≤ x)
    (h1 : x < 2 ^ (L + 1)) (hL : -1022 ≤ L) (hm : x = m * 2 ^ (L - 52)) :
    double_round x = x := by
  have hp : (0 : ℚ) < 2 ^ (L - 52) := zpow_pos (by norm_num) _
  rw [double_round_of_log L m h0 h1 hL, ← hm]
  rw [hm, mul_div_assoc, div_self hp.ne', mul_one, round_even_intCast]

/-- Rounding a number that is at least 5 gives at least 5, and at least a fifth of the
number. -/
theorem double_round_ge {x : ℚ} (hx : 5 ≤ x) : 5 ≤ double_round x ∧ x ≤ 5 * double_round x := by
  have hx0 : 0 < x := by linarith
  have hl0 : (2 : ℚ) ^ Int.log 2 x ≤ x := by
    simpa using Int.zpow_log_le_self (R := ℚ) (b := 2) (by norm_num) hx0
  have hL : 2 ≤ Int.log 2 x :=
    (Int.zpow_le_iff_le_log (R := ℚ) (b := 2) (by norm_num) hx0).1 (by norm_num; linarith)
  unfold double_round
  rw [if_neg hx0.ne', abs_of_pos hx0, max_eq_left (by omega)]
  generalize hLd : Int.log 2 x = L at hl0 hL
  have hp : (0 : ℚ) < 2 ^ (L - 52) := zpow_pos (by norm_num) _
  have hy : (2 : ℚ) ^ (52 : Int) ≤ x / 2 ^ (L - 52) := by
    rw [le_div_iff₀ hp, ← zpow_add₀ (by norm_num)]
    simpa using hl0
  have hm1 : x / 2 ^ (L - 52) - 1 < (round_even (x / 2 ^ (L - 52)) : ℚ) := by
    have h1 := Int.sub_one_lt_floor (x / (2 : ℚ) ^ (L - 52))
    have h2 : ((⌊x / (2 : ℚ) ^ (L - 52)⌋ : Int) : ℚ) ≤ round_even (x / 2 ^ (L - 52)) := by
      exact_mod_cast floor_le_round_even _
    linarith
  have h52 : (2 : ℚ) ^ (52 : Int) = 4503599627370496 := by norm_num
  rw [h52] at hy
  constructor
  · by_cases he : L - 52 ≤ 0
    · obtain ⟨n, hn⟩ : ∃ n : Nat, L - 52 = -(n : Int) := ⟨(52 - L).toNat, by omega⟩
      have hj : (((5 * 2 ^ n : Int) : Int) : ℚ) ≤ x / 2 ^ (L - 52) := by
        rw [hn, zpow_neg, zpow_natCast, div_inv_eq_mul]
        push_cast
        have : (0 : ℚ) < 2 ^ n := by positivity
        nlinarith
      have hk := le_round_even _ _ hj
      have hk' : ((5 * 2 ^ n : Int) : ℚ) ≤ (round_even (x / 2 ^ (L - 52)) : ℚ) := by
        exact_mod_cast hk
      have e5 : (5 : ℚ) = ((5 * 2 ^ n : Int) : ℚ) * 2 ^ (L - 52) := by
        rw [hn, zpow_neg, zpow_natCast]
        push_cast
        field_simp
      calc (5 : ℚ) = ((5 * 2 ^ n : Int) : ℚ) * 2 ^ (L - 52) := e5
        _ ≤ _ := mul_le_mul_of_nonneg_right hk' hp.le
    · have h2 : (1 : ℚ) ≤ 2 ^ (L - 52) := one_le_zpow₀ (by norm_num) (by omega)
      nlinarith
  · have e : x = x / 2 ^ (L - 52) * 2 ^ (L - 52) := by field_simp
    have : x / 2 ^ (L - 52) ≤ 5 * (round_even (x / 2 ^ (L - 52)) : ℚ) := by linarith
    calc x = x / 2 ^ (L - 52) * 2 ^ (L - 52) := e
      _ ≤ 5 * (round_even (x / 2 ^ (L - 52)) : ℚ) * 2 ^ (L - 52) :=
        mul_le_mul_of_nonneg_right this hp.le
      _ = _ := by ring

namespace Rotmg

/-- The strides and sizes when `stride_scale ≥ 1` and the largest size is representable. -/
theorem rotmg_strides (arg : Arguments) (h : Strided arg) :
    1 ≤ stride_d1 arg ∧ 5 ≤ stride_param arg ∧
      (size_d1 arg : Int) = arg.batch_count * stride_d1 arg ∧
      (size_param arg : Int) = arg.batch_count * stride_param arg ∧
      arg.batch_count * stride_d1 arg < 2 ^ 63 ∧
      arg.batch_count * stride_param arg < 2 ^ 63 := by
  obtain ⟨hb, hs, hr⟩ := h
  obtain ⟨r5, rd⟩ := double_round_ge (show (5 : ℚ) ≤ 5 * arg.stride_scale by linarith)
  have hs0 : (0 : ℚ) ≤ arg.stride_scale := by linarith
  have hr0 : (0 : ℚ) ≤ double_mul 5 arg.stride_scale := by unfold double_mul; linarith
  have t1 : trunc arg.stride_scale = ⌊arg.stride_scale⌋ := by simp [trunc, hs0]
  have t5 : trunc (double_mul 5 arg.stride_scale) = ⌊double_mul 5 arg.stride_scale⌋ := by
    simp [trunc, hr0]
  rw [t5] at hr
  have f1 : 1 ≤ ⌊arg.stride_scale⌋ := Int.le_floor.2 (by exact_mod_cast hs)
  have f5 : 5 ≤ ⌊double_mul 5 arg.stride_scale⌋ :=
    Int.le_floor.2 (by unfold double_mul; exact_mod_cast r5)
  have f15 : ⌊arg.stride_scale⌋ ≤ ⌊double_mul 5 arg.stride_scale⌋ :=
    Int.floor_mono (by unfold double_mul; linarith)
  have p1 : arg.batch_count * ⌊arg.stride_scale⌋ < 2 ^ 63 :=
    lt_of_le_of_lt (mul_le_mul_of_nonneg_left f15 (by omega)) hr
  have q1 : ⌊arg.stride_scale⌋ < 2 ^ 63 := by nlinarith
  have q5 : ⌊double_mul 5 arg.stride_scale⌋ < 2 ^ 63 := by nlinarith
  have e1 : stride_d1 arg = ⌊arg.stride_scale⌋ := by
    unfold stride_d1
    rw [t1, int64_eq_self _ (by omega) q1]
  have e5 : stride_param arg = ⌊double_mul 5 arg.stride_scale⌋ := by
    unfold stride_param
    rw [t5, int64_eq_self _ (by omega) q5]
  have n1 : 0 ≤ arg.batch_count * ⌊arg.stride_scale⌋ := by positivity
  have n5 : 0 ≤ arg.batch_count * ⌊double_mul 5 arg.stride_scale⌋ := by positivity
  refine ⟨by rw [e1]; exact f1, by rw [e5]; exact f5, ?_, ?_, by rw [e1]; exact p1,
    by rw [e5]; exact hr⟩
  · unfold size_d1
    rw [e1, int64_eq_self _ (by omega) p1, size_t_of_nonneg _ n1 (by omega)]
  · unfold size_param
    rw [e5, int64_eq_self _ (by omega) hr, size_t_of_nonneg _ n5 (by omega)]

/-- The product `5 * 1` is exact. -/
theorem double_mul_five_one : double_mul 5 1 = 5 := by
  unfold double_mul
  rw [mul_one]
  exact double_round_of_exact 2 (5 * 2 ^ 50) (by norm_num) (by norm_num) (by norm_num)
    (by norm_num)

/-- The product `5 * 2^60` is exact. -/
theorem double_mul_five_huge : double_mul 5 (2 ^ 60) = 5 * 2 ^ 60 := by
  unfold double_mul
  exact double_round_of_exact 62 (5 * 2 ^ 50) (by norm_num) (by norm_num) (by norm_num)
    (by norm_num)

/-- The product `5 * 0.5` is exact. -/
theorem double_mul_five_half : double_mul 5 (1 / 2) = 5 / 2 := by
  unfold double_mul
  rw [show (5 : ℚ) * (1 / 2) = 5 / 2 by norm_num]
  exact double_round_of_exact 1 (5 * 2 ^ 50) (by norm_num) (by norm_num) (by norm_num)
    (by norm_num)

/-- The product of 5 and the `double` nearest to 1.2 is rounded up to 6. -/
theorem double_mul_five_rounded : double_mul 5 (5404319552844595 / 2 ^ 52) = 6 := by
  unfold double_mul
  have hf : ⌊(27021597764222975 / 4 : ℚ)⌋ = 6755399441055743 := by
    rw [Int.floor_eq_iff]
    norm_num
  have hm : round_even (5 * (5404319552844595 / 2 ^ 52) / 2 ^ ((2 : Int) - 52)) =
      6755399441055744 := by
    rw [show (5 : ℚ) * (5404319552844595 / 2 ^ 52) / 2 ^ ((2 : Int) - 52) =
      27021597764222975 / 4 by norm_num]
    unfold round_even
    rw [hf]
    norm_num
  rw [double_round_of_log 2 6755399441055744 (by norm_num) (by norm_num) (by norm_num) hm]
  norm_num

theorem rotmg_huge_stride_d1 : stride_d1 argHugeStride = 2 ^ 60 := by
  have h : argHugeStride.stride_scale = (((2 : Int) ^ 60 : Int) : ℚ) := by
    simp [argHugeStride]; norm_num
  unfold stride_d1
  rw [h, trunc_intCast]
  decide

theorem rotmg_huge_stride_param : stride_param argHugeStride = 5 * 2 ^ 60 := by
  have h : double_mul 5 argHugeStride.stride_scale = (((5 * 2 ^ 60 : Int) : Int) : ℚ) := by
    show double_mul 5 (2 ^ 60) = _
    rw [double_mul_five_huge]
    norm_num
  unfold stride_param
  rw [h, trunc_intCast]
  decide

theorem rotmg_half_stride_param (arg : Arguments) :
    stride_param { arg with stride_scale := 1 / 2 } = 2 := by
  have h : trunc (5 / 2 : ℚ) = 2 := by
    unfold trunc
    rw [if_pos (by norm_num), Int.floor_eq_iff]
    norm_num
  show int64 (trunc (double_mul 5 (1 / 2))) = 2
  rw [double_mul_five_half, h]
  decide

/-- At the `double` nearest to 1.2 the stride of the parameter blocks is 6, where the
exact product truncates to 5. -/
theorem rotmg_rounded_stride_param :
    stride_param argRoundedStride = 6 ∧ trunc (5 * argRoundedStride.stride_scale) = 5 := by
  constructor
  · show int64 (trunc (double_mul 5 (5404319552844595 / 2 ^ 52))) = 6
    rw [double_mul_five_rounded, show (6 : ℚ) = ((6 : Int) : ℚ) by norm_num, trunc_intCast]
    decide
  · show trunc (5 * (5404319552844595 / 2 ^ 52 : ℚ)) = 5
    unfold trunc
    rw [if_pos (by norm_num), Int.floor_eq_iff]
    norm_num

/-- The product of 5 and `167697673397359552` is half-way between two `double`s and is
rounded up to the even one: `11 * stride_param` then passes `2^63`, which the exact
product does not. -/
theorem rotmg_tie_stride_param :
    stride_param argTieStride = 838488366986797824 ∧
      5 * argTieStride.stride_scale * argTieStride.batch_count < 2 ^ 63 ∧
      ¬ (argTieStride.batch_count * trunc (double_mul 5 argTieStride.stride_scale) <
        2 ^ 63) := by
  have hf : ⌊(13101380734168715 / 2 : ℚ)⌋ = 6550690367084357 := by
    rw [Int.floor_eq_iff]
    norm_num
  have hm : round_even (5 * 167697673397359552 / 2 ^ ((59 : Int) - 52)) =
      6550690367084358 := by
    rw [show (5 : ℚ) * 167697673397359552 / 2 ^ ((59 : Int) - 52) =
      13101380734168715 / 2 by norm_num]
    unfold round_even
    rw [hf]
    norm_num
  have hd : double_mul 5 argTieStride.stride_scale =
      ((838488366986797824 : Int) : ℚ) := by
    show double_round (5 * 167697673397359552) = _
    rw [double_round_of_log 59 6550690367084358 (by norm_num) (by norm_num) (by norm_num) hm]
    norm_num
  refine ⟨?_, ?_, ?_⟩
  · unfold stride_param
    rw [hd, trunc_intCast]
    decide
  · show (5 : ℚ) * 167697673397359552 * ((11 : Int) : ℚ) < 2 ^ 63
    norm_num
  · rw [hd, trunc_intCast]
    decide

theorem rotmg_sampleArg_strided : Strided sampleArg := by
  refine ⟨by decide, ?_, ?_⟩
  · show (1 : ℚ) ≤ 1
    norm_num
  · show (2 : Int) * trunc (double_mul 5 1) < 2 ^ 63
    rw [double_mul_five_one, show (5 : ℚ) = ((5 : Int) : ℚ) by norm_num, trunc_intCast]
    norm_num

end Rotmg

/-! ## States reached by runs that are not aborted -/

theorem bind_eq_ok {σ : Type} {x : Except σ σ} {g : σ → Except σ σ} {s : σ}
    (h : (x >>= g) = Except.ok s) : ∃ a, x = Except.ok a ∧ g a = Except.ok s := by
  cases x with
  | ok a => exact ⟨a, rfl, h⟩
  | error a => cases h

theorem bind_assoc_except {σ : Type} (x : Except σ σ) (f g : σ → Except σ σ) :
    ((x >>= f) >>= g) = (x >>= fun a => f a >>= g) := by
  cases x <;> rfl

section OfOk

variable {ν C S : Type}

theorem assert_hip_of_ok {r : hipError_t} {s s1 : St ν C S}
    (h : ASSERT_HIP_SUCCESS r s = Except.ok s1) : r = hipError_t.hipSuccess ∧ s1 = s := by
  unfold ASSERT_HIP_SUCCESS at h
  split at h
  · rename_i hr
    cases h
    exact ⟨hr, rfl⟩
  · cases h

theorem assert_hipblas_of_ok {r : hipblasStatus_t} {s s1 : St ν C S}
    (h : ASSERT_HIPBLAS_SUCCESS r s = Except.ok s1) :
    r = hipblasStatus_t.SUCCESS ∧ s1 = s := by
  unfold ASSERT_HIPBLAS_SUCCESS at h
  split at h
  · rename_i hr
    cases h
    exact ⟨hr, rfl⟩
  · cases h

theorem memcheck_of_ok {rt : Runtime ν C} {b : ν} {s s1 : St ν C S}
    (h : memcheck rt b s = Except.ok s1) : s1.bufs = s.bufs := by
  obtain ⟨-, rfl⟩ := assert_hip_of_ok h
  rfl

theorem set_pointer_mode_of_ok {rt : Runtime ν C} {m : hipblasPointerMode_t} {s s1 : St ν C S}
    (h : set_pointer_mode rt m s = Except.ok s1) :
    s1.bufs = s.bufs ∧ s1.pointer_mode = some m := by
  obtain ⟨hr, rfl⟩ := assert_hipblas_of_ok h
  exact ⟨rfl, by simp [hr]⟩

variable [DecidableEq ν]

theorem transfer_from_of_ok {rt : Runtime ν C} {dst src : ν} {s s1 : St ν C S}
    (h : transfer_from rt dst src s = Except.ok s1) :
    s1.bufs = s.bufs.write dst (s.bufs src) ∧ s1.pointer_mode = s.pointer_mode := by
  obtain ⟨hr, rfl⟩ := assert_hip_of_ok h
  exact ⟨by simp [transferred, hr, St.emit], rfl⟩

theorem hipMemcpy_of_ok {rt : Runtime ν C} {dst src : ν} {s s1 : St ν C S}
    (h : hipMemcpy rt dst src s = Except.ok s1) :
    s1.bufs = s.bufs.write dst (s.bufs src) ∧ s1.pointer_mode = s.pointer_mode := by
  obtain ⟨hr, rfl⟩ := assert_hip_of_ok h
  exact ⟨by simp [transferred, hr, St.emit], rfl⟩

theorem memcpy_scalar_of_ok {rt : Runtime ν C} {dst src : ν} {v : S} {s s1 : St ν C S}
    (h : memcpy_scalar rt dst src v s = Except.ok s1) : s1.bufs = s.bufs := by
  obtain ⟨-, rfl⟩ := assert_hip_of_ok h
  rfl

end OfOk

namespace Her

variable {T U : Type}

theorem her_assert_call_of_ok {env : Env T U} {arg : Arguments} {alpha : Ptr Buf}
    {s s1 : State T U} (h : assert_call env arg alpha s = Except.ok s1) :
    (∃ v, s1.bufs = s.bufs.write Buf.dA v) ∧ s1.pointer_mode = s.pointer_mode := by
  obtain ⟨-, rfl⟩ := assert_hipblas_of_ok h
  exact ⟨⟨_, rfl⟩, rfl⟩

/-- The correctness block is the host pass, the device pass, the reference loop and
the comparisons. -/
theorem her_correctness_eq (env : Env T U) (arg : Arguments) (s : State T U) :
    correctness env arg s =
      if arg.unit_check || arg.norm_check then
        host_pass env arg s >>= fun s => device_pass env arg s >>= fun s =>
          pure (comparisons env arg (oracle_loop env arg arg.batch_count.toNat 0 s))
      else pure s := by
  unfold correctness host_pass device_pass comparisons
  split
  · simp only [bind_assoc_except]
  · rfl

theorem her_testing_eq (env : Env T U) (arg : Arguments) (hv : Checked arg)
    (hc : (arg.unit_check || arg.norm_check) = true) :
    testing_her_batched env arg = (before_device_call env arg >>= from_device_call env arg) ∧
    testing_her_batched env arg = (before_oracle env arg >>= from_oracle env arg) := by
  rw [her_testing_of_checked env arg hv]
  unfold after_setup before_oracle before_device_call from_device_call from_oracle
  simp only [her_correctness_eq, hc, if_true, bind_assoc_except]
  constructor <;> rfl

/-- The generated data. -/
theorem her_setup_of_ok {env : Env T U} {arg : Arguments} {s s0 : State T U}
    (h : setup env arg s = Except.ok s0) :
    (∃ t, s0.bufs Buf.hA = some (env.hipblas_init_vector t Buf.hA
      [A_size arg, 1, arg.batch_count])) ∧
    (∃ t, s0.bufs Buf.hx = some (env.hipblas_init_vector t Buf.hx
      [size_t arg.N, arg.incx, arg.batch_count])) := by
  unfold setup at h
  obtain ⟨s1, h1, h⟩ := bind_eq_ok h
  obtain ⟨s2, h2, h⟩ := bind_eq_ok h
  cases h
  exact ⟨⟨_, rfl⟩, ⟨_, rfl⟩⟩

theorem her_staging_of_ok {env : Env T U} {arg : Arguments} {s s1 : State T U}
    (h : staging env arg s = Except.ok s1) :
    s1.bufs = ((s.bufs.write Buf.hA_cpu (s.bufs Buf.hA)).write Buf.dA (s.bufs Buf.hA)).write
      Buf.dx (s.bufs Buf.hx) := by
  unfold staging at h
  obtain ⟨a1, h1, h⟩ := bind_eq_ok h
  obtain ⟨a2, h2, h⟩ := bind_eq_ok h
  rw [memcpy_scalar_of_ok h, (transfer_from_of_ok h2).1, (transfer_from_of_ok h1).1]
  simp [copy_from, St.emit, Store.write]

theorem her_host_pass_of_ok {env : Env T U} {arg : Arguments} {s s1 : State T U}
    (h : host_pass env arg s = Except.ok s1) :
    (∃ v, s1.bufs = ((s.bufs.write Buf.dA v).write Buf.hA_host v).write Buf.dA (s.bufs Buf.hA)) ∧
      s1.pointer_mode = some hipblasPointerMode_t.DEVICE := by
  unfold host_pass at h
  obtain ⟨a1, h1, h⟩ := bind_eq_ok h
  obtain ⟨a2, h2, h⟩ := bind_eq_ok h
  obtain ⟨a3, h3, h⟩ := bind_eq_ok h
  obtain ⟨a4, h4, h⟩ := bind_eq_ok h
  obtain ⟨⟨v, e2⟩, -⟩ := her_assert_call_of_ok h2
  refine ⟨⟨v, ?_⟩, (set_pointer_mode_of_ok h).2⟩
  rw [(set_pointer_mode_of_ok h).1, (transfer_from_of_ok h4).1, (transfer_from_of_ok h3).1, e2,
    (set_pointer_mode_of_ok h1).1]
  simp [Store.write]

/-- State at the device-pointer-mode invocation of the correctness block. -/
theorem her_before_device_call_of_ok {env : Env T U} {arg : Arguments} {s : State T U}
    (h : before_device_call env arg = Except.ok s) :
    s.pointer_mode = some hipblasPointerMode_t.DEVICE ∧
    s.bufs Buf.dA = (final (setup env arg (St.init.emit Event.local_handle))).bufs Buf.hA ∧
    s.bufs Buf.dx = (final (setup env arg (St.init.emit Event.local_handle))).bufs Buf.hx ∧
    s.bufs Buf.hx = (final (setup env arg (St.init.emit Event.local_handle))).bufs Buf.hx ∧
    s.bufs Buf.hA_cpu = (final (setup env arg (St.init.emit Event.local_handle))).bufs
      Buf.hA := by
  unfold before_device_call at h
  obtain ⟨s0, h0, h⟩ := bind_eq_ok h
  obtain ⟨s1, h1, h⟩ := bind_eq_ok h
  obtain ⟨⟨v, e2⟩, hm⟩ := her_host_pass_of_ok h
  rw [h0, final_ok, e2, her_staging_of_ok h1]
  simp [Store.write, hm]

theorem her_before_oracle_ok {env : Env T U} (hs : env.Succeeds) (arg : Arguments) :
    aborted (before_device_call env arg) = false ∧ aborted (before_oracle env arg) = false := by
  obtain ⟨s1, e1, -⟩ := her_setup_yields hs arg (St.init.emit Event.local_handle)
  obtain ⟨s2, e2, -⟩ := her_staging_yields hs arg s1
  unfold before_oracle before_device_call
  simp only [e1, e2, ok_bind, host_pass, device_pass, set_pointer_mode_ok hs.runtime,
    her_assert_call_ok hs, transfer_from_ok hs.runtime]
  exact ⟨rfl, rfl⟩

end Her

theorem aborted_bind {σ : Type} {x : Except σ σ} {g : σ → Except σ σ}
    (hx : aborted x = false) (hg : ∀ s, aborted (g s) = false) :
    aborted (x >>= g) = false := by
  cases x with
  | ok a => exact hg a
  | error a => cases hx

namespace Syr2k

variable {T : Type}

theorem syr2k_assert_call_of_ok {env : Env T} {arg : Arguments} {alpha beta : Ptr Buf}
    {s s1 : State T} (h : assert_call env arg alpha beta s = Except.ok s1) :
    (∃ v, s1.bufs = s.bufs.write Buf.dC v) ∧ s1.pointer_mode = s.pointer_mode := by
  obtain ⟨-, rfl⟩ := assert_hipblas_of_ok h
  exact ⟨⟨_, rfl⟩, rfl⟩

/-- The correctness block is the host pass, the device pass, the reference loop and
the comparisons. -/
theorem syr2k_correctness_eq (env : Env T) (arg : Arguments) (s : State T) :
    correctness env arg s =
      if arg.unit_check || arg.norm_check then
        host_pass env arg s >>= fun s => device_pass env arg s >>= fun s =>
          pure (comparisons env arg (oracle_loop env arg arg.batch_count.toNat 0 s))
      else pure s := by
  unfold correctness host_pass device_pass comparisons
  split
  · simp only [bind_assoc_except]
  · rfl

theorem syr2k_testing_eq (env : Env T) (arg : Arguments)
    (hv : Checked (env.char2hipblas_operation arg.transA) arg)
    (hc : (arg.unit_check || arg.norm_check) = true) :
    testing_syr2k_batched env arg =
      (before_device_call env arg >>= from_device_call env arg) ∧
    testing_syr2k_batched env arg = (before_oracle env arg >>= from_oracle env arg) := by
  rw [syr2k_testing_of_checked env arg hv]
  unfold after_setup before_oracle before_device_call from_device_call from_oracle
  simp only [syr2k_correctness_eq, hc, if_true, bind_assoc_except]
  constructor <;> rfl

/-- The generated data. -/
theorem syr2k_setup_of_ok {env : Env T} {arg : Arguments} {s s0 : State T}
    (h : setup env arg s = Except.ok s0) :
    (∃ t, s0.bufs Buf.hA = some (env.hipblas_init_vector t Buf.hA
      [A_size (env.char2hipblas_operation arg.transA) arg, 1, arg.batch_count])) ∧
    (∃ t, s0.bufs Buf.hB = some (env.hipblas_init_vector t Buf.hB
      [B_size (env.char2hipblas_operation arg.transA) arg, 1, arg.batch_count])) ∧
    (∃ t, s0.bufs Buf.hC_host = some (env.hipblas_init_vector t Buf.hC_host
      [C_size arg, 1, arg.batch_count])) := by
  unfold setup at h
  obtain ⟨s1, h1, h⟩ := bind_eq_ok h
  obtain ⟨s2, h2, h⟩ := bind_eq_ok h
  obtain ⟨s3, h3, h⟩ := bind_eq_ok h
  cases h
  exact ⟨⟨_, rfl⟩, ⟨_, rfl⟩, ⟨_, rfl⟩⟩

theorem syr2k_staging_of_ok {env : Env T} {arg : Arguments} {s s1 : State T}
    (h : staging env arg s = Except.ok s1) :
    s1.bufs = ((((s.bufs.write Buf.hC_device (s.bufs Buf.hC_host)).write Buf.hC_gold
      (s.bufs Buf.hC_host)).write Buf.dA (s.bufs Buf.hA)).write Buf.dB (s.bufs Buf.hB)).write
      Buf.dC (s.bufs Buf.hC_host) := by
  unfold staging at h
  obtain ⟨a1, h1, h⟩ := bind_eq_ok h
  obtain ⟨a2, h2, h⟩ := bind_eq_ok h
  obtain ⟨a3, h3, h⟩ := bind_eq_ok h
  obtain ⟨a4, h4, h⟩ := bind_eq_ok h
  rw [memcpy_scalar_of_ok h, memcpy_scalar_of_ok h4, (transfer_from_of_ok h3).1,
    (transfer_from_of_ok h2).1, (transfer_from_of_ok h1).1]
  simp [copy_from, St.emit, Store.write]

theorem syr2k_host_pass_of_ok {env : Env T} {arg : Arguments} {s s1 : State T}
    (h : host_pass env arg s = Except.ok s1) :
    (∃ v, s1.bufs = ((s.bufs.write Buf.dC v).write Buf.hC_host v).write Buf.dC
      (s.bufs Buf.hC_device)) ∧
      s1.pointer_mode = some hipblasPointerMode_t.DEVICE := by
  unfold host_pass at h
  obtain ⟨a1, h1, h⟩ := bind_eq_ok h
  obtain ⟨a2, h2, h⟩ := bind_eq_ok h
  obtain ⟨a3, h3, h⟩ := bind_eq_ok h
  obtain ⟨a4, h4, h⟩ := bind_eq_ok h
  obtain ⟨⟨v, e2⟩, -⟩ := syr2k_assert_call_of_ok h2
  refine ⟨⟨v, ?_⟩, (set_pointer_mode_of_ok h).2⟩
  rw [(set_pointer_mode_of_ok h).1, (transfer_from_of_ok h4).1, (transfer_from_of_ok h3).1, e2,
    (set_pointer_mode_of_ok h1).1]
  simp [Store.write]

/-- State at the device-pointer-mode invocation of the correctness block. -/
theorem syr2k_before_device_call_of_ok {env : Env T} {arg : Arguments} {s : State T}
    (h : before_device_call env arg = Except.ok s) :
    s.pointer_mode = some hipblasPointerMode_t.DEVICE ∧
    s.bufs Buf.dA = (final (setup env arg St.init)).bufs Buf.hA ∧
    s.bufs Buf.dB = (final (setup env arg St.init)).bufs Buf.hB ∧
    s.bufs Buf.dC = (final (setup env arg St.init)).bufs Buf.hC_host ∧
    s.bufs Buf.hA = (final (setup env arg St.init)).bufs Buf.hA ∧
    s.bufs Buf.hB = (final (setup env arg St.init)).bufs Buf.hB ∧
    s.bufs Buf.hC_gold = (final (setup env arg St.init)).bufs Buf.hC_host := by
  unfold before_device_call at h
  obtain ⟨s0, h0, h⟩ := bind_eq_ok h
  obtain ⟨s1, h1, h⟩ := bind_eq_ok h
  obtain ⟨⟨v, e2⟩, hm⟩ := syr2k_host_pass_of_ok h
  rw [h0, final_ok, e2, syr2k_staging_of_ok h1]
  simp [Store.write, hm]

theorem syr2k_before_oracle_ok {env : Env T} (hs : env.Succeeds) (arg : Arguments) :
    aborted (before_device_call env arg) = false ∧ aborted (before_oracle env arg) = false := by
  obtain ⟨s1, e1, -⟩ := syr2k_setup_yields hs arg St.init
  obtain ⟨s2, e2, -⟩ := syr2k_staging_yields hs arg s1
  unfold before_oracle before_device_call
  simp only [e1, e2, ok_bind, host_pass, device_pass, set_pointer_mode_ok hs.runtime,
    syr2k_assert_call_ok hs, transfer_from_ok hs.runtime]
  exact ⟨rfl, rfl⟩

end Syr2k

namespace Rotmg

variable {T : Type}

theorem rotmg_assert_call_of_ok {env : Env T} {arg : Arguments} {ptr : Buf → Ptr Buf}
    {p : Five Buf} {s s1 : State T} (h : assert_call env arg ptr p s = Except.ok s1) :
    (∃ v : Five (Option (List T)), s1.bufs = ((((s.bufs.write p.d1 v.d1).write p.d2
      v.d2).write p.x1 v.x1).write p.y1 v.y1).write p.param v.param) ∧
      s1.pointer_mode = s.pointer_mode := by
  obtain ⟨-, rfl⟩ := assert_hipblas_of_ok h
  exact ⟨⟨_, rfl⟩, rfl⟩

/-- The correctness block is the host pass, the device pass, the reference loop and
the comparisons. -/
theorem rotmg_correctness_eq (env : Env T) (arg : Arguments) (s : State T) :
    correctness env arg s =
      if arg.unit_check || arg.norm_check then
        host_pass env arg s >>= fun s => device_pass env arg s >>= fun s =>
          pure (comparisons env arg (oracle_loop env arg arg.batch_count.toNat 0 s))
      else pure s := by
  unfold correctness host_pass device_pass comparisons
  split
  · simp only [bind_assoc_except]
  · rfl

theorem rotmg_testing_eq (env : Env T) (arg : Arguments) (hv : 0 < arg.batch_count)
    (hc : (arg.unit_check || arg.norm_check) = true) :
    testing_rotmg_strided_batched env arg =
      (before_device_call env arg >>= from_device_call env arg) ∧
    testing_rotmg_strided_batched env arg =
      (before_oracle env arg >>= from_oracle env arg) := by
  rw [rotmg_testing_of_positive env arg hv]
  unfold after_setup before_oracle before_device_call from_device_call from_oracle
  simp only [rotmg_correctness_eq, hc, if_true, bind_assoc_except]
  constructor <;> rfl

/-- The generated data. -/
theorem rotmg_setup_bufs (env : Env T) (arg : Arguments) (s : State T) :
    (∃ t, (setup env arg s).bufs Buf.hd1 = some (env.hipblas_init_vector t Buf.hd1
      [1, 1, stride_d1 arg, arg.batch_count])) ∧
    (∃ t, (setup env arg s).bufs Buf.hd2 = some (env.hipblas_init_vector t Buf.hd2
      [1, 1, stride_d1 arg, arg.batch_count])) ∧
    (∃ t, (setup env arg s).bufs Buf.hx1 = some (env.hipblas_init_vector t Buf.hx1
      [1, 1, stride_d1 arg, arg.batch_count])) ∧
    (∃ t, (setup env arg s).bufs Buf.hy1 = some (env.hipblas_init_vector t Buf.hy1
      [1, 1, stride_d1 arg, arg.batch_count])) ∧
    (∃ t, (setup env arg s).bufs Buf.hparams = some (env.hipblas_init_vector t Buf.hparams
      [5, 1, stride_param arg, arg.batch_count])) :=
  ⟨⟨_, rfl⟩, ⟨_, rfl⟩, ⟨_, rfl⟩, ⟨_, rfl⟩, ⟨_, rfl⟩⟩

theorem rotmg_staging_of_ok {env : Env T} {arg : Arguments} {s s1 : State T}
    (h : staging env arg s = Except.ok s1) :
    s1.bufs = (((((((((s.bufs.write Buf.cparams (s.bufs Buf.hparams)).write Buf.cd1
      (s.bufs Buf.hd1)).write Buf.cd2 (s.bufs Buf.hd2)).write Buf.cx1 (s.bufs Buf.hx1)).write
      Buf.cy1 (s.bufs Buf.hy1)).write Buf.dd1 (s.bufs Buf.hd1)).write Buf.dd2
      (s.bufs Buf.hd2)).write Buf.dx1 (s.bufs Buf.hx1)).write Buf.dy1 (s.bufs Buf.hy1)).write
      Buf.dparams (s.bufs Buf.hparams) := by
  unfold staging at h
  obtain ⟨a1, h1, h⟩ := bind_eq_ok h
  obtain ⟨a2, h2, h⟩ := bind_eq_ok h
  obtain ⟨a3, h3, h⟩ := bind_eq_ok h
  obtain ⟨a4, h4, h⟩ := bind_eq_ok h
  rw [(hipMemcpy_of_ok h).1, (hipMemcpy_of_ok h4).1, (hipMemcpy_of_ok h3).1,
    (hipMemcpy_of_ok h2).1, (hipMemcpy_of_ok h1).1]
  simp [copy_from, alloc, St.emit, Store.write]

theorem rotmg_host_pass_of_ok {env : Env T} {arg : Arguments} {s s1 : State T}
    (h : host_pass env arg s = Except.ok s1) :
    (∃ v : Five (Option (List T)), s1.bufs = ((((s.bufs.write Buf.hd1 v.d1).write Buf.hd2
      v.d2).write Buf.hx1 v.x1).write Buf.hy1 v.y1).write Buf.hparams v.param) ∧
      s1.pointer_mode = some hipblasPointerMode_t.DEVICE := by
  unfold host_pass at h
  obtain ⟨a1, h1, h⟩ := bind_eq_ok h
  obtain ⟨a2, h2, h⟩ := bind_eq_ok h
  obtain ⟨⟨v, e2⟩, -⟩ := rotmg_assert_call_of_ok h2
  refine ⟨⟨v, ?_⟩, (set_pointer_mode_of_ok h).2⟩
  rw [(set_pointer_mode_of_ok h).1, e2, (set_pointer_mode_of_ok h1).1]
  rfl

/-- State at the device-pointer-mode invocation of the correctness block. -/
theorem rotmg_before_device_call_of_ok {env : Env T} {arg : Arguments} {s : State T}
    (h : before_device_call env arg = Except.ok s) :
    s.pointer_mode = some hipblasPointerMode_t.DEVICE ∧
    (s.bufs Buf.dd1 = (setup env arg St.init).bufs Buf.hd1 ∧
      s.bufs Buf.dd2 = (setup env arg St.init).bufs Buf.hd2 ∧
      s.bufs Buf.dx1 = (setup env arg St.init).bufs Buf.hx1 ∧
      s.bufs Buf.dy1 = (setup env arg St.init).bufs Buf.hy1 ∧
      s.bufs Buf.dparams = (setup env arg St.init).bufs Buf.hparams) ∧
    (s.bufs Buf.cd1 = (setup env arg St.init).bufs Buf.hd1 ∧
      s.bufs Buf.cd2 = (setup env arg St.init).bufs Buf.hd2 ∧
      s.bufs Buf.cx1 = (setup env arg St.init).bufs Buf.hx1 ∧
      s.bufs Buf.cy1 = (setup env arg St.init).bufs Buf.hy1 ∧
      s.bufs Buf.cparams = (setup env arg St.init).bufs Buf.hparams) := by
  unfold before_device_call at h
  obtain ⟨s1, h1, h⟩ := bind_eq_ok h
  obtain ⟨⟨v, e2⟩, hm⟩ := rotmg_host_pass_of_ok h
  rw [e2, rotmg_staging_of_ok h1]
  simp [Store.write, hm]

theorem rotmg_assert_call_not_aborted {env : Env T} (hs : env.Succeeds) (arg : Arguments)
    (ptr : Buf → Ptr Buf) (p : Five Buf) (s : State T) :
    aborted (assert_call env arg ptr p s) = false := by
  obtain ⟨s1, e1, -⟩ := rotmg_assert_call_ok hs arg ptr p s
  rw [e1]
  rfl

theorem rotmg_before_oracle_ok {env : Env T} (hs : env.Succeeds) (arg : Arguments) :
    aborted (before_device_call env arg) = false ∧ aborted (before_oracle env arg) = false := by
  have hp : ∀ m s, aborted (set_pointer_mode env.toRuntime m (s : State T)) = false := by
    intro m s
    rw [set_pointer_mode_ok hs.runtime]
    rfl
  have hm : ∀ d b s, aborted (hipMemcpy env.toRuntime d b (s : State T)) = false := by
    intro d b s
    rw [hipMemcpy_ok hs.runtime]
    rfl
  have h1 : aborted (before_device_call env arg) = false := by
    unfold before_device_call host_pass
    refine aborted_bind (rotmg_staging_yields hs arg _).final_summary.2 (fun s1 => ?_)
    refine aborted_bind (hp _ _) (fun s2 => ?_)
    exact aborted_bind (rotmg_assert_call_not_aborted hs arg _ _ _) (fun s3 => hp _ _)
  refine ⟨h1, ?_⟩
  unfold before_oracle device_pass
  refine aborted_bind h1 (fun s1 => ?_)
  refine aborted_bind (rotmg_assert_call_not_aborted hs arg _ _ _) (fun s2 => ?_)
  refine aborted_bind (hm _ _ _) (fun s3 => ?_)
  refine aborted_bind (hm _ _ _) (fun s4 => ?_)
  refine aborted_bind (hm _ _ _) (fun s5 => ?_)
  exact aborted_bind (hm _ _ _) (fun s6 => hm _ _ _)

end Rotmg

/-! ## Runs in an arbitrary environment: the calls made -/

section FollowsLemmas

variable {ν C S : Type}

theorem Follows.start {x : Except (St ν C S) (St ν C S)} {q0 q q1 : Summary ν}
    (h : Follows x q q1) (hp : q0.trace <+: q.trace) : Follows x q0 q1 :=
  ⟨hp.trans h.1, h.2⟩

theorem Follows.retarget {x : Except (St ν C S) (St ν C S)} {q0 q q1 : Summary ν}
    (h : Follows x q0 q) (e : q = q1) : Follows x q0 q1 := e ▸ h

theorem Follows.ret {s : St ν C S} {q0 q1 : Summary ν} (h : s.summary = q1)
    (hp : q0.trace <+: q1.trace) : Follows (Pure.pure s) q0 q1 :=
  ⟨hp, h⟩

/-- Sequencing: a run that follows its plan, continued by a run that follows its plan. -/
theorem Follows.seq {x : Except (St ν C S) (St ν C S)}
    {g : St ν C S → Except (St ν C S) (St ν C S)} {q0 q q1 : Summary ν}
    (hx : Follows x q0 q) (hg : ∀ s, s.summary = q → Follows (g s) s.summary q1) :
    Follows (x >>= g) q0 q1 := by
  have hd := (hg (St.mk q.trace false q.pointer_mode Figure.indeterminate q.hipblas_error_host
    q.hipblas_error_device Store.empty Store.empty) rfl).1
  have hq : q.trace <+: q1.trace := hd
  obtain ⟨hp, hx⟩ := hx
  cases x with
  | ok s =>
    have h := hg s hx
    exact ⟨hp.trans hq, h.2⟩
  | error s =>
    obtain ⟨hf, t1, f, t2, e1, e2, e3⟩ := hx
    obtain ⟨u, hu⟩ := hq
    refine ⟨hp.trans ⟨u, hu⟩, hf, t1, f, t2 ++ u, ?_, e2, e3⟩
    rw [← hu, e1]
    simp

/-- The last step of a run whose report depends on the state reached. -/
theorem Follows.bind_exists {α : Type} {x : Except (St ν C S) (St ν C S)}
    {g : St ν C S → Except (St ν C S) (St ν C S)} {q0 q : Summary ν} {Q : α → Summary ν}
    (hx : Follows x q0 q) (hg : ∀ s, s.summary = q → ∃ a, Follows (g s) s.summary (Q a)) :
    ∃ a, Follows (x >>= g) q0 (Q a) := by
  cases hx0 : x with
  | ok s =>
    rw [hx0] at hx
    obtain ⟨a, ha⟩ := hg s hx.2
    exact ⟨a, hx.1.trans (hx.2 ▸ ha.1), ha.2⟩
  | error s =>
    obtain ⟨a, ha⟩ := hg (St.mk q.trace false q.pointer_mode Figure.indeterminate
      q.hipblas_error_host q.hipblas_error_device Store.empty Store.empty) rfl
    refine ⟨a, ?_⟩
    rw [hx0] at hx
    obtain ⟨hf, t1, f, t2, e1, e2, e3⟩ := hx.2
    have hq : q.trace <+: (Q a).trace := ha.1
    obtain ⟨u, hu⟩ := hq
    exact ⟨hx.1.trans ⟨u, hu⟩, hf, t1, f, t2 ++ u, by rw [← hu, e1]; simp, e2, e3⟩

theorem follows_assert_hip (s s1 : St ν C S) (r : hipError_t) (f : Event ν)
    (ht : s1.trace = s.trace ++ [f]) (hf : f.is_failure = decide (r ≠ hipError_t.hipSuccess))
    (q : Summary ν) (hq : r = hipError_t.hipSuccess → s1.summary = q)
    (hqt : q.trace = s.trace ++ [f.succeeded]) :
    Follows (ASSERT_HIP_SUCCESS r s1) s.summary q := by
  refine ⟨⟨[f.succeeded], hqt.symm⟩, ?_⟩
  unfold ASSERT_HIP_SUCCESS
  by_cases hr : r = hipError_t.hipSuccess
  · rw [if_pos hr]
    exact hq hr
  · rw [if_neg hr]
    exact ⟨rfl, s.trace, f, [], hqt, ht, by simp [hf, hr]⟩

theorem follows_assert_hipblas (s s1 : St ν C S) (r : hipblasStatus_t) (f : Event ν)
    (ht : s1.trace = s.trace ++ [f])
    (hf : f.is_failure = decide (r ≠ hipblasStatus_t.SUCCESS))
    (q : Summary ν) (hq : r = hipblasStatus_t.SUCCESS → s1.summary = q)
    (hqt : q.trace = s.trace ++ [f.succeeded]) :
    Follows (ASSERT_HIPBLAS_SUCCESS r s1) s.summary q := by
  refine ⟨⟨[f.succeeded], hqt.symm⟩, ?_⟩
  unfold ASSERT_HIPBLAS_SUCCESS
  by_cases hr : r = hipblasStatus_t.SUCCESS
  · rw [if_pos hr]
    exact hq hr
  · rw [if_neg hr]
    exact ⟨rfl, s.trace, f, [], hqt, ht, by simp [hf, hr]⟩

theorem memcheck_follows (rt : Runtime ν C) (b : ν) (s : St ν C S) :
    Follows (memcheck rt b s) s.summary
      (s.summary.add [Event.memcheck b hipError_t.hipSuccess]) :=
  follows_assert_hip s _ _ (Event.memcheck b (rt.memcheck s.now b)) rfl rfl _
    (fun hr => by rw [hr]; rfl) rfl

theorem get_stream_follows (rt : Runtime ν C) (s : St ν C S) :
    Follows (get_stream rt s) s.summary
      (s.summary.add [Event.get_stream hipblasStatus_t.SUCCESS]) :=
  follows_assert_hipblas s _ _ (Event.get_stream (rt.hipblasGetStream s.now)) rfl rfl _
    (fun hr => by rw [hr]; rfl) rfl

theorem set_pointer_mode_follows (rt : Runtime ν C) (m : hipblasPointerMode_t) (s : St ν C S) :
    Follows (set_pointer_mode rt m s) s.summary
      { s.summary.add [Event.set_pointer_mode m hipblasStatus_t.SUCCESS] with
        pointer_mode := some m } :=
  follows_assert_hipblas s _ _ (Event.set_pointer_mode m (rt.hipblasSetPointerMode s.now m))
    rfl rfl _ (fun hr => by simp [hr, St.summary, St.emit, Summary.add]) rfl

theorem timing_loop_succ (call : St ν C S → Except (St ν C S) (St ν C S)) (c : Int) (n : Nat)
    (i : Int) (s : St ν C S) :
    timing_loop call c (n + 1) i s =
      (call (if i = c then start_clock s else s) >>= timing_loop call c n (i + 1)) := by
  rw [timing_loop]
  cases call (if i = c then start_clock s else s) <;> rfl

/-- The timing loop in an arbitrary environment, when an invocation that succeeds emits
`ev` in pointer mode `m`. -/
theorem timing_loop_follows (call : St ν C S → Except (St ν C S) (St ν C S)) (c : Int)
    (ev : Event ν) (m : Option hipblasPointerMode_t)
    (hcall : ∀ s, s.summary.pointer_mode = m → Follows (call s) s.summary (s.summary.add [ev])) :
    ∀ (n : Nat) (i : Int) (s : St ν C S), s.summary.pointer_mode = m →
      Follows (timing_loop call c n i s) s.summary (s.summary.add (loop_events c ev n i)) := by
  intro n
  induction n with
  | zero =>
    intro i s _
    exact Follows.ret (by simp [loop_events, Summary.add]) (by simp [loop_events, Summary.add])
  | succ n ih =>
    intro i s hm
    rw [timing_loop_succ]
    by_cases hi : i = c
    · rw [if_pos hi]
      refine Follows.seq ((hcall (start_clock s) hm).start ⟨[Event.get_time], rfl⟩)
        (fun s1 h1 => ?_)
      have hm1 : s1.summary.pointer_mode = m := by rw [h1]; exact hm
      refine (ih (i + 1) s1 hm1).retarget ?_
      rw [h1, summary_start_clock]
      simp [Summary.add, loop_events, hi]
    · rw [if_neg hi]
      refine Follows.seq (hcall s hm) (fun s1 h1 => ?_)
      have hm1 : s1.summary.pointer_mode = m := by rw [h1]; exact hm
      refine (ih (i + 1) s1 hm1).retarget ?_
      rw [h1]
      simp [Summary.add, loop_events, hi]

/-- What a run that follows its plan leaves as trace. -/
theorem Follows.final_trace {x : Except (St ν C S) (St ν C S)} {q0 q1 : Summary ν}
    (h : Follows x q0 q1) :
    (aborted x = false ∧ (final x).trace = q1.trace) ∨
    (aborted x = true ∧ (final x).failed = true ∧ ∃ t1 f t2,
      q1.trace = t1 ++ f.succeeded :: t2 ∧ (final x).trace = t1 ++ [f] ∧
      f.is_failure = true) := by
  obtain ⟨-, h⟩ := h
  cases x with
  | ok s => exact Or.inl ⟨rfl, by rw [← h]; rfl⟩
  | error s => exact Or.inr ⟨rfl, h⟩

variable [DecidableEq ν]

theorem transfer_from_follows (rt : Runtime ν C) (dst src : ν) (s : St ν C S) :
    Follows (transfer_from rt dst src s) s.summary
      (s.summary.add [Event.transfer dst src hipError_t.hipSuccess]) :=
  follows_assert_hip s _ _ (Event.transfer dst src (rt.transfer_from s.now dst src)) rfl rfl _
    (fun hr => by rw [hr]; rfl) rfl

theorem hipMemcpy_follows (rt : Runtime ν C) (dst src : ν) (s : St ν C S) :
    Follows (hipMemcpy rt dst src s) s.summary
      (s.summary.add [Event.transfer dst src hipError_t.hipSuccess]) :=
  follows_assert_hip s _ _ (Event.transfer dst src (rt.hipMemcpy s.now dst src)) rfl rfl _
    (fun hr => by rw [hr]; rfl) rfl

theorem memcpy_scalar_follows (rt : Runtime ν C) (dst src : ν) (v : S) (s : St ν C S) :
    Follows (memcpy_scalar rt dst src v s) s.summary
      (s.summary.add [Event.transfer dst src hipError_t.hipSuccess]) :=
  follows_assert_hip s _ _ (Event.transfer dst src (rt.hipMemcpy s.now dst src)) rfl rfl _
    (fun hr => by rw [hr]; rfl) rfl

end FollowsLemmas

namespace Her

variable {T U : Type}

theorem her_assert_call_follows (env : Env T U) (arg : Arguments) (alpha : Ptr Buf)
    (s : State T U) :
    Follows (assert_call env arg alpha s) s.summary
      (s.summary.add [Event.device_call s.summary.pointer_mode
        [alpha, Ptr.device Buf.dx, Ptr.device Buf.dA] hipblasStatus_t.SUCCESS]) :=
  follows_assert_hipblas s _ _ (Event.device_call s.pointer_mode
    [alpha, Ptr.device Buf.dx, Ptr.device Buf.dA] (run_live env arg alpha s).1) rfl rfl _
    (fun hr => by rw [hr]; rfl) rfl

theorem her_setup_follows (env : Env T U) (arg : Arguments) (s : State T U) :
    Follows (setup env arg s) s.summary (s.summary.add (setup_events arg)) := by
  unfold setup
  refine Follows.seq ((memcheck_follows _ _ _).start ?_) (fun s1 h1 => ?_)
  · simp only [summary_alloc, Summary.add_add]
    exact ⟨_, rfl⟩
  refine Follows.seq (memcheck_follows _ _ _) (fun s2 h2 => ?_)
  refine Follows.ret ?_ ?_
  · simp only [summary_init_vector, summary_alloc, h2, h1, Summary.add_add, setup_events,
      List.cons_append, List.nil_append]
  · rw [h2]
    simp only [summary_init_vector, summary_alloc, h2, h1, Summary.add_add, setup_events,
      List.cons_append, List.nil_append]
    simp [Summary.add]

theorem her_staging_follows (env : Env T U) (arg : Arguments) (s : State T U) :
    Follows (staging env arg s) s.summary (s.summary.add staging_events) := by
  unfold staging
  refine Follows.seq ((transfer_from_follows _ _ _ _).start ?_) (fun s1 h1 => ?_)
  · simp only [summary_copy_from]
    exact ⟨_, rfl⟩
  refine Follows.seq (transfer_from_follows _ _ _ _) (fun s2 h2 => ?_)
  refine (memcpy_scalar_follows _ _ _ _ _).retarget ?_
  simp only [summary_copy_from, h2, h1, Summary.add_add, staging_events,
    List.cons_append, List.nil_append]

theorem her_correctness_follows (env : Env T U) (arg : Arguments) (s : State T U) :
    Follows (correctness env arg s) s.summary
      { trace := s.trace ++ correctness_events arg
        pointer_mode := if arg.unit_check || arg.norm_check then
          some hipblasPointerMode_t.DEVICE else s.pointer_mode
        hipblas_error_host := if arg.norm_check then Figure.norm Buf.hA_cpu Buf.hA_host
          else s.hipblas_error_host
        hipblas_error_device := if arg.norm_check then Figure.norm Buf.hA_cpu Buf.hA_device
          else s.hipblas_error_device } := by
  unfold correctness correctness_events
  cases hu : arg.unit_check <;> cases hn : arg.norm_check
  · exact Follows.ret (by simp [St.summary]) (by simp [St.summary])
  all_goals
    simp only [Bool.or_true, Bool.true_or, Bool.or_false, if_true]
    refine Follows.seq (set_pointer_mode_follows _ _ _) (fun s1 h1 => ?_)
    refine Follows.seq (her_assert_call_follows _ _ _ _) (fun s2 h2 => ?_)
    refine Follows.seq (transfer_from_follows _ _ _ _) (fun s3 h3 => ?_)
    refine Follows.seq (transfer_from_follows _ _ _ _) (fun s4 h4 => ?_)
    refine Follows.seq (set_pointer_mode_follows _ _ _) (fun s5 h5 => ?_)
    refine Follows.seq (her_assert_call_follows _ _ _ _) (fun s6 h6 => ?_)
    refine Follows.seq (transfer_from_follows _ _ _ _) (fun s7 h7 => ?_)
    refine Follows.ret ?_ ?_
    · simp [trace_eq_summary, pointer_mode_eq_summary, error_host_eq_summary,
        error_device_eq_summary, summary_mk, summary_unit_check, summary_norm_check,
        her_summary_oracle_loop, h7, h6, h5, h4, h3, h2, h1, Summary.add, live_call,
        oracle_events]
    · simp [trace_eq_summary, h7, h6, h5, h4, h3, h2, h1, Summary.add, live_call]

theorem her_timing_follows (env : Env T U) (arg : Arguments) (s : State T U) :
    ∃ g, Follows (timing env arg s) s.summary
      { trace := s.trace ++ timing_events arg g s.hipblas_error_host s.hipblas_error_device
        pointer_mode := if arg.timing then some hipblasPointerMode_t.DEVICE
          else s.pointer_mode
        hipblas_error_host := s.hipblas_error_host
        hipblas_error_device := s.hipblas_error_device } := by
  unfold timing timing_events
  cases ht : arg.timing
  · exact ⟨Figure.indeterminate, Follows.ret (by simp [St.summary]) (by simp [St.summary])⟩
  · simp only [if_true]
    have hcore : Follows
        (transfer_from env.toRuntime Buf.dA Buf.hA s >>= fun s =>
          get_stream env.toRuntime s >>= fun s =>
          set_pointer_mode env.toRuntime hipblasPointerMode_t.DEVICE s >>= fun s =>
          timing_loop (assert_call env arg (Ptr.device Buf.d_alpha)) arg.cold_iters
            (int32 (arg.cold_iters + arg.iters)).toNat 0 s) s.summary
        { trace := s.trace ++ ([Event.transfer Buf.dA Buf.hA hipError_t.hipSuccess,
            Event.get_stream hipblasStatus_t.SUCCESS,
            Event.set_pointer_mode hipblasPointerMode_t.DEVICE hipblasStatus_t.SUCCESS] ++
            loop_events arg.cold_iters
              (live_call hipblasPointerMode_t.DEVICE (Ptr.device Buf.d_alpha))
              (int32 (arg.cold_iters + arg.iters)).toNat 0)
          pointer_mode := some hipblasPointerMode_t.DEVICE
          hipblas_error_host := s.hipblas_error_host
          hipblas_error_device := s.hipblas_error_device } := by
      refine Follows.seq (transfer_from_follows _ _ _ _) (fun s1 h1 => ?_)
      refine Follows.seq (get_stream_follows _ _) (fun s2 h2 => ?_)
      refine Follows.seq (set_pointer_mode_follows _ _ _) (fun s3 h3 => ?_)
      have hm3 : s3.summary.pointer_mode = some hipblasPointerMode_t.DEVICE := by rw [h3]
      refine (timing_loop_follows
        (assert_call env arg (Ptr.device Buf.d_alpha)) arg.cold_iters
        (live_call hipblasPointerMode_t.DEVICE (Ptr.device Buf.d_alpha))
        (some hipblasPointerMode_t.DEVICE)
        (fun s hm => (her_assert_call_follows env arg _ s).retarget (by rw [hm]; rfl))
        (int32 (arg.cold_iters + arg.iters)).toNat 0 s3 hm3).retarget ?_
      simp [trace_eq_summary, pointer_mode_eq_summary, error_host_eq_summary,
        error_device_eq_summary, h3, h2, h1, Summary.add]
    have h := Follows.bind_exists (Q := fun g : Figure Buf =>
        Summary.mk (s.trace ++ ([Event.transfer Buf.dA Buf.hA hipError_t.hipSuccess,
            Event.get_stream hipblasStatus_t.SUCCESS,
            Event.set_pointer_mode hipblasPointerMode_t.DEVICE hipblasStatus_t.SUCCESS] ++
            loop_events arg.cold_iters
              (live_call hipblasPointerMode_t.DEVICE (Ptr.device Buf.d_alpha))
              (int32 (arg.cold_iters + arg.iters)).toNat 0 ++
            [Event.get_time, Event.log_args g Figure.gflop_count Figure.gbyte_count
              s.hipblas_error_host s.hipblas_error_device]))
          (some hipblasPointerMode_t.DEVICE) s.hipblas_error_host s.hipblas_error_device)
      (g := fun s4 => Pure.pure ((stop_clock s4).emit (Event.log_args
        (stop_clock s4).gpu_time_used Figure.gflop_count Figure.gbyte_count
        (stop_clock s4).hipblas_error_host (stop_clock s4).hipblas_error_device)))
      hcore (fun s4 h4 => ⟨(stop_clock s4).gpu_time_used, Follows.ret ?_ ?_⟩)
    · obtain ⟨g, hg⟩ := h
      refine ⟨g, ?_⟩
      simp only [bind_assoc_except] at hg
      exact hg
    · simp [trace_eq_summary, pointer_mode_eq_summary, error_host_eq_summary,
        error_device_eq_summary, summary_emit, summary_stop_clock, h4, Summary.add]
    · simp [trace_eq_summary, h4, Summary.add]

/-- The calls of a whole run past the quick return, in an arbitrary environment. -/
theorem her_run_follows (env : Env T U) (arg : Arguments) (hv : Checked arg) :
    ∃ g, Follows (testing_her_batched env arg) (St.init : State T U).summary
      { trace := run_events arg g
        pointer_mode := if arg.timing then some hipblasPointerMode_t.DEVICE
          else if arg.unit_check || arg.norm_check then some hipblasPointerMode_t.DEVICE
          else none
        hipblas_error_host := error_host arg
        hipblas_error_device := error_device arg } := by
  rw [her_testing_of_checked env arg hv]
  unfold after_setup
  have h1 : Follows (setup env arg (St.init.emit Event.local_handle) >>= fun s =>
      staging env arg s >>= fun s => correctness env arg s)
      (St.init : State T U).summary
      { trace := Event.local_handle :: (setup_events arg ++ staging_events ++
          correctness_events arg)
        pointer_mode := if arg.unit_check || arg.norm_check then
          some hipblasPointerMode_t.DEVICE else none
        hipblas_error_host := error_host arg
        hipblas_error_device := error_device arg } := by
    refine Follows.seq ((her_setup_follows env arg _).start ⟨[Event.local_handle], rfl⟩)
      (fun s1 e1 => ?_)
    refine Follows.seq (her_staging_follows env arg s1) (fun s2 e2 => ?_)
    refine (her_correctness_follows env arg s2).retarget ?_
    simp [trace_eq_summary, pointer_mode_eq_summary, error_host_eq_summary,
      error_device_eq_summary, e2, e1, Summary.add, error_host, error_device,
      summary_emit, summary_init]
  obtain ⟨g, hg⟩ := Follows.bind_exists (Q := fun g : Figure Buf =>
      Summary.mk (run_events arg g)
        (if arg.timing then some hipblasPointerMode_t.DEVICE
          else if arg.unit_check || arg.norm_check then some hipblasPointerMode_t.DEVICE
          else none)
        (error_host arg) (error_device arg))
    (g := timing env arg) h1 (fun s3 e3 => by
      obtain ⟨g, hg⟩ := her_timing_follows env arg s3
      refine ⟨g, hg.retarget ?_⟩
      simp [trace_eq_summary, pointer_mode_eq_summary, error_host_eq_summary,
        error_device_eq_summary, e3, run_events])
  refine ⟨g, ?_⟩
  simp only [bind_assoc_except] at hg
  exact hg

end Her

namespace Syr2k

variable {T : Type}

theorem syr2k_assert_call_follows (env : Env T) (arg : Arguments) (alpha beta : Ptr Buf)
    (s : State T) :
    Follows (assert_call env arg alpha beta s) s.summary
      (s.summary.add [Event.device_call s.summary.pointer_mode
        [alpha, Ptr.device Buf.dA, Ptr.device Buf.dB, beta, Ptr.device Buf.dC]
        hipblasStatus_t.SUCCESS]) :=
  follows_assert_hipblas s _ _ (Event.device_call s.pointer_mode
    [alpha, Ptr.device Buf.dA, Ptr.device Buf.dB, beta, Ptr.device Buf.dC]
    (run_live env arg alpha beta s).1) rfl rfl _ (fun hr => by rw [hr]; rfl) rfl

theorem syr2k_setup_follows (env : Env T) (arg : Arguments) (s : State T) :
    Follows (setup env arg s) s.summary
      (s.summary.add (setup_events (env.char2hipblas_operation arg.transA) arg)) := by
  unfold setup
  refine Follows.seq ((memcheck_follows _ _ _).start ?_) (fun s1 h1 => ?_)
  · simp only [summary_alloc, summary_emit, Summary.add_add]
    exact ⟨_, rfl⟩
  refine Follows.seq (memcheck_follows _ _ _) (fun s2 h2 => ?_)
  refine Follows.seq (memcheck_follows _ _ _) (fun s3 h3 => ?_)
  refine Follows.ret ?_ ?_
  · simp only [summary_init_vector, summary_alloc, summary_emit, h3, h2, h1, Summary.add_add,
      setup_events, List.cons_append, List.nil_append]
  · rw [h3]
    simp only [summary_init_vector, summary_alloc, summary_emit, h3, h2, h1, Summary.add_add,
      setup_events, List.cons_append, List.nil_append]
    simp [Summary.add]

theorem syr2k_staging_follows (env : Env T) (arg : Arguments) (s : State T) :
    Follows (staging env arg s) s.summary (s.summary.add staging_events) := by
  unfold staging
  refine Follows.seq ((transfer_from_follows _ _ _ _).start ?_) (fun s1 h1 => ?_)
  · simp only [summary_copy_from, Summary.add_add]
    exact ⟨_, rfl⟩
  refine Follows.seq (transfer_from_follows _ _ _ _) (fun s2 h2 => ?_)
  refine Follows.seq (transfer_from_follows _ _ _ _) (fun s3 h3 => ?_)
  refine Follows.seq (memcpy_scalar_follows _ _ _ _ _) (fun s4 h4 => ?_)
  refine (memcpy_scalar_follows _ _ _ _ _).retarget ?_
  simp only [summary_copy_from, h4, h3, h2, h1, Summary.add_add, staging_events,
    List.cons_append, List.nil_append]

theorem syr2k_correctness_follows (env : Env T) (arg : Arguments) (s : State T) :
    Follows (correctness env arg s) s.summary
      { trace := s.trace ++ correctness_events arg
        pointer_mode := if arg.unit_check || arg.norm_check then
          some hipblasPointerMode_t.DEVICE else s.pointer_mode
        hipblas_error_host := if arg.norm_check then Figure.norm Buf.hC_gold Buf.hC_host
          else s.hipblas_error_host
        hipblas_error_device := if arg.norm_check then Figure.norm Buf.hC_gold Buf.hC_device
          else s.hipblas_error_device } := by
  unfold correctness correctness_events
  cases hu : arg.unit_check <;> cases hn : arg.norm_check
  · exact Follows.ret (by simp [St.summary]) (by simp [St.summary])
  all_goals
    simp only [Bool.or_true, Bool.true_or, Bool.or_false, if_true]
    refine Follows.seq (set_pointer_mode_follows _ _ _) (fun s1 h1 => ?_)
    refine Follows.seq (syr2k_assert_call_follows _ _ _ _ _) (fun s2 h2 => ?_)
    refine Follows.seq (transfer_from_follows _ _ _ _) (fun s3 h3 => ?_)
    refine Follows.seq (transfer_from_follows _ _ _ _) (fun s4 h4 => ?_)
    refine Follows.seq (set_pointer_mode_follows _ _ _) (fun s5 h5 => ?_)
    refine Follows.seq (syr2k_assert_call_follows _ _ _ _ _) (fun s6 h6 => ?_)
    refine Follows.seq (transfer_from_follows _ _ _ _) (fun s7 h7 => ?_)
    refine Follows.ret ?_ ?_
    · simp [trace_eq_summary, pointer_mode_eq_summary, error_host_eq_summary,
        error_device_eq_summary, summary_mk, summary_unit_check, summary_norm_check,
        syr2k_summary_oracle_loop, h7, h6, h5, h4, h3, h2, h1, Summary.add, live_call,
        oracle_events]
    · simp [trace_eq_summary, h7, h6, h5, h4, h3, h2, h1, Summary.add, live_call]

theorem syr2k_timing_follows (env : Env T) (arg : Arguments) (s : State T) :
    ∃ g, Follows (timing env arg s) s.summary
      { trace := s.trace ++ timing_events arg g s.hipblas_error_host s.hipblas_error_device
        pointer_mode := if arg.timing then some hipblasPointerMode_t.DEVICE
          else s.pointer_mode
        hipblas_error_host := s.hipblas_error_host
        hipblas_error_device := s.hipblas_error_device } := by
  unfold timing timing_events
  cases ht : arg.timing
  · exact ⟨Figure.indeterminate, Follows.ret (by simp [St.summary]) (by simp [St.summary])⟩
  · simp only [if_true]
    have hcore : Follows
        (get_stream env.toRuntime s >>= fun s =>
          set_pointer_mode env.toRuntime hipblasPointerMode_t.DEVICE s >>= fun s =>
          timing_loop (assert_call env arg (Ptr.device Buf.d_alpha) (Ptr.device Buf.d_beta))
            arg.cold_iters (int32 (arg.cold_iters + arg.iters)).toNat 0 s) s.summary
        (Summary.mk (s.trace ++ ([Event.get_stream hipblasStatus_t.SUCCESS,
            Event.set_pointer_mode hipblasPointerMode_t.DEVICE hipblasStatus_t.SUCCESS] ++
            loop_events arg.cold_iters
              (live_call hipblasPointerMode_t.DEVICE (Ptr.device Buf.d_alpha)
                (Ptr.device Buf.d_beta))
              (int32 (arg.cold_iters + arg.iters)).toNat 0))
          (some hipblasPointerMode_t.DEVICE) s.hipblas_error_host s.hipblas_error_device) := by
      refine Follows.seq (get_stream_follows _ _) (fun s2 h2 => ?_)
      refine Follows.seq (set_pointer_mode_follows _ _ _) (fun s3 h3 => ?_)
      have hm3 : s3.summary.pointer_mode = some hipblasPointerMode_t.DEVICE := by rw [h3]
      refine (timing_loop_follows
        (assert_call env arg (Ptr.device Buf.d_alpha) (Ptr.device Buf.d_beta)) arg.cold_iters
        (live_call hipblasPointerMode_t.DEVICE (Ptr.device Buf.d_alpha) (Ptr.device Buf.d_beta))
        (some hipblasPointerMode_t.DEVICE)
        (fun s hm => (syr2k_assert_call_follows env arg _ _ s).retarget (by rw [hm]; rfl))
        (int32 (arg.cold_iters + arg.iters)).toNat 0 s3 hm3).retarget ?_
      simp [trace_eq_summary, pointer_mode_eq_summary, error_host_eq_summary,
        error_device_eq_summary, h3, h2, Summary.add]
    have h := Follows.bind_exists (Q := fun g : Figure Buf =>
        Summary.mk (s.trace ++ ([Event.get_stream hipblasStatus_t.SUCCESS,
            Event.set_pointer_mode hipblasPointerMode_t.DEVICE hipblasStatus_t.SUCCESS] ++
            loop_events arg.cold_iters
              (live_call hipblasPointerMode_t.DEVICE (Ptr.device Buf.d_alpha)
                (Ptr.device Buf.d_beta))
              (int32 (arg.cold_iters + arg.iters)).toNat 0 ++
            [Event.get_time, Event.log_args g Figure.gflop_count Figure.gbyte_count
              s.hipblas_error_host s.hipblas_error_device]))
          (some hipblasPointerMode_t.DEVICE) s.hipblas_error_host s.hipblas_error_device)
      (g := fun s4 => Pure.pure ((stop_clock s4).emit (Event.log_args
        (stop_clock s4).gpu_time_used Figure.gflop_count Figure.gbyte_count
        (stop_clock s4).hipblas_error_host (stop_clock s4).hipblas_error_device)))
      hcore (fun s4 h4 => ⟨(stop_clock s4).gpu_time_used, Follows.ret ?_ ?_⟩)
    · obtain ⟨g, hg⟩ := h
      refine ⟨g, ?_⟩
      simp only [bind_assoc_except] at hg
      exact hg
    · simp [trace_eq_summary, pointer_mode_eq_summary, error_host_eq_summary,
        error_device_eq_summary, summary_emit, summary_stop_clock, h4, Summary.add]
    · simp [trace_eq_summary, h4, Summary.add]

/-- The calls of a whole run past the checks, in an arbitrary environment. -/
theorem syr2k_run_follows (env : Env T) (arg : Arguments)
    (hv : Checked (env.char2hipblas_operation arg.transA) arg) :
    ∃ g, Follows (testing_syr2k_batched env arg) (St.init : State T).summary
      { trace := run_events (env.char2hipblas_operation arg.transA) arg g
        pointer_mode := if arg.timing then some hipblasPointerMode_t.DEVICE
          else if arg.unit_check || arg.norm_check then some hipblasPointerMode_t.DEVICE
          else none
        hipblas_error_host := error_host arg
        hipblas_error_device := error_device arg } := by
  rw [syr2k_testing_of_checked env arg hv]
  unfold after_setup
  have h1 : Follows (setup env arg St.init >>= fun s =>
      staging env arg s >>= fun s => correctness env arg s)
      (St.init : State T).summary
      (Summary.mk (setup_events (env.char2hipblas_operation arg.transA) arg ++ staging_events ++
          correctness_events arg)
        (if arg.unit_check || arg.norm_check then
          some hipblasPointerMode_t.DEVICE else none)
        (error_host arg) (error_device arg)) := by
    refine Follows.seq (syr2k_setup_follows env arg _) (fun s1 e1 => ?_)
    refine Follows.seq (syr2k_staging_follows env arg s1) (fun s2 e2 => ?_)
    refine (syr2k_correctness_follows env arg s2).retarget ?_
    simp [trace_eq_summary, pointer_mode_eq_summary, error_host_eq_summary,
      error_device_eq_summary, e2, e1, Summary.add, error_host, error_device,
      summary_init]
  obtain ⟨g, hg⟩ := Follows.bind_exists (Q := fun g : Figure Buf =>
      Summary.mk (run_events (env.char2hipblas_operation arg.transA) arg g)
        (if arg.timing then some hipblasPointerMode_t.DEVICE
          else if arg.unit_check || arg.norm_check then some hipblasPointerMode_t.DEVICE
          else none)
        (error_host arg) (error_device arg))
    (g := timing env arg) h1 (fun s3 e3 => by
      obtain ⟨g, hg⟩ := syr2k_timing_follows env arg s3
      refine ⟨g, hg.retarget ?_⟩
      simp [trace_eq_summary, pointer_mode_eq_summary, error_host_eq_summary,
        error_device_eq_summary, e3, run_events])
  refine ⟨g, ?_⟩
  simp only [bind_assoc_except] at hg
  exact hg

end Syr2k

namespace Rotmg

variable {T : Type}

theorem rotmg_assert_call_follows (env : Env T) (arg : Arguments) (ptr : Buf → Ptr Buf)
    (p : Five Buf) (s : State T) :
    Follows (assert_call env arg ptr p s) s.summary
      (s.summary.add [Event.device_call s.summary.pointer_mode
        [ptr p.d1, ptr p.d2, ptr p.x1, ptr p.y1, ptr p.param] hipblasStatus_t.SUCCESS]) := by
  unfold assert_call
  exact follows_assert_hipblas s _ _ (Event.device_call s.pointer_mode
    [ptr p.d1, ptr p.d2, ptr p.x1, ptr p.y1, ptr p.param]
    (env.hipblasRotmgStridedBatched s.now (decide (arg.api = hipblas_client_api.FORTRAN))
      s.pointer_mode
      { d1 := s.bufs p.d1, d2 := s.bufs p.d2, x1 := s.bufs p.x1, y1 := s.bufs p.y1,
        param := s.bufs p.param } (strides arg) arg.batch_count).1) rfl rfl _
    (fun hr => by rw [hr]; rfl) rfl

theorem rotmg_staging_follows (env : Env T) (arg : Arguments) (s : State T) :
    Follows (staging env arg s) s.summary (s.summary.add (staging_events arg)) := by
  unfold staging
  refine Follows.seq ((hipMemcpy_follows _ _ _ _).start ?_) (fun s1 h1 => ?_)
  · simp only [summary_copy_from, summary_alloc, Summary.add_add]
    exact ⟨_, rfl⟩
  refine Follows.seq (hipMemcpy_follows _ _ _ _) (fun s2 h2 => ?_)
  refine Follows.seq (hipMemcpy_follows _ _ _ _) (fun s3 h3 => ?_)
  refine Follows.seq (hipMemcpy_follows _ _ _ _) (fun s4 h4 => ?_)
  refine (hipMemcpy_follows _ _ _ _).retarget ?_
  simp only [summary_copy_from, summary_alloc, h4, h3, h2, h1, Summary.add_add,
    staging_events, List.cons_append, List.nil_append]

theorem rotmg_correctness_follows (env : Env T) (arg : Arguments) (s : State T) :
    Follows (correctness env arg s) s.summary
      { trace := s.trace ++ correctness_events arg
        pointer_mode := if arg.unit_check || arg.norm_check then
          some hipblasPointerMode_t.DEVICE else s.pointer_mode
        hipblas_error_host := if arg.norm_check then norm_sum host_bufs
          else s.hipblas_error_host
        hipblas_error_device := if arg.norm_check then norm_sum device_results
          else s.hipblas_error_device } := by
  unfold correctness correctness_events
  cases hu : arg.unit_check <;> cases hn : arg.norm_check
  · exact Follows.ret (by simp [St.summary]) (by simp [St.summary])
  all_goals
    simp only [Bool.or_true, Bool.true_or, Bool.or_false, if_true]
    refine Follows.seq (set_pointer_mode_follows _ _ _) (fun s1 h1 => ?_)
    refine Follows.seq (rotmg_assert_call_follows _ _ _ _ _) (fun s2 h2 => ?_)
    refine Follows.seq (set_pointer_mode_follows _ _ _) (fun s3 h3 => ?_)
    refine Follows.seq (rotmg_assert_call_follows _ _ _ _ _) (fun s4 h4 => ?_)
    refine Follows.seq (hipMemcpy_follows _ _ _ _) (fun s5 h5 => ?_)
    refine Follows.seq (hipMemcpy_follows _ _ _ _) (fun s6 h6 => ?_)
    refine Follows.seq (hipMemcpy_follows _ _ _ _) (fun s7 h7 => ?_)
    refine Follows.seq (hipMemcpy_follows _ _ _ _) (fun s8 h8 => ?_)
    refine Follows.seq (hipMemcpy_follows _ _ _ _) (fun s9 h9 => ?_)
    refine Follows.ret ?_ ?_
    · simp [trace_eq_summary, pointer_mode_eq_summary, error_host_eq_summary,
        error_device_eq_summary, summary_mk, rotmg_summary_near_checks,
        rotmg_summary_norm_checks, rotmg_summary_oracle_loop, h9, h8, h7, h6, h5, h4, h3, h2,
        h1, Summary.add, live_call, oracle_events, host_bufs, device_bufs]
    · simp [trace_eq_summary, h9, h8, h7, h6, h5, h4, h3, h2, h1, Summary.add, live_call,
        host_bufs, device_bufs]

theorem rotmg_timing_follows (env : Env T) (arg : Arguments) (s : State T) :
    ∃ g, Follows (timing env arg s) s.summary
      { trace := s.trace ++ timing_events arg g s.hipblas_error_host s.hipblas_error_device
        pointer_mode := if arg.timing then some hipblasPointerMode_t.DEVICE
          else s.pointer_mode
        hipblas_error_host := s.hipblas_error_host
        hipblas_error_device := s.hipblas_error_device } := by
  unfold timing timing_events
  cases ht : arg.timing
  · exact ⟨Figure.indeterminate, Follows.ret (by simp [St.summary]) (by simp [St.summary])⟩
  · simp only [if_true]
    have hcore : Follows
        (get_stream env.toRuntime s >>= fun s =>
          set_pointer_mode env.toRuntime hipblasPointerMode_t.DEVICE s >>= fun s =>
          timing_loop (assert_call env arg Ptr.device device_bufs)
            arg.cold_iters (int32 (arg.cold_iters + arg.iters)).toNat 0 s) s.summary
        (Summary.mk (s.trace ++ ([Event.get_stream hipblasStatus_t.SUCCESS,
            Event.set_pointer_mode hipblasPointerMode_t.DEVICE hipblasStatus_t.SUCCESS] ++
            loop_events arg.cold_iters
              (live_call hipblasPointerMode_t.DEVICE Ptr.device device_bufs)
              (int32 (arg.cold_iters + arg.iters)).toNat 0))
          (some hipblasPointerMode_t.DEVICE) s.hipblas_error_host s.hipblas_error_device) := by
      refine Follows.seq (get_stream_follows _ _) (fun s2 h2 => ?_)
      refine Follows.seq (set_pointer_mode_follows _ _ _) (fun s3 h3 => ?_)
      have hm3 : s3.summary.pointer_mode = some hipblasPointerMode_t.DEVICE := by rw [h3]
      refine (timing_loop_follows
        (assert_call env arg Ptr.device device_bufs) arg.cold_iters
        (live_call hipblasPointerMode_t.DEVICE Ptr.device device_bufs)
        (some hipblasPointerMode_t.DEVICE)
        (fun s hm => (rotmg_assert_call_follows env arg _ _ s).retarget (by rw [hm]; rfl))
        (int32 (arg.cold_iters + arg.iters)).toNat 0 s3 hm3).retarget ?_
      simp [trace_eq_summary, pointer_mode_eq_summary, error_host_eq_summary,
        error_device_eq_summary, h3, h2, Summary.add]
    have h := Follows.bind_exists (Q := fun g : Figure Buf =>
        Summary.mk (s.trace ++ ([Event.get_stream hipblasStatus_t.SUCCESS,
            Event.set_pointer_mode hipblasPointerMode_t.DEVICE hipblasStatus_t.SUCCESS] ++
            loop_events arg.cold_iters
              (live_call hipblasPointerMode_t.DEVICE Ptr.device device_bufs)
              (int32 (arg.cold_iters + arg.iters)).toNat 0 ++
            [Event.get_time, Event.log_args g Figure.NA_value Figure.NA_value
              s.hipblas_error_host s.hipblas_error_device]))
          (some hipblasPointerMode_t.DEVICE) s.hipblas_error_host s.hipblas_error_device)
      (g := fun s4 => Pure.pure ((stop_clock s4).emit (Event.log_args
        (stop_clock s4).gpu_time_used Figure.NA_value Figure.NA_value
        (stop_clock s4).hipblas_error_host (stop_clock s4).hipblas_error_device)))
      hcore (fun s4 h4 => ⟨(stop_clock s4).gpu_time_used, Follows.ret ?_ ?_⟩)
    · obtain ⟨g, hg⟩ := h
      refine ⟨g, ?_⟩
      simp only [bind_assoc_except] at hg
      exact hg
    · simp [trace_eq_summary, pointer_mode_eq_summary, error_host_eq_summary,
        error_device_eq_summary, summary_emit, summary_stop_clock, h4, Summary.add]
    · simp [trace_eq_summary, h4, Summary.add]

/-- The calls of a whole run with a positive batch count, in an arbitrary
environment. -/
theorem rotmg_run_follows (env : Env T) (arg : Arguments) (hv : 0 < arg.batch_count) :
    ∃ g, Follows (testing_rotmg_strided_batched env arg) (St.init : State T).summary
      { trace := run_events arg g
        pointer_mode := if arg.timing then some hipblasPointerMode_t.DEVICE
          else if arg.unit_check || arg.norm_check then some hipblasPointerMode_t.DEVICE
          else none
        hipblas_error_host := error_host arg
        hipblas_error_device := error_device arg } := by
  rw [rotmg_testing_of_positive env arg hv]
  unfold after_setup
  have h0 := rotmg_summary_setup env arg (St.init : State T)
  have h1 : Follows (staging env arg (setup env arg St.init) >>= fun s =>
      correctness env arg s)
      (St.init : State T).summary
      (Summary.mk (setup_events arg ++ staging_events arg ++ correctness_events arg)
        (if arg.unit_check || arg.norm_check then
          some hipblasPointerMode_t.DEVICE else none)
        (error_host arg) (error_device arg)) := by
    refine Follows.seq ((rotmg_staging_follows env arg _).start ?_) (fun s2 e2 => ?_)
    · rw [h0]
      exact ⟨_, rfl⟩
    refine (rotmg_correctness_follows env arg s2).retarget ?_
    simp [trace_eq_summary, pointer_mode_eq_summary, error_host_eq_summary,
      error_device_eq_summary, e2, h0, Summary.add, error_host, error_device,
      summary_init]
  obtain ⟨g, hg⟩ := Follows.bind_exists (Q := fun g : Figure Buf =>
      Summary.mk (run_events arg g)
        (if arg.timing then some hipblasPointerMode_t.DEVICE
          else if arg.unit_check || arg.norm_check then some hipblasPointerMode_t.DEVICE
          else none)
        (error_host arg) (error_device arg))
    (g := timing env arg) h1 (fun s3 e3 => by
      obtain ⟨g, hg⟩ := rotmg_timing_follows env arg s3
      refine ⟨g, hg.retarget ?_⟩
      simp [trace_eq_summary, pointer_mode_eq_summary, error_host_eq_summary,
        error_device_eq_summary, e3, run_events])
  refine ⟨g, ?_⟩
  simp only [bind_assoc_except] at hg
  exact hg

end Rotmg

/-! ## Properties of the traces of runs in an arbitrary environment -/

section TraceProperties

variable {ν C S : Type}

theorem all_loop_events (P : Event ν → Bool) (c : Int) (ev : Event ν)
    (h1 : P Event.get_time = true) (h2 : P ev = true) :
    ∀ (n : Nat) (i : Int), (loop_events c ev n i).all P = true := by
  intro n
  induction n with
  | zero => intro i; rfl
  | succ n ih =>
    intro i
    rw [loop_events]
    split <;> simp [h1, h2, ih (i + 1)]

theorem all_map_of_forall {α : Type} (P : Event ν → Bool) (f : α → Event ν)
    (h : ∀ a, P (f a) = true) (l : List α) : (l.map f).all P = true := by
  simp [List.all_eq_true, h]

theorem is_unit_check_of_failure (f : Event ν) (h : f.is_failure = true) :
    f.is_unit_check = false := by
  cases f <;> first | rfl | cases h

/-- If the last element of a list is the only one that can satisfy `P`, an element
that satisfies `P` is the last. -/
theorem eq_nil_of_append_cons {α : Type} (P : α → Bool) (a b t1 : List α) (e f : α)
    (h : a ++ e :: b = t1 ++ [f]) (ht : ∀ x ∈ t1, P x = false) (he : P e = true) : b = [] := by
  rcases List.eq_nil_or_concat b with hb | ⟨b1, l, hb⟩
  · exact hb
  · exfalso
    subst hb
    have h2 : (a ++ e :: b1) ++ [l] = t1 ++ [f] := by simpa using h
    have h3 := List.append_inj_left' h2 rfl
    have h4 : e ∈ t1 := by rw [← h3]; simp
    rw [ht e h4] at he
    cases he

/-- A run that follows a plan without failures stops at the first call that reports
a failure, and records the failure. -/
theorem Follows.fail_stop {x : Except (St ν C S) (St ν C S)} {q0 q1 : Summary ν}
    (h : Follows x q0 q1) (hq : q1.trace.all (fun e => !e.is_failure) = true) :
    FailStop (final x).trace ∧
      ∀ f ∈ (final x).trace, f.is_failure = true →
        aborted x = true ∧ (final x).failed = true := by
  have hq1 : ∀ e ∈ q1.trace, e.is_failure = false := by
    intro e he
    have := List.all_eq_true.1 hq e he
    simpa using this
  rcases h.final_trace with ⟨-, ht⟩ | ⟨ha, hf, t1, f, t2, e1, e2, e3⟩
  · constructor
    · intro a e b hab he
      have : e ∈ q1.trace := by rw [← ht, hab]; simp
      rw [hq1 e this] at he
      cases he
    · intro e hm he
      rw [ht] at hm
      rw [hq1 e hm] at he
      cases he
  · have h1 : ∀ e ∈ t1, e.is_failure = false := by
      intro e he
      exact hq1 e (by rw [e1]; simp [he])
    constructor
    · intro a e b hab he
      rw [e2] at hab
      exact eq_nil_of_append_cons _ a b t1 e f hab.symm h1 he
    · intro e _ _
      exact ⟨ha, hf⟩

theorem unitBeforeNorm_append (A B : List (Event ν))
    (hA : A.all (fun e => !e.is_norm_check) = true)
    (hB : B.all (fun e => !e.is_unit_check) = true) : UnitBeforeNorm (A ++ B) := by
  have hA1 : ∀ e ∈ A, e.is_norm_check = false := by
    intro e he
    simpa using List.all_eq_true.1 hA e he
  have hB1 : ∀ e ∈ B, e.is_unit_check = false := by
    intro e he
    simpa using List.all_eq_true.1 hB e he
  intro t1 e t2 h he e2 h2
  rcases List.append_eq_append_iff.1 h with ⟨a1, h3, h4⟩ | ⟨c1, h3, h4⟩
  · -- `t1 = A ++ a1`, `B = a1 ++ e :: t2`
    exact hB1 e2 (by rw [h4]; simp [h2])
  · -- `A = t1 ++ c1`, `e :: t2 = c1 ++ B`
    cases c1 with
    | nil =>
      simp at h4
      exact hB1 e2 (by rw [← h4]; simp [h2])
    | cons c cs =>
      simp at h4
      have : e ∈ A := by rw [h3, h4.1]; simp
      rw [hA1 e this] at he
      cases he

/-- The order of the comparisons is kept by a run that is cut short. -/
theorem Follows.unit_before_norm {x : Except (St ν C S) (St ν C S)} {q0 q1 : Summary ν}
    (h : Follows x q0 q1) (hq : UnitBeforeNorm q1.trace) : UnitBeforeNorm (final x).trace := by
  rcases h.final_trace with ⟨-, ht⟩ | ⟨-, -, t1, f, t2, e1, e2, e3⟩
  · rw [ht]; exact hq
  · rw [e2]
    intro a e b hab he x2 hx2
    rcases List.eq_nil_or_concat b with hb | ⟨b1, l, hb⟩
    · rw [hb] at hx2
      cases hx2
    · subst hb
      have h2 : t1 ++ [f] = (a ++ e :: b1) ++ [l] := by simpa using hab
      have h3 := List.append_inj_left' h2 rfl
      have h4 := List.append_inj_right' h2 rfl
      simp at h4
      rw [List.concat_eq_append] at hx2
      rcases List.mem_append.1 hx2 with h5 | h5
      · refine hq a e (b1 ++ f.succeeded :: t2) ?_ he x2 (by simp [h5])
        rw [e1, h3]
        simp
      · simp at h5
        rw [h5, ← h4]
        exact is_unit_check_of_failure f e3

end TraceProperties

namespace Her

theorem her_run_events_no_failure (arg : Arguments) (g : Figure Buf) :
    (run_events arg g).all (fun e => !e.is_failure) = true := by
  have ho := all_map_of_forall (fun e : Event Buf => !e.is_failure)
    (fun b => Event.oracle b [(Buf.hx, 0), (Buf.hA_cpu, 0)]) (fun _ => rfl)
    (List.range' 0 arg.batch_count.toNat)
  have hl := all_loop_events (fun e : Event Buf => !e.is_failure) arg.cold_iters
    (live_call hipblasPointerMode_t.DEVICE (Ptr.device Buf.d_alpha)) rfl rfl
    (int32 (arg.cold_iters + arg.iters)).toNat 0
  unfold run_events correctness_events timing_events oracle_events
  cases arg.unit_check <;> cases arg.norm_check <;> cases arg.timing <;>
    simp only [List.all_append, List.all_cons, ho, hl, Bool.and_true, Bool.or_self,
      Bool.or_true, Bool.true_or, if_true, if_false, Bool.false_eq_true, List.all_nil,
      Bool.and_self] <;> rfl

/-- In the plan of a run no element-wise check comes after a norm check. -/
theorem her_run_events_ordered (arg : Arguments) (g : Figure Buf) :
    UnitBeforeNorm (run_events arg g) := by
  have ho := all_map_of_forall (fun e : Event Buf => !e.is_norm_check)
    (fun b => Event.oracle b [(Buf.hx, 0), (Buf.hA_cpu, 0)]) (fun _ => rfl)
    (List.range' 0 arg.batch_count.toNat)
  have hl := all_loop_events (fun e : Event Buf => !e.is_unit_check) arg.cold_iters
    (live_call hipblasPointerMode_t.DEVICE (Ptr.device Buf.d_alpha)) rfl rfl
    (int32 (arg.cold_iters + arg.iters)).toNat 0
  have e : run_events arg g =
      (Event.local_handle :: (setup_events arg ++ staging_events ++
        (if arg.unit_check || arg.norm_check then
          [Event.set_pointer_mode hipblasPointerMode_t.HOST hipblasStatus_t.SUCCESS,
           live_call hipblasPointerMode_t.HOST (Ptr.host Buf.h_alpha),
           Event.transfer Buf.hA_host Buf.dA hipError_t.hipSuccess,
           Event.transfer Buf.dA Buf.hA hipError_t.hipSuccess,
           Event.set_pointer_mode hipblasPointerMode_t.DEVICE hipblasStatus_t.SUCCESS,
           live_call hipblasPointerMode_t.DEVICE (Ptr.device Buf.d_alpha),
           Event.transfer Buf.hA_device Buf.dA hipError_t.hipSuccess]
          ++ oracle_events arg
          ++ (if arg.unit_check then
            [Event.unit_check Buf.hA_cpu Buf.hA_host, Event.unit_check Buf.hA_cpu Buf.hA_host]
            else [])
        else []))) ++
      ((if arg.norm_check then
          [Event.norm_check Buf.hA_cpu Buf.hA_host, Event.norm_check Buf.hA_cpu Buf.hA_device]
        else []) ++ timing_events arg g (error_host arg) (error_device arg)) := by
    unfold run_events correctness_events
    cases arg.unit_check <;> cases arg.norm_check <;> simp
  rw [e]
  refine unitBeforeNorm_append _ _ ?_ ?_
  · unfold oracle_events
    cases arg.unit_check <;> cases arg.norm_check <;>
      simp only [List.all_append, List.all_cons, ho, Bool.and_true, Bool.or_self,
        Bool.or_true, Bool.true_or, if_true, if_false, Bool.false_eq_true, List.all_nil,
        Bool.and_self] <;> rfl
  · unfold timing_events
    cases arg.norm_check <;> cases arg.timing <;>
      simp only [List.all_append, List.all_cons, hl, Bool.and_true, Bool.or_self,
        Bool.or_true, Bool.true_or, if_true, if_false, Bool.false_eq_true, List.all_nil,
        Bool.and_self] <;> rfl

end Her

namespace Syr2k

theorem syr2k_run_events_no_failure (transA : hipblasOperation_t) (arg : Arguments)
    (g : Figure Buf) :
    (run_events transA arg g).all (fun e => !e.is_failure) = true := by
  have ho := all_map_of_forall (fun e : Event Buf => !e.is_failure)
    (fun b => Event.oracle b [(Buf.hA, 0), (Buf.hB, 0), (Buf.hC_gold, 0)]) (fun _ => rfl)
    (List.range' 0 arg.batch_count.toNat)
  have hl := all_loop_events (fun e : Event Buf => !e.is_failure) arg.cold_iters
    (live_call hipblasPointerMode_t.DEVICE (Ptr.device Buf.d_alpha) (Ptr.device Buf.d_beta))
    rfl rfl (int32 (arg.cold_iters + arg.iters)).toNat 0
  unfold run_events correctness_events timing_events oracle_events
  cases arg.unit_check <;> cases arg.norm_check <;> cases arg.timing <;>
    simp only [List.all_append, List.all_cons, ho, hl, Bool.and_true, Bool.or_self,
      Bool.or_true, Bool.true_or, if_true, if_false, Bool.false_eq_true, List.all_nil,
      Bool.and_self] <;> rfl

/-- In the plan of a run no element-wise check comes after a norm check. -/
theorem syr2k_run_events_ordered (transA : hipblasOperation_t) (arg : Arguments)
    (g : Figure Buf) : UnitBeforeNorm (run_events transA arg g) := by
  have ho := all_map_of_forall (fun e : Event Buf => !e.is_norm_check)
    (fun b => Event.oracle b [(Buf.hA, 0), (Buf.hB, 0), (Buf.hC_gold, 0)]) (fun _ => rfl)
    (List.range' 0 arg.batch_count.toNat)
  have hl := all_loop_events (fun e : Event Buf => !e.is_unit_check) arg.cold_iters
    (live_call hipblasPointerMode_t.DEVICE (Ptr.device Buf.d_alpha) (Ptr.device Buf.d_beta))
    rfl rfl (int32 (arg.cold_iters + arg.iters)).toNat 0
  have e : run_events transA arg g =
      (setup_events transA arg ++ staging_events ++
        (if arg.unit_check || arg.norm_check then
          [Event.set_pointer_mode hipblasPointerMode_t.HOST hipblasStatus_t.SUCCESS,
           live_call hipblasPointerMode_t.HOST (Ptr.host Buf.h_alpha) (Ptr.host Buf.h_beta),
           Event.transfer Buf.hC_host Buf.dC hipError_t.hipSuccess,
           Event.transfer Buf.dC Buf.hC_device hipError_t.hipSuccess,
           Event.set_pointer_mode hipblasPointerMode_t.DEVICE hipblasStatus_t.SUCCESS,
           live_call hipblasPointerMode_t.DEVICE (Ptr.device Buf.d_alpha)
             (Ptr.device Buf.d_beta),
           Event.transfer Buf.hC_device Buf.dC hipError_t.hipSuccess]
          ++ oracle_events arg
          ++ (if arg.unit_check then
            [Event.unit_check Buf.hC_gold Buf.hC_host,
             Event.unit_check Buf.hC_gold Buf.hC_device]
            else [])
        else [])) ++
      ((if arg.norm_check then
          [Event.norm_check Buf.hC_gold Buf.hC_host, Event.norm_check Buf.hC_gold Buf.hC_device]
        else []) ++ timing_events arg g (error_host arg) (error_device arg)) := by
    unfold run_events correctness_events
    cases arg.unit_check <;> cases arg.norm_check <;> simp
  rw [e]
  refine unitBeforeNorm_append _ _ ?_ ?_
  · unfold oracle_events
    cases arg.unit_check <;> cases arg.norm_check <;>
      simp only [List.all_append, List.all_cons, ho, Bool.and_true, Bool.or_self,
        Bool.or_true, Bool.true_or, if_true, if_false, Bool.false_eq_true, List.all_nil,
        Bool.and_self] <;> rfl
  · unfold timing_events
    cases arg.norm_check <;> cases arg.timing <;>
      simp only [List.all_append, List.all_cons, hl, Bool.and_true, Bool.or_self,
        Bool.or_true, Bool.true_or, if_true, if_false, Bool.false_eq_true, List.all_nil,
        Bool.and_self] <;> rfl

end Syr2k

namespace Rotmg

theorem rotmg_run_events_no_failure (arg : Arguments) (g : Figure Buf) :
    (run_events arg g).all (fun e => !e.is_failure) = true := by
  have ho := all_map_of_forall (fun e : Event Buf => !e.is_failure)
    (oracle_event arg) (fun _ => rfl) (List.range' 0 arg.batch_count.toNat)
  have hl := all_loop_events (fun e : Event Buf => !e.is_failure) arg.cold_iters
    (live_call hipblasPointerMode_t.DEVICE Ptr.device device_bufs)
    rfl rfl (int32 (arg.cold_iters + arg.iters)).toNat 0
  unfold run_events correctness_events timing_events oracle_events
  cases arg.unit_check <;> cases arg.norm_check <;> cases arg.timing <;>
    simp only [List.all_append, List.all_cons, ho, hl, Bool.and_true, Bool.or_self,
      Bool.or_true, Bool.true_or, if_true, if_false, Bool.false_eq_true, List.all_nil,
      Bool.and_self] <;> rfl

/-- In the plan of a run no element-wise check comes after a norm check. -/
theorem rotmg_run_events_ordered (arg : Arguments) (g : Figure Buf) :
    UnitBeforeNorm (run_events arg g) := by
  have ho := all_map_of_forall (fun e : Event Buf => !e.is_norm_check)
    (oracle_event arg) (fun _ => rfl) (List.range' 0 arg.batch_count.toNat)
  have hl := all_loop_events (fun e : Event Buf => !e.is_unit_check) arg.cold_iters
    (live_call hipblasPointerMode_t.DEVICE Ptr.device device_bufs)
    rfl rfl (int32 (arg.cold_iters + arg.iters)).toNat 0
  have e : run_events arg g =
      (setup_events arg ++ staging_events arg ++
        (if arg.unit_check || arg.norm_check then
          [Event.set_pointer_mode hipblasPointerMode_t.HOST hipblasStatus_t.SUCCESS,
           live_call hipblasPointerMode_t.HOST Ptr.host host_bufs,
           Event.set_pointer_mode hipblasPointerMode_t.DEVICE hipblasStatus_t.SUCCESS,
           live_call hipblasPointerMode_t.DEVICE Ptr.device device_bufs,
           Event.transfer Buf.hd1_d Buf.dd1 hipError_t.hipSuccess,
           Event.transfer Buf.hd2_d Buf.dd2 hipError_t.hipSuccess,
           Event.transfer Buf.hx1_d Buf.dx1 hipError_t.hipSuccess,
           Event.transfer Buf.hy1_d Buf.dy1 hipError_t.hipSuccess,
           Event.transfer Buf.hparams_d Buf.dparams hipError_t.hipSuccess]
          ++ oracle_events arg
          ++ (if arg.unit_check then near_events host_bufs ++ near_events device_results
            else [])
        else [])) ++
      ((if arg.norm_check then norm_events host_bufs ++ norm_events device_results
        else []) ++ timing_events arg g (error_host arg) (error_device arg)) := by
    unfold run_events correctness_events
    cases arg.unit_check <;> cases arg.norm_check <;> simp
  rw [e]
  refine unitBeforeNorm_append _ _ ?_ ?_
  · unfold oracle_events
    cases arg.unit_check <;> cases arg.norm_check <;>
      simp only [List.all_append, List.all_cons, ho, Bool.and_true, Bool.or_self,
        Bool.or_true, Bool.true_or, if_true, if_false, Bool.false_eq_true, List.all_nil,
        Bool.and_self] <;> rfl
  · unfold timing_events
    cases arg.norm_check <;> cases arg.timing <;>
      simp only [List.all_append, List.all_cons, hl, Bool.and_true, Bool.or_self,
        Bool.or_true, Bool.true_or, if_true, if_false, Bool.false_eq_true, List.all_nil,
        Bool.and_self] <;> rfl

end Rotmg

/-! ## The reference loop -/

namespace Her

variable {T U : Type}

end Her

namespace Syr2k

variable {T : Type}

end Syr2k

namespace Rotmg

variable {T : Type}

end Rotmg

theorem filter_loop_events {ν : Type} (P : Event ν → Bool) (c : Int) (ev : Event ν)
    (h1 : P Event.get_time = false) (h2 : P ev = false) (n : Nat) (i : Int) :
    (loop_events c ev n i).filter P = [] := by
  rw [List.filter_eq_nil_iff]
  intro a ha
  have h := List.all_eq_true.1 (all_loop_events (fun e => !P e) c ev (by simp [h1])
    (by simp [h2]) n i) a ha
  simpa using h

/-! ## The calls of the reference routine -/

namespace Her

variable {T U : Type}

end Her

namespace Syr2k

variable {T : Type}

end Syr2k

namespace Rotmg

variable {T : Type}

end Rotmg

namespace Rotmg

variable {T : Type}

end Rotmg

/-- C1: `testing_her_batched` takes its quick-return path exactly when `N < 0`, `lda < N`,
`lda < 1`, `incx = 0`, `batch_count < 0`, `N = 0` or `batch_count = 0`.  On that path the
run returns normally and its whole trace is: the handle, one invocation of the device
routine with null pointers for `alpha`, `x` and `A`, and the expectation of
invalid-value when `invalid_size` holds and of success otherwise; no container is built,
no data generated or transferred, no reference call, comparison or timing made. -/
theorem her_quick_return_exactly {T U : Type} (env : Her.Env T U) (arg : Arguments) :
    (∃ st, aborted (Her.testing_her_batched env arg) = false ∧
        (final (Her.testing_her_batched env arg)).trace =
          [Event.local_handle,
           Event.device_call none [Ptr.nullptr, Ptr.nullptr, Ptr.nullptr] st,
           Event.expect_status st
             (if arg.N < 0 ∨ arg.lda < arg.N ∨ arg.lda < 1 ∨ arg.incx = 0 ∨
                 arg.batch_count < 0
               then hipblasStatus_t.INVALID_VALUE else hipblasStatus_t.SUCCESS)]) ↔
      (arg.N < 0 ∨ arg.lda < arg.N ∨ arg.lda < 1 ∨ arg.incx = 0 ∨ arg.batch_count < 0 ∨
        arg.N = 0 ∨ arg.batch_count = 0) := by
  constructor
  · rintro ⟨st, -, ht⟩
    by_contra hq
    have hv : Her.Checked arg := by
      by_contra hv
      exact hq ((Her.her_quick_iff arg).1 (Her.her_quick_of_not_checked arg hv))
    obtain ⟨t, h⟩ := Her.her_trace_head env arg hv
    rw [h] at ht
    simp at ht
  · intro hq
    have h := (Her.her_quick_iff arg).2 hq
    refine ⟨Her.run_null env arg (St.init.emit Event.local_handle), ?_, ?_⟩
    · rw [Her.her_testing_of_quick env arg h]
      rfl
    · rw [Her.her_trace_of_quick env arg h]
      by_cases hi : Her.invalid_size arg = true
      · rw [if_pos hi, if_pos ((Her.her_invalid_size_iff arg).1 hi)]
      · rw [if_neg hi, if_neg (fun hp => hi ((Her.her_invalid_size_iff arg).2 hp))]

/-- C2, counterexample: with `N = 2`, `transA = N` and `lda = N - 1 = 1` the run of
`testing_syr2k_batched` makes no external call at all, so it does not invoke the device
routine once. -/
theorem syr2k_invalid_no_probe :
    ¬ ((final (Syr2k.testing_syr2k_batched (Syr2k.sampleEnv 0)
        argShortLda)).trace.countP Event.is_device_call = 1) := by
  decide

/-- C2, as amended: for every invalid configuration of `testing_syr2k_batched` (`N < 0`,
`K < 0`, `ldc < N`, `batch_count < 0`, or `lda`/`ldb` smaller than `N` when untransposed
or smaller than `K` when transposed) the harness returns at once: it makes no external
call (no device invocation, no status assertion, no container) and performs no further
step. -/
theorem syr2k_invalid_returns {T : Type} (env : Syr2k.Env T) (arg : Arguments)
    (h : arg.N < 0 ∨ arg.K < 0 ∨ arg.ldc < arg.N ∨ arg.batch_count < 0 ∨
      (env.char2hipblas_operation arg.transA = hipblasOperation_t.OP_N ∧
        (arg.lda < arg.N ∨ arg.ldb < arg.N)) ∨
      (env.char2hipblas_operation arg.transA ≠ hipblasOperation_t.OP_N ∧
        (arg.lda < arg.K ∨ arg.ldb < arg.K))) :
    Syr2k.testing_syr2k_batched env arg = Except.ok St.init ∧
      (final (Syr2k.testing_syr2k_batched env arg)).trace = [] := by
  have h1 := Syr2k.syr2k_testing_of_invalid env arg h
  exact ⟨h1, by rw [h1]; rfl⟩

/-- C2, as amended, at the configuration with `N = 2`, `transA = N` and `lda = 1`. -/
theorem syr2k_invalid_returns_witness :
    (argShortLda.N < 0 ∨ argShortLda.K < 0 ∨ argShortLda.ldc < argShortLda.N ∨
      argShortLda.batch_count < 0 ∨
      ((Syr2k.sampleEnv 0).char2hipblas_operation argShortLda.transA =
          hipblasOperation_t.OP_N ∧
        (argShortLda.lda < argShortLda.N ∨ argShortLda.ldb < argShortLda.N)) ∨
      ((Syr2k.sampleEnv 0).char2hipblas_operation argShortLda.transA ≠
          hipblasOperation_t.OP_N ∧
        (argShortLda.lda < argShortLda.K ∨ argShortLda.ldb < argShortLda.K))) ∧
    (Syr2k.testing_syr2k_batched (Syr2k.sampleEnv 0) argShortLda = Except.ok St.init ∧
      (final (Syr2k.testing_syr2k_batched (Syr2k.sampleEnv 0) argShortLda)).trace = []) :=
  ⟨by decide, syr2k_invalid_returns (Syr2k.sampleEnv 0) argShortLda (by decide)⟩

/-- C3: `testing_syr2k_batched` treats a configuration as invalid exactly when `N < 0`,
`K < 0`, `ldc < N`, `batch_count < 0`, `transA = N` and (`lda < N` or `ldb < N`), or
`transA ≠ N` and (`lda < K` or `ldb < K`); and it proceeds past validation to build its
containers if and only if none of these holds and `batch_count > 0`. -/
theorem syr2k_validation {T : Type} (env : Syr2k.Env T) (arg : Arguments) :
    (Syr2k.invalid (env.char2hipblas_operation arg.transA) arg = true ↔
      (arg.N < 0 ∨ arg.K < 0 ∨ arg.ldc < arg.N ∨ arg.batch_count < 0 ∨
        (env.char2hipblas_operation arg.transA = hipblasOperation_t.OP_N ∧
          (arg.lda < arg.N ∨ arg.ldb < arg.N)) ∨
        (env.char2hipblas_operation arg.transA ≠ hipblasOperation_t.OP_N ∧
          (arg.lda < arg.K ∨ arg.ldb < arg.K)))) ∧
    ((∃ e ∈ (final (Syr2k.testing_syr2k_batched env arg)).trace, e.is_alloc = true) ↔
      (¬ (arg.N < 0 ∨ arg.K < 0 ∨ arg.ldc < arg.N ∨ arg.batch_count < 0 ∨
        (env.char2hipblas_operation arg.transA = hipblasOperation_t.OP_N ∧
          (arg.lda < arg.N ∨ arg.ldb < arg.N)) ∨
        (env.char2hipblas_operation arg.transA ≠ hipblasOperation_t.OP_N ∧
          (arg.lda < arg.K ∨ arg.ldb < arg.K))) ∧ 0 < arg.batch_count)) := by
  refine ⟨Syr2k.syr2k_invalid_iff _ arg, ?_, ?_⟩
  · rintro ⟨e, he, -⟩
    by_contra hc
    have hv : ¬ Syr2k.Checked (env.char2hipblas_operation arg.transA) arg := by
      rintro ⟨h1, h2⟩
      apply hc
      refine ⟨h1, ?_⟩
      have h3 : ¬ arg.batch_count < 0 := fun h => h1 (Or.inr (Or.inr (Or.inr (Or.inl h))))
      omega
    rw [Syr2k.syr2k_testing_of_not_checked env arg hv] at he
    simp [final, St.init] at he
  · rintro ⟨h1, h2⟩
    have hv : Syr2k.Checked (env.char2hipblas_operation arg.transA) arg :=
      ⟨h1, by omega⟩
    obtain ⟨t, ht⟩ := Syr2k.syr2k_trace_head env arg hv
    refine ⟨Event.alloc Syr2k.Buf.hA
      (Syr2k.A_size (env.char2hipblas_operation arg.transA) arg) 1 arg.batch_count, ?_, rfl⟩
    rw [ht]
    exact List.mem_cons_of_mem _ (List.mem_cons_self _ _)

/-- C4, counterexample: with `batch_count = 0` (and the other fields valid)
`testing_her_batched` invokes the device routine once, not zero times. -/
theorem her_zero_batch_probes :
    ¬ ((final (Her.testing_her_batched (Her.sampleEnv 0) argZeroBatch)).trace.countP
        Event.is_device_call = 0) := by
  decide

/-- C4, as amended: for every configuration with `batch_count ≤ 0`,
`testing_rotmg_strided_batched` and `testing_syr2k_batched` make no external call at
all (zero device invocations, zero comparisons), and `testing_her_batched` makes exactly
one device invocation, the one with null pointers of its quick return, whose status it
checks, and zero comparisons; whatever the other fields and the flags are. -/
theorem nonpositive_batch_count {T U : Type} (envR : Rotmg.Env T) (envS : Syr2k.Env T)
    (envH : Her.Env T U) (arg : Arguments) (h : arg.batch_count ≤ 0) :
    (final (Rotmg.testing_rotmg_strided_batched envR arg)).trace = [] ∧
    (final (Syr2k.testing_syr2k_batched envS arg)).trace = [] ∧
    (∃ st expected, (final (Her.testing_her_batched envH arg)).trace =
        [Event.local_handle,
         Event.device_call none [Ptr.nullptr, Ptr.nullptr, Ptr.nullptr] st,
         Event.expect_status st expected]) ∧
    (final (Her.testing_her_batched envH arg)).trace.countP Event.is_device_call = 1 ∧
    (final (Her.testing_her_batched envH arg)).trace.countP Event.is_comparison = 0 := by
  have hq : (Her.invalid_size arg || (arg.N == 0) || (arg.batch_count == 0)) = true := by
    rw [Her.her_quick_iff]
    rcases lt_or_eq_of_le h with h1 | h1
    · exact Or.inr (Or.inr (Or.inr (Or.inr (Or.inl h1))))
    · exact Or.inr (Or.inr (Or.inr (Or.inr (Or.inr (Or.inr h1)))))
  have hS : ¬ Syr2k.Checked (envS.char2hipblas_operation arg.transA) arg := by
    rintro ⟨h1, h2⟩
    have h3 : ¬ arg.batch_count < 0 := fun h => h1 (Or.inr (Or.inr (Or.inr (Or.inl h))))
    omega
  refine ⟨?_, ?_, ⟨_, _, Her.her_trace_of_quick envH arg hq⟩, ?_, ?_⟩
  · rw [Rotmg.rotmg_testing_of_nonpositive envR arg h]; rfl
  · rw [Syr2k.syr2k_testing_of_not_checked envS arg hS]; rfl
  · rw [Her.her_trace_of_quick envH arg hq]; rfl
  · rw [Her.her_trace_of_quick envH arg hq]; rfl

/-- C4, as amended, at the sample configuration with `batch_count = 0`. -/
theorem nonpositive_batch_count_witness :
    argZeroBatch.batch_count ≤ 0 ∧
    ((final (Rotmg.testing_rotmg_strided_batched Rotmg.sampleEnv argZeroBatch)).trace = [] ∧
    (final (Syr2k.testing_syr2k_batched (Syr2k.sampleEnv 0) argZeroBatch)).trace = [] ∧
    (∃ st expected, (final (Her.testing_her_batched (Her.sampleEnv 0) argZeroBatch)).trace =
        [Event.local_handle,
         Event.device_call none [Ptr.nullptr, Ptr.nullptr, Ptr.nullptr] st,
         Event.expect_status st expected]) ∧
    (final (Her.testing_her_batched (Her.sampleEnv 0) argZeroBatch)).trace.countP
      Event.is_device_call = 1 ∧
    (final (Her.testing_her_batched (Her.sampleEnv 0) argZeroBatch)).trace.countP
      Event.is_comparison = 0) :=
  ⟨by decide, nonpositive_batch_count Rotmg.sampleEnv (Syr2k.sampleEnv 0) (Her.sampleEnv 0)
    argZeroBatch (by decide)⟩

/-- C5, counterexample: with `N = 0`, `batch_count = 2` and the other fields valid,
`testing_syr2k_batched` takes no quick return: it generates data, invokes the device
routine on its live buffers, calls the reference routine, compares, and runs the timing
loop. -/
theorem syr2k_zero_N_runs :
    Event.init_vector Syr2k.Buf.hA ∈
      (final (Syr2k.testing_syr2k_batched (Syr2k.sampleEnv 0) argZeroN)).trace ∧
    Event.device_call (some hipblasPointerMode_t.HOST)
      [Ptr.host Syr2k.Buf.h_alpha, Ptr.device Syr2k.Buf.dA, Ptr.device Syr2k.Buf.dB,
        Ptr.host Syr2k.Buf.h_beta, Ptr.device Syr2k.Buf.dC] hipblasStatus_t.SUCCESS ∈
      (final (Syr2k.testing_syr2k_batched (Syr2k.sampleEnv 0) argZeroN)).trace ∧
    Event.oracle 0 [(Syr2k.Buf.hA, 0), (Syr2k.Buf.hB, 0), (Syr2k.Buf.hC_gold, 0)] ∈
      (final (Syr2k.testing_syr2k_batched (Syr2k.sampleEnv 0) argZeroN)).trace ∧
    Event.unit_check Syr2k.Buf.hC_gold Syr2k.Buf.hC_host ∈
      (final (Syr2k.testing_syr2k_batched (Syr2k.sampleEnv 0) argZeroN)).trace ∧
    (final (Syr2k.testing_syr2k_batched (Syr2k.sampleEnv 0) argZeroN)).trace.countP
      Event.is_device_call = 4 := by
  decide

/-- C5, as amended: for every otherwise valid configuration with `N = 0` and
`batch_count > 0`, `testing_her_batched` takes its quick return (the handle, one
invocation with null pointers, the expectation of success, and nothing else: no data
generated, no invocation on live buffers, no reference call, comparison or timing
loop); `testing_syr2k_batched` takes no quick return: it goes on to build its
containers and, when every call succeeds, generates the data of `hA`, `hB` and `hC_host`,
invokes the device routine on the live buffers in both pointer modes if a check is
enabled, and reports the timing if timing is enabled. -/
theorem zero_N {T U : Type} (envH : Her.Env T U) (envS : Syr2k.Env T) (argH argS : Arguments)
    (hH : argH.N = 0 ∧ 0 < argH.batch_count ∧ 1 ≤ argH.lda ∧ argH.incx ≠ 0)
    (hS : argS.N = 0 ∧ 0 < argS.batch_count ∧ 0 ≤ argS.K ∧ 0 ≤ argS.ldc ∧
      (envS.char2hipblas_operation argS.transA = hipblasOperation_t.OP_N →
        0 ≤ argS.lda ∧ 0 ≤ argS.ldb) ∧
      (envS.char2hipblas_operation argS.transA ≠ hipblasOperation_t.OP_N →
        argS.K ≤ argS.lda ∧ argS.K ≤ argS.ldb)) :
    (∃ st, aborted (Her.testing_her_batched envH argH) = false ∧
      (final (Her.testing_her_batched envH argH)).trace =
        [Event.local_handle,
         Event.device_call none [Ptr.nullptr, Ptr.nullptr, Ptr.nullptr] st,
         Event.expect_status st hipblasStatus_t.SUCCESS]) ∧
    (∃ t, (final (Syr2k.testing_syr2k_batched envS argS)).trace =
      Event.local_handle ::
        Event.alloc Syr2k.Buf.hA (Syr2k.A_size (envS.char2hipblas_operation argS.transA) argS)
          1 argS.batch_count :: t) ∧
    (envS.Succeeds →
      Event.init_vector Syr2k.Buf.hA ∈ (final (Syr2k.testing_syr2k_batched envS argS)).trace ∧
      Event.init_vector Syr2k.Buf.hB ∈ (final (Syr2k.testing_syr2k_batched envS argS)).trace ∧
      Event.init_vector Syr2k.Buf.hC_host ∈
        (final (Syr2k.testing_syr2k_batched envS argS)).trace ∧
      ((argS.unit_check || argS.norm_check) = true →
        Event.device_call (some hipblasPointerMode_t.HOST)
          [Ptr.host Syr2k.Buf.h_alpha, Ptr.device Syr2k.Buf.dA, Ptr.device Syr2k.Buf.dB,
            Ptr.host Syr2k.Buf.h_beta, Ptr.device Syr2k.Buf.dC] hipblasStatus_t.SUCCESS ∈
          (final (Syr2k.testing_syr2k_batched envS argS)).trace ∧
        Event.device_call (some hipblasPointerMode_t.DEVICE)
          [Ptr.device Syr2k.Buf.d_alpha, Ptr.device Syr2k.Buf.dA, Ptr.device Syr2k.Buf.dB,
            Ptr.device Syr2k.Buf.d_beta, Ptr.device Syr2k.Buf.dC] hipblasStatus_t.SUCCESS ∈
          (final (Syr2k.testing_syr2k_batched envS argS)).trace) ∧
      (argS.timing = true → ∃ g eh ed,
        Event.log_args g Figure.gflop_count Figure.gbyte_count eh ed ∈
          (final (Syr2k.testing_syr2k_batched envS argS)).trace)) := by
  obtain ⟨hN, hb, hl, hi⟩ := hH
  obtain ⟨sN, sb, sK, sc, sn, st⟩ := hS
  have hq : (Her.invalid_size argH || (argH.N == 0) || (argH.batch_count == 0)) = true := by
    rw [Her.her_quick_iff]
    exact Or.inr (Or.inr (Or.inr (Or.inr (Or.inr (Or.inl hN)))))
  have hinv : Her.invalid_size argH = false := by
    rw [Bool.eq_false_iff]
    intro h
    rcases (Her.her_invalid_size_iff argH).1 h with h | h | h | h | h <;> omega
  have hv : Syr2k.Checked (envS.char2hipblas_operation argS.transA) argS := by
    refine ⟨?_, by omega⟩
    rintro (h | h | h | h | ⟨h1, h2⟩ | ⟨h1, h2⟩)
    · omega
    · omega
    · omega
    · omega
    · have := sn h1
      omega
    · have := st h1
      omega
  refine ⟨⟨Her.run_null envH argH (St.init.emit Event.local_handle), ?_, ?_⟩,
    Syr2k.syr2k_trace_head envS argS hv, ?_⟩
  · rw [Her.her_testing_of_quick envH argH hq]
    rfl
  · rw [Her.her_trace_of_quick envH argH hq, hinv]
    rfl
  · intro hs
    obtain ⟨g, hg⟩ := Syr2k.syr2k_run_yields hs argS hv
    rw [hg.trace_eq]
    refine ⟨?_, ?_, ?_, ?_, ?_⟩
    · simp [Syr2k.run_events, Syr2k.setup_events]
    · simp [Syr2k.run_events, Syr2k.setup_events]
    · simp [Syr2k.run_events, Syr2k.setup_events]
    · intro hc
      simp [Syr2k.run_events, Syr2k.correctness_events, hc, Syr2k.live_call]
    · intro ht
      exact ⟨g, Syr2k.error_host argS, Syr2k.error_device argS,
        by simp [Syr2k.run_events, Syr2k.timing_events, ht]⟩

/-- C5, as amended, at the sample configuration with `N = 0` and `batch_count = 2`. -/
theorem zero_N_witness :
    (argZeroN.N = 0 ∧ 0 < argZeroN.batch_count ∧ 1 ≤ argZeroN.lda ∧ argZeroN.incx ≠ 0) ∧
    (∃ st, aborted (Her.testing_her_batched (Her.sampleEnv 0) argZeroN) = false ∧
      (final (Her.testing_her_batched (Her.sampleEnv 0) argZeroN)).trace =
        [Event.local_handle,
         Event.device_call none [Ptr.nullptr, Ptr.nullptr, Ptr.nullptr] st,
         Event.expect_status st hipblasStatus_t.SUCCESS]) :=
  ⟨by decide, (zero_N (Her.sampleEnv 0) (Syr2k.sampleEnv 0) argZeroN argZeroN (by decide)
    (by decide)).1⟩

/-- C6: for every configuration that passes validation, with every call reporting
success: when timing is disabled, the pointer-mode switches and device invocations of a
run are, in order, the switch to host mode, one invocation passing the host-resident
scalars (`&h_alpha`, `&h_beta`; in rotmg the host operands `hd1 ... hparams`), the switch
to device mode, and one invocation passing the device-resident scalars (`d_alpha`,
`d_beta`; in rotmg `dd1 ... dparams`), if unit check or norm check is enabled, and none
at all otherwise; and when neither check is enabled the correctness block does
nothing. -/
theorem two_invocations {T U : Type} (envH : Her.Env T U) (envS : Syr2k.Env T)
    (envR : Rotmg.Env T) (argH argS argR : Arguments)
    (hH : envH.Succeeds) (hS : envS.Succeeds) (hR : envR.Succeeds)
    (vH : Her.Checked argH)
    (vS : Syr2k.Checked (envS.char2hipblas_operation argS.transA) argS)
    (vR : 0 < argR.batch_count) :
    (argH.timing = false →
      (final (Her.testing_her_batched envH argH)).trace.filter
          Event.is_call_or_mode =
        if argH.unit_check || argH.norm_check then
          [Event.set_pointer_mode hipblasPointerMode_t.HOST hipblasStatus_t.SUCCESS,
           Event.device_call (some hipblasPointerMode_t.HOST)
             [Ptr.host Her.Buf.h_alpha, Ptr.device Her.Buf.dx, Ptr.device Her.Buf.dA]
             hipblasStatus_t.SUCCESS,
           Event.set_pointer_mode hipblasPointerMode_t.DEVICE hipblasStatus_t.SUCCESS,
           Event.device_call (some hipblasPointerMode_t.DEVICE)
             [Ptr.device Her.Buf.d_alpha, Ptr.device Her.Buf.dx, Ptr.device Her.Buf.dA]
             hipblasStatus_t.SUCCESS]
        else []) ∧
    (argS.timing = false →
      (final (Syr2k.testing_syr2k_batched envS argS)).trace.filter
          Event.is_call_or_mode =
        if argS.unit_check || argS.norm_check then
          [Event.set_pointer_mode hipblasPointerMode_t.HOST hipblasStatus_t.SUCCESS,
           Event.device_call (some hipblasPointerMode_t.HOST)
             [Ptr.host Syr2k.Buf.h_alpha, Ptr.device Syr2k.Buf.dA, Ptr.device Syr2k.Buf.dB,
               Ptr.host Syr2k.Buf.h_beta, Ptr.device Syr2k.Buf.dC]
             hipblasStatus_t.SUCCESS,
           Event.set_pointer_mode hipblasPointerMode_t.DEVICE hipblasStatus_t.SUCCESS,
           Event.device_call (some hipblasPointerMode_t.DEVICE)
             [Ptr.device Syr2k.Buf.d_alpha, Ptr.device Syr2k.Buf.dA, Ptr.device Syr2k.Buf.dB,
               Ptr.device Syr2k.Buf.d_beta, Ptr.device Syr2k.Buf.dC]
             hipblasStatus_t.SUCCESS]
        else []) ∧
    (argR.timing = false →
      (final (Rotmg.testing_rotmg_strided_batched envR argR)).trace.filter
          Event.is_call_or_mode =
        if argR.unit_check || argR.norm_check then
          [Event.set_pointer_mode hipblasPointerMode_t.HOST hipblasStatus_t.SUCCESS,
           Event.device_call (some hipblasPointerMode_t.HOST)
             [Ptr.host Rotmg.Buf.hd1, Ptr.host Rotmg.Buf.hd2, Ptr.host Rotmg.Buf.hx1,
               Ptr.host Rotmg.Buf.hy1, Ptr.host Rotmg.Buf.hparams]
             hipblasStatus_t.SUCCESS,
           Event.set_pointer_mode hipblasPointerMode_t.DEVICE hipblasStatus_t.SUCCESS,
           Event.device_call (some hipblasPointerMode_t.DEVICE)
             [Ptr.device Rotmg.Buf.dd1, Ptr.device Rotmg.Buf.dd2, Ptr.device Rotmg.Buf.dx1,
               Ptr.device Rotmg.Buf.dy1, Ptr.device Rotmg.Buf.dparams]
             hipblasStatus_t.SUCCESS]
        else []) ∧
    ((argH.unit_check || argH.norm_check) = false →
      ∀ s, Her.correctness envH argH s = Except.ok s) ∧
    ((argS.unit_check || argS.norm_check) = false →
      ∀ s, Syr2k.correctness envS argS s = Except.ok s) ∧
    ((argR.unit_check || argR.norm_check) = false →
      ∀ s, Rotmg.correctness envR argR s = Except.ok s) := by
  refine ⟨?_, ?_, ?_, ?_, ?_, ?_⟩
  · intro ht
    obtain ⟨g, hg⟩ := Her.her_run_yields hH argH vH
    rw [hg.trace_eq]
    have ho : (Her.oracle_events argH).filter
        Event.is_call_or_mode = [] :=
      filter_map_eq_nil _ _ _ (fun _ => rfl)
    cases hu : argH.unit_check <;> cases hn : argH.norm_check <;>
      simp [Her.run_events, Her.setup_events, Her.staging_events, Her.correctness_events,
        Her.timing_events, ht, hu, hn, ho, List.filter, Event.is_call_or_mode, Her.live_call]
  · intro ht
    obtain ⟨g, hg⟩ := Syr2k.syr2k_run_yields hS argS vS
    rw [hg.trace_eq]
    have ho : (Syr2k.oracle_events argS).filter
        Event.is_call_or_mode = [] :=
      filter_map_eq_nil _ _ _ (fun _ => rfl)
    cases hu : argS.unit_check <;> cases hn : argS.norm_check <;>
      simp [Syr2k.run_events, Syr2k.setup_events, Syr2k.staging_events,
        Syr2k.correctness_events, Syr2k.timing_events, ht, hu, hn, ho, List.filter,
        Event.is_call_or_mode, Syr2k.live_call]
  · intro ht
    obtain ⟨g, hg⟩ := Rotmg.rotmg_run_yields hR argR vR
    rw [hg.trace_eq]
    have ho : (Rotmg.oracle_events argR).filter
        Event.is_call_or_mode = [] :=
      filter_map_eq_nil _ _ _ (fun _ => rfl)
    cases hu : argR.unit_check <;> cases hn : argR.norm_check <;>
      simp [Rotmg.run_events, Rotmg.setup_events, Rotmg.staging_events,
        Rotmg.correctness_events, Rotmg.timing_events, ht, hu, hn, ho, List.filter,
        Event.is_call_or_mode, Rotmg.live_call, Rotmg.near_events,
        Rotmg.norm_events, Rotmg.host_bufs, Rotmg.device_bufs, Rotmg.device_results]
  · intro hc s
    simp only [Her.correctness, hc]
    rfl
  · intro hc s
    simp only [Syr2k.correctness, hc]
    rfl
  · intro hc s
    simp only [Rotmg.correctness, hc]
    rfl

/-- C6 at the sample configuration (unit check enabled, timing disabled): the calls of
`testing_her_batched`. -/
theorem two_invocations_witness :
    (final (Her.testing_her_batched (Her.sampleEnv 0) sampleArg)).trace.filter
        Event.is_call_or_mode =
      [Event.set_pointer_mode hipblasPointerMode_t.HOST hipblasStatus_t.SUCCESS,
       Event.device_call (some hipblasPointerMode_t.HOST)
         [Ptr.host Her.Buf.h_alpha, Ptr.device Her.Buf.dx, Ptr.device Her.Buf.dA]
         hipblasStatus_t.SUCCESS,
       Event.set_pointer_mode hipblasPointerMode_t.DEVICE hipblasStatus_t.SUCCESS,
       Event.device_call (some hipblasPointerMode_t.DEVICE)
         [Ptr.device Her.Buf.d_alpha, Ptr.device Her.Buf.dx, Ptr.device Her.Buf.dA]
         hipblasStatus_t.SUCCESS] :=
  (two_invocations (Her.sampleEnv 0) (Syr2k.sampleEnv 0) Rotmg.sampleEnv sampleArg sampleArg
    sampleArg (Her.her_sampleEnv_succeeds 0) (Syr2k.syr2k_sampleEnv_succeeds 0)
    Rotmg.rotmg_sampleEnv_succeeds Her.her_sampleArg_checked Syr2k.syr2k_sampleArg_checked
    (by decide)).1 rfl

/-- C7, counterexample: generated host buffers are written again after generation.  In
`testing_syr2k_batched` the buffer `hC_host` is generated as blocks of sevens and holds
blocks of eights (the host-pointer-mode result, transferred back at line 140) when the
run ends; in `testing_rotmg_strided_batched` the buffer `hd1` is generated as sevens and
holds eights (the result of the host-pointer-mode invocation, of which it is an operand)
when the run ends. -/
theorem generated_buffers_overwritten :
    (final (Syr2k.setup (Syr2k.sampleEnv 0) sampleArg St.init)).bufs Syr2k.Buf.hC_host =
      some [[7, 7, 7, 7], [7, 7, 7, 7]] ∧
    (final (Syr2k.testing_syr2k_batched (Syr2k.sampleEnv 0) sampleArg)).bufs
      Syr2k.Buf.hC_host = some [[8, 8, 8, 8], [8, 8, 8, 8]] ∧
    (Rotmg.setup Rotmg.sampleEnv sampleArg St.init).bufs Rotmg.Buf.hd1 = some [7, 7] ∧
    (final (Rotmg.testing_rotmg_strided_batched Rotmg.sampleEnv sampleArg)).bufs
      Rotmg.Buf.hd1 = some [8, 8] := by
  decide

/-- C7, as amended: in `testing_her_batched` the generated host buffers `hA` and `hx`, and
in `testing_syr2k_batched` the generated host buffers `hA` and `hB`, are never written
again after generation: when the run ends (normally or by a fatal assertion, in any
environment) their contents are those at the end of data generation. -/
theorem generated_inputs_kept {T U : Type} (envH : Her.Env T U) (envS : Syr2k.Env T)
    (argH argS : Arguments) (vH : Her.Checked argH)
    (vS : Syr2k.Checked (envS.char2hipblas_operation argS.transA) argS) :
    (final (Her.testing_her_batched envH argH)).bufs Her.Buf.hA =
      (final (Her.setup envH argH (St.init.emit Event.local_handle))).bufs Her.Buf.hA ∧
    (final (Her.testing_her_batched envH argH)).bufs Her.Buf.hx =
      (final (Her.setup envH argH (St.init.emit Event.local_handle))).bufs Her.Buf.hx ∧
    (final (Syr2k.testing_syr2k_batched envS argS)).bufs Syr2k.Buf.hA =
      (final (Syr2k.setup envS argS St.init)).bufs Syr2k.Buf.hA ∧
    (final (Syr2k.testing_syr2k_batched envS argS)).bufs Syr2k.Buf.hB =
      (final (Syr2k.setup envS argS St.init)).bufs Syr2k.Buf.hB :=
  ⟨Her.her_bufs_after_setup envH argH vH Her.Buf.hA rfl,
   Her.her_bufs_after_setup envH argH vH Her.Buf.hx rfl,
   Syr2k.syr2k_bufs_after_setup envS argS vS Syr2k.Buf.hA rfl,
   Syr2k.syr2k_bufs_after_setup envS argS vS Syr2k.Buf.hB rfl⟩

/-- C7, as amended, at the sample configuration. -/
theorem generated_inputs_kept_witness :
    (Her.Checked sampleArg ∧
      Syr2k.Checked ((Syr2k.sampleEnv 0).char2hipblas_operation sampleArg.transA) sampleArg) ∧
    ((final (Her.testing_her_batched (Her.sampleEnv 0) sampleArg)).bufs Her.Buf.hA =
      (final (Her.setup (Her.sampleEnv 0) sampleArg
        (St.init.emit Event.local_handle))).bufs Her.Buf.hA ∧
    (final (Her.testing_her_batched (Her.sampleEnv 0) sampleArg)).bufs Her.Buf.hx =
      (final (Her.setup (Her.sampleEnv 0) sampleArg
        (St.init.emit Event.local_handle))).bufs Her.Buf.hx ∧
    (final (Syr2k.testing_syr2k_batched (Syr2k.sampleEnv 0) sampleArg)).bufs Syr2k.Buf.hA =
      (final (Syr2k.setup (Syr2k.sampleEnv 0) sampleArg St.init)).bufs Syr2k.Buf.hA ∧
    (final (Syr2k.testing_syr2k_batched (Syr2k.sampleEnv 0) sampleArg)).bufs Syr2k.Buf.hB =
      (final (Syr2k.setup (Syr2k.sampleEnv 0) sampleArg St.init)).bufs Syr2k.Buf.hB) :=
  ⟨⟨Her.her_sampleArg_checked, Syr2k.syr2k_sampleArg_checked⟩,
    generated_inputs_kept (Her.sampleEnv 0) (Syr2k.sampleEnv 0) sampleArg sampleArg
      Her.her_sampleArg_checked Syr2k.syr2k_sampleArg_checked⟩

/-- C8, the code at the failing input: in `testing_her_batched` no element-wise check ever
has the device-mode mirror `hA_device` as its second operand, in any environment and for
any configuration (lines 142-143 both pass `hA_host`).  On the sample configuration with
unit check enabled and a device routine whose device-pointer-mode result is off by one,
the comparisons are two unit checks against `hA_host`, the device-mode result differs
from the reference result, and the run records no failure; the same fault is reported by
`testing_syr2k_batched`, which checks both mirrors. -/
theorem her_unit_check_skips_device_mirror :
    (∀ (T U : Type) (env : Her.Env T U) (arg : Arguments) (ref : Her.Buf),
      Event.unit_check ref Her.Buf.hA_device ∉
        (final (Her.testing_her_batched env arg)).trace) ∧
    (final (Her.testing_her_batched (Her.sampleEnv 1) sampleArg)).trace.filter
        Event.is_comparison =
      [Event.unit_check Her.Buf.hA_cpu Her.Buf.hA_host,
       Event.unit_check Her.Buf.hA_cpu Her.Buf.hA_host] ∧
    (final (Her.testing_her_batched (Her.sampleEnv 1) sampleArg)).bufs Her.Buf.hA_device ≠
      (final (Her.testing_her_batched (Her.sampleEnv 1) sampleArg)).bufs Her.Buf.hA_cpu ∧
    (final (Her.testing_her_batched (Her.sampleEnv 1) sampleArg)).failed = false ∧
    (final (Syr2k.testing_syr2k_batched (Syr2k.sampleEnv 1) sampleArg)).failed = true := by
  refine ⟨?_, by decide, by decide, by decide, by decide⟩
  intro T U env arg ref hmem
  have h := Her.her_all_emitted env arg _ hmem
  cases ref <;> simp [Her.emits] at h

/-- C9: for every valid configuration with timing enabled, `cold_iters = C ≥ 0` and
`iters = M ≥ 1` (with `C + M` a representable `int`), when every call succeeds the trace
of each harness is the trace of the same run without timing followed by the timing
phase, and the timing phase is exactly: (in her_batched, the transfer restoring `dA`,)
the stream query, the switch to device pointer mode, `C` invocations of the device
routine on the device-resident arguments, one clock read, `M` further such invocations,
the second clock read and the report.  So the routine is invoked `C + M` times, all in
device pointer mode with no reference call or comparison in between, the start time is
read once, immediately before invocation number `C`, and exactly the last `M`
invocations lie between the two clock reads. -/
theorem timing_phase {T U : Type} (envH : Her.Env T U) (envS : Syr2k.Env T) (envR : Rotmg.Env T)
    (argH argS argR : Arguments)
    (hH : envH.Succeeds) (hS : envS.Succeeds) (hR : envR.Succeeds)
    (vH : Her.Checked argH)
    (vS : Syr2k.Checked (envS.char2hipblas_operation argS.transA) argS)
    (vR : 0 < argR.batch_count)
    (tH : Timed argH) (tS : Timed argS) (tR : Timed argR) :
    (∃ g eh ed, (final (Her.testing_her_batched envH argH)).trace =
      (final (Her.testing_her_batched envH { argH with timing := false })).trace ++
        ([Event.transfer Her.Buf.dA Her.Buf.hA hipError_t.hipSuccess,
          Event.get_stream hipblasStatus_t.SUCCESS,
          Event.set_pointer_mode hipblasPointerMode_t.DEVICE hipblasStatus_t.SUCCESS] ++
        List.replicate argH.cold_iters.toNat
          (Event.device_call (some hipblasPointerMode_t.DEVICE)
            [Ptr.device Her.Buf.d_alpha, Ptr.device Her.Buf.dx, Ptr.device Her.Buf.dA]
            hipblasStatus_t.SUCCESS) ++
        [Event.get_time] ++
        List.replicate argH.iters.toNat
          (Event.device_call (some hipblasPointerMode_t.DEVICE)
            [Ptr.device Her.Buf.d_alpha, Ptr.device Her.Buf.dx, Ptr.device Her.Buf.dA]
            hipblasStatus_t.SUCCESS) ++
        [Event.get_time, Event.log_args g Figure.gflop_count Figure.gbyte_count eh ed])) ∧
    (∃ g eh ed, (final (Syr2k.testing_syr2k_batched envS argS)).trace =
      (final (Syr2k.testing_syr2k_batched envS { argS with timing := false })).trace ++
        ([Event.get_stream hipblasStatus_t.SUCCESS,
          Event.set_pointer_mode hipblasPointerMode_t.DEVICE hipblasStatus_t.SUCCESS] ++
        List.replicate argS.cold_iters.toNat
          (Event.device_call (some hipblasPointerMode_t.DEVICE)
            [Ptr.device Syr2k.Buf.d_alpha, Ptr.device Syr2k.Buf.dA, Ptr.device Syr2k.Buf.dB,
              Ptr.device Syr2k.Buf.d_beta, Ptr.device Syr2k.Buf.dC]
            hipblasStatus_t.SUCCESS) ++
        [Event.get_time] ++
        List.replicate argS.iters.toNat
          (Event.device_call (some hipblasPointerMode_t.DEVICE)
            [Ptr.device Syr2k.Buf.d_alpha, Ptr.device Syr2k.Buf.dA, Ptr.device Syr2k.Buf.dB,
              Ptr.device Syr2k.Buf.d_beta, Ptr.device Syr2k.Buf.dC]
            hipblasStatus_t.SUCCESS) ++
        [Event.get_time, Event.log_args g Figure.gflop_count Figure.gbyte_count eh ed])) ∧
    (∃ g eh ed, (final (Rotmg.testing_rotmg_strided_batched envR argR)).trace =
      (final (Rotmg.testing_rotmg_strided_batched envR { argR with timing := false })).trace ++
        ([Event.get_stream hipblasStatus_t.SUCCESS,
          Event.set_pointer_mode hipblasPointerMode_t.DEVICE hipblasStatus_t.SUCCESS] ++
        List.replicate argR.cold_iters.toNat
          (Event.device_call (some hipblasPointerMode_t.DEVICE)
            [Ptr.device Rotmg.Buf.dd1, Ptr.device Rotmg.Buf.dd2, Ptr.device Rotmg.Buf.dx1,
              Ptr.device Rotmg.Buf.dy1, Ptr.device Rotmg.Buf.dparams]
            hipblasStatus_t.SUCCESS) ++
        [Event.get_time] ++
        List.replicate argR.iters.toNat
          (Event.device_call (some hipblasPointerMode_t.DEVICE)
            [Ptr.device Rotmg.Buf.dd1, Ptr.device Rotmg.Buf.dd2, Ptr.device Rotmg.Buf.dx1,
              Ptr.device Rotmg.Buf.dy1, Ptr.device Rotmg.Buf.dparams]
            hipblasStatus_t.SUCCESS) ++
        [Event.get_time, Event.log_args g Figure.NA_value Figure.NA_value eh ed])) := by
  refine ⟨?_, ?_, ?_⟩
  · obtain ⟨t1, t2, t3, t4⟩ := tH
    obtain ⟨g, hg⟩ := Her.her_run_yields hH argH vH
    obtain ⟨g0, hg0⟩ := Her.her_run_yields hH { argH with timing := false } vH
    refine ⟨g, Her.error_host argH, Her.error_device argH, ?_⟩
    rw [hg.trace_eq, hg0.trace_eq]
    have hl := loop_events_runs
      (Her.live_call hipblasPointerMode_t.DEVICE (Ptr.device Her.Buf.d_alpha))
      argH.cold_iters argH.iters t2 t3 t4
    simp only [Her.live_call] at hl
    have e0 : Her.run_events { argH with timing := false } g0 =
        Event.local_handle :: (Her.setup_events argH ++ Her.staging_events ++
          Her.correctness_events argH ++ []) := rfl
    rw [e0]
    simp only [Her.run_events, Her.timing_events, t1, if_true, hl, Her.live_call,
      List.append_assoc, List.append_nil, List.cons_append, List.nil_append]
  · obtain ⟨t1, t2, t3, t4⟩ := tS
    obtain ⟨g, hg⟩ := Syr2k.syr2k_run_yields hS argS vS
    obtain ⟨g0, hg0⟩ := Syr2k.syr2k_run_yields hS { argS with timing := false } vS
    refine ⟨g, Syr2k.error_host argS, Syr2k.error_device argS, ?_⟩
    rw [hg.trace_eq, hg0.trace_eq]
    have hl := loop_events_runs
      (Syr2k.live_call hipblasPointerMode_t.DEVICE (Ptr.device Syr2k.Buf.d_alpha)
        (Ptr.device Syr2k.Buf.d_beta))
      argS.cold_iters argS.iters t2 t3 t4
    simp only [Syr2k.live_call] at hl
    have e0 : Syr2k.run_events (envS.char2hipblas_operation argS.transA)
        { argS with timing := false } g0 =
        Syr2k.setup_events (envS.char2hipblas_operation argS.transA) argS ++
          Syr2k.staging_events ++ Syr2k.correctness_events argS ++ [] := rfl
    rw [e0]
    simp only [Syr2k.run_events, Syr2k.timing_events, t1, if_true, hl, Syr2k.live_call,
      List.append_assoc, List.append_nil, List.cons_append, List.nil_append]
  · obtain ⟨t1, t2, t3, t4⟩ := tR
    obtain ⟨g, hg⟩ := Rotmg.rotmg_run_yields hR argR vR
    obtain ⟨g0, hg0⟩ := Rotmg.rotmg_run_yields hR { argR with timing := false } vR
    refine ⟨g, Rotmg.error_host argR, Rotmg.error_device argR, ?_⟩
    rw [hg.trace_eq, hg0.trace_eq]
    have hl := loop_events_runs
      (Rotmg.live_call hipblasPointerMode_t.DEVICE Ptr.device Rotmg.device_bufs)
      argR.cold_iters argR.iters t2 t3 t4
    simp only [Rotmg.live_call, Rotmg.device_bufs] at hl
    have e0 : Rotmg.run_events { argR with timing := false } g0 =
        Rotmg.setup_events argR ++ Rotmg.staging_events argR ++
          Rotmg.correctness_events argR ++ [] := rfl
    rw [e0]
    simp only [Rotmg.run_events, Rotmg.timing_events, t1, if_true, hl, Rotmg.live_call,
      Rotmg.device_bufs, List.append_assoc, List.append_nil, List.cons_append,
      List.nil_append]

/-- C9 at the sample configuration with `cold_iters = 5` and `iters = 20`: the timing
phase of `testing_syr2k_batched` is 5 invocations, a clock read, 20 invocations, a clock
read and the report. -/
theorem timing_phase_witness :
    (Timed argTimed ∧ argTimed.cold_iters = 5 ∧ argTimed.iters = 20) ∧
    (∃ g eh ed, (final (Syr2k.testing_syr2k_batched (Syr2k.sampleEnv 0) argTimed)).trace =
      (final (Syr2k.testing_syr2k_batched (Syr2k.sampleEnv 0)
        { argTimed with timing := false })).trace ++
        ([Event.get_stream hipblasStatus_t.SUCCESS,
          Event.set_pointer_mode hipblasPointerMode_t.DEVICE hipblasStatus_t.SUCCESS] ++
        List.replicate argTimed.cold_iters.toNat
          (Event.device_call (some hipblasPointerMode_t.DEVICE)
            [Ptr.device Syr2k.Buf.d_alpha, Ptr.device Syr2k.Buf.dA, Ptr.device Syr2k.Buf.dB,
              Ptr.device Syr2k.Buf.d_beta, Ptr.device Syr2k.Buf.dC]
            hipblasStatus_t.SUCCESS) ++
        [Event.get_time] ++
        List.replicate argTimed.iters.toNat
          (Event.device_call (some hipblasPointerMode_t.DEVICE)
            [Ptr.device Syr2k.Buf.d_alpha, Ptr.device Syr2k.Buf.dA, Ptr.device Syr2k.Buf.dB,
              Ptr.device Syr2k.Buf.d_beta, Ptr.device Syr2k.Buf.dC]
            hipblasStatus_t.SUCCESS) ++
        [Event.get_time, Event.log_args g Figure.gflop_count Figure.gbyte_count eh ed])) :=
  ⟨⟨by unfold Timed; decide, rfl, rfl⟩,
    (timing_phase (Her.sampleEnv 0) (Syr2k.sampleEnv 0) Rotmg.sampleEnv argTimed argTimed
      argTimed (Her.her_sampleEnv_succeeds 0) (Syr2k.syr2k_sampleEnv_succeeds 0)
      Rotmg.rotmg_sampleEnv_succeeds Her.her_sampleArg_checked Syr2k.syr2k_sampleArg_checked
      (by decide) (by unfold Timed; decide) (by unfold Timed; decide)
      (by unfold Timed; decide)).2.1⟩

/-- C10, counterexample: on the sample configuration with timing only (both checks
disabled) `testing_syr2k_batched` passes to `log_args` its two error locals, which were
never assigned; they are not the "not applicable" sentinel. -/
theorem syr2k_timing_only_errors :
    ¬ (∀ g fl by_ eh ed, Event.log_args g fl by_ eh ed ∈
        (final (Syr2k.testing_syr2k_batched (Syr2k.sampleEnv 0) argTimingOnly)).trace →
        eh = Figure.NA_value ∧ ed = Figure.NA_value) := by
  intro h
  have hm : Event.log_args (Figure.minus (Figure.time 52) (Figure.time 31)) Figure.gflop_count
      Figure.gbyte_count Figure.indeterminate Figure.indeterminate ∈
      (final (Syr2k.testing_syr2k_batched (Syr2k.sampleEnv 0) argTimingOnly)).trace := by
    decide
  have h2 := (h _ _ _ _ _ hm).1
  cases h2

/-- C10, as amended: for every valid configuration with timing enabled and both
`unit_check` and `norm_check` disabled, when every call succeeds the last external call
of each harness is `log_args`, and the host-mode and device-mode error figures it
receives are the harness locals `hipblas_error_host` and `hipblas_error_device`, which
were never assigned (indeterminate values); the "not applicable" sentinel is passed only
by `testing_rotmg_strided_batched`, as its flop and byte figures. -/
theorem timing_only_errors {T U : Type} (envH : Her.Env T U) (envS : Syr2k.Env T)
    (envR : Rotmg.Env T) (argH argS argR : Arguments)
    (hH : envH.Succeeds) (hS : envS.Succeeds) (hR : envR.Succeeds)
    (vH : Her.Checked argH)
    (vS : Syr2k.Checked (envS.char2hipblas_operation argS.transA) argS)
    (vR : 0 < argR.batch_count)
    (tH : argH.timing = true ∧ argH.unit_check = false ∧ argH.norm_check = false)
    (tS : argS.timing = true ∧ argS.unit_check = false ∧ argS.norm_check = false)
    (tR : argR.timing = true ∧ argR.unit_check = false ∧ argR.norm_check = false) :
    (∃ g, (final (Her.testing_her_batched envH argH)).trace.getLast? =
      some (Event.log_args g Figure.gflop_count Figure.gbyte_count
        Figure.indeterminate Figure.indeterminate)) ∧
    (∃ g, (final (Syr2k.testing_syr2k_batched envS argS)).trace.getLast? =
      some (Event.log_args g Figure.gflop_count Figure.gbyte_count
        Figure.indeterminate Figure.indeterminate)) ∧
    (∃ g, (final (Rotmg.testing_rotmg_strided_batched envR argR)).trace.getLast? =
      some (Event.log_args g Figure.NA_value Figure.NA_value
        Figure.indeterminate Figure.indeterminate)) := by
  refine ⟨?_, ?_, ?_⟩
  · obtain ⟨t1, t2, t3⟩ := tH
    obtain ⟨g, hg⟩ := Her.her_run_yields hH argH vH
    refine ⟨g, ?_⟩
    rw [hg.trace_eq]
    simp only [Her.run_events, Her.timing_events, Her.error_host, Her.error_device, t1, t3,
      if_true, Bool.false_eq_true, if_false]
    repeat (first | rfl | apply getLast?_append_right | apply getLast?_cons_right)
  · obtain ⟨t1, t2, t3⟩ := tS
    obtain ⟨g, hg⟩ := Syr2k.syr2k_run_yields hS argS vS
    refine ⟨g, ?_⟩
    rw [hg.trace_eq]
    simp only [Syr2k.run_events, Syr2k.timing_events, Syr2k.error_host, Syr2k.error_device, t1, t3,
      if_true, Bool.false_eq_true, if_false]
    repeat (first | rfl | apply getLast?_append_right | apply getLast?_cons_right)
  · obtain ⟨t1, t2, t3⟩ := tR
    obtain ⟨g, hg⟩ := Rotmg.rotmg_run_yields hR argR vR
    refine ⟨g, ?_⟩
    rw [hg.trace_eq]
    simp only [Rotmg.run_events, Rotmg.timing_events, Rotmg.error_host, Rotmg.error_device, t1, t3,
      if_true, Bool.false_eq_true, if_false]
    repeat (first | rfl | apply getLast?_append_right | apply getLast?_cons_right)

/-- C10, as amended, at the sample configuration with timing only: the report of
`testing_rotmg_strided_batched`. -/
theorem timing_only_errors_witness :
    (argTimingOnly.timing = true ∧ argTimingOnly.unit_check = false ∧
      argTimingOnly.norm_check = false) ∧
    (∃ g, (final (Rotmg.testing_rotmg_strided_batched Rotmg.sampleEnv
        argTimingOnly)).trace.getLast? =
      some (Event.log_args g Figure.NA_value Figure.NA_value
        Figure.indeterminate Figure.indeterminate)) :=
  ⟨by decide,
    (timing_only_errors (Her.sampleEnv 0) (Syr2k.sampleEnv 0) Rotmg.sampleEnv argTimingOnly
      argTimingOnly argTimingOnly (Her.her_sampleEnv_succeeds 0)
      (Syr2k.syr2k_sampleEnv_succeeds 0) Rotmg.rotmg_sampleEnv_succeeds
      Her.her_sampleArg_checked Syr2k.syr2k_sampleArg_checked (by decide) (by decide)
      (by decide) (by decide)).2.2⟩

/-- C11: for every configuration that passes validation with a check enabled, at the
device-pointer-mode invocation of the correctness block every device buffer passed to
the routine holds the generated data, the in-place result of the host-pointer-mode pass
having been undone: writing `before_device_call` for the run up to that invocation
(the run is `before_device_call` followed by `from_device_call`, which begins with the
invocation), in any state in which `before_device_call` returns the pointer mode is
device and, in her_batched, `dA` and `dx` hold the contents of `hA` and `hx` at the end
of data generation; in syr2k_batched, `dA`, `dB` and `dC` hold those of `hA`, `hB` and
`hC_host` (`dC` restored from `hC_device`); in rotmg_strided_batched, `dd1`, `dd2`,
`dx1`, `dy1`, `dparams` hold those of `hd1`, `hd2`, `hx1`, `hy1`, `hparams`; these
contents are what the data generator returned.  When every call succeeds,
`before_device_call` does return. -/
theorem device_pass_on_generated_data {T U : Type} (envH : Her.Env T U) (envS : Syr2k.Env T)
    (envR : Rotmg.Env T) (argH argS argR : Arguments) (vH : Her.Checked argH)
    (vS : Syr2k.Checked (envS.char2hipblas_operation argS.transA) argS)
    (vR : 0 < argR.batch_count)
    (cH : (argH.unit_check || argH.norm_check) = true)
    (cS : (argS.unit_check || argS.norm_check) = true)
    (cR : (argR.unit_check || argR.norm_check) = true) :
    (Her.testing_her_batched envH argH =
        (Her.before_device_call envH argH >>= Her.from_device_call envH argH) ∧
      (envH.Succeeds → aborted (Her.before_device_call envH argH) = false) ∧
      (∀ s, Her.before_device_call envH argH = Except.ok s →
        s.pointer_mode = some hipblasPointerMode_t.DEVICE ∧
        s.bufs Her.Buf.dA =
          (final (Her.setup envH argH (St.init.emit Event.local_handle))).bufs Her.Buf.hA ∧
        s.bufs Her.Buf.dx =
          (final (Her.setup envH argH (St.init.emit Event.local_handle))).bufs Her.Buf.hx ∧
        (∃ t, s.bufs Her.Buf.dA = some (envH.hipblas_init_vector t Her.Buf.hA
          [Her.A_size argH, 1, argH.batch_count])) ∧
        (∃ t, s.bufs Her.Buf.dx = some (envH.hipblas_init_vector t Her.Buf.hx
          [size_t argH.N, argH.incx, argH.batch_count])))) ∧
    (Syr2k.testing_syr2k_batched envS argS =
        (Syr2k.before_device_call envS argS >>= Syr2k.from_device_call envS argS) ∧
      (envS.Succeeds → aborted (Syr2k.before_device_call envS argS) = false) ∧
      (∀ s, Syr2k.before_device_call envS argS = Except.ok s →
        s.pointer_mode = some hipblasPointerMode_t.DEVICE ∧
        s.bufs Syr2k.Buf.dA = (final (Syr2k.setup envS argS St.init)).bufs Syr2k.Buf.hA ∧
        s.bufs Syr2k.Buf.dB = (final (Syr2k.setup envS argS St.init)).bufs Syr2k.Buf.hB ∧
        s.bufs Syr2k.Buf.dC =
          (final (Syr2k.setup envS argS St.init)).bufs Syr2k.Buf.hC_host ∧
        (∃ t, s.bufs Syr2k.Buf.dA = some (envS.hipblas_init_vector t Syr2k.Buf.hA
          [Syr2k.A_size (envS.char2hipblas_operation argS.transA) argS, 1,
            argS.batch_count])) ∧
        (∃ t, s.bufs Syr2k.Buf.dB = some (envS.hipblas_init_vector t Syr2k.Buf.hB
          [Syr2k.B_size (envS.char2hipblas_operation argS.transA) argS, 1,
            argS.batch_count])) ∧
        (∃ t, s.bufs Syr2k.Buf.dC = some (envS.hipblas_init_vector t Syr2k.Buf.hC_host
          [Syr2k.C_size argS, 1, argS.batch_count])))) ∧
    (Rotmg.testing_rotmg_strided_batched envR argR =
        (Rotmg.before_device_call envR argR >>= Rotmg.from_device_call envR argR) ∧
      (envR.Succeeds → aborted (Rotmg.before_device_call envR argR) = false) ∧
      (∀ s, Rotmg.before_device_call envR argR = Except.ok s →
        s.pointer_mode = some hipblasPointerMode_t.DEVICE ∧
        s.bufs Rotmg.Buf.dd1 = (Rotmg.setup envR argR St.init).bufs Rotmg.Buf.hd1 ∧
        s.bufs Rotmg.Buf.dd2 = (Rotmg.setup envR argR St.init).bufs Rotmg.Buf.hd2 ∧
        s.bufs Rotmg.Buf.dx1 = (Rotmg.setup envR argR St.init).bufs Rotmg.Buf.hx1 ∧
        s.bufs Rotmg.Buf.dy1 = (Rotmg.setup envR argR St.init).bufs Rotmg.Buf.hy1 ∧
        s.bufs Rotmg.Buf.dparams =
          (Rotmg.setup envR argR St.init).bufs Rotmg.Buf.hparams ∧
        (∃ t, s.bufs Rotmg.Buf.dd1 = some (envR.hipblas_init_vector t Rotmg.Buf.hd1
          [1, 1, Rotmg.stride_d1 argR, argR.batch_count])) ∧
        (∃ t, s.bufs Rotmg.Buf.dd2 = some (envR.hipblas_init_vector t Rotmg.Buf.hd2
          [1, 1, Rotmg.stride_d1 argR, argR.batch_count])) ∧
        (∃ t, s.bufs Rotmg.Buf.dx1 = some (envR.hipblas_init_vector t Rotmg.Buf.hx1
          [1, 1, Rotmg.stride_d1 argR, argR.batch_count])) ∧
        (∃ t, s.bufs Rotmg.Buf.dy1 = some (envR.hipblas_init_vector t Rotmg.Buf.hy1
          [1, 1, Rotmg.stride_d1 argR, argR.batch_count])) ∧
        (∃ t, s.bufs Rotmg.Buf.dparams = some (envR.hipblas_init_vector t Rotmg.Buf.hparams
          [5, 1, Rotmg.stride_param argR, argR.batch_count])))) := by
  refine ⟨⟨(Her.her_testing_eq envH argH vH cH).1,
      fun hs => (Her.her_before_oracle_ok hs argH).1, ?_⟩,
    ⟨(Syr2k.syr2k_testing_eq envS argS vS cS).1,
      fun hs => (Syr2k.syr2k_before_oracle_ok hs argS).1, ?_⟩,
    ⟨(Rotmg.rotmg_testing_eq envR argR vR cR).1,
      fun hs => (Rotmg.rotmg_before_oracle_ok hs argR).1, ?_⟩⟩
  · intro s h
    obtain ⟨hm, e1, e2, -, -⟩ := Her.her_before_device_call_of_ok h
    obtain ⟨s0, h0, -⟩ := bind_eq_ok (show (Her.setup envH argH (St.init.emit
      Event.local_handle) >>= fun s => Her.staging envH argH s >>= Her.host_pass envH argH) =
      Except.ok s from h)
    obtain ⟨g1, g2⟩ := Her.her_setup_of_ok h0
    rw [h0, final_ok] at e1 e2
    refine ⟨hm, by rw [e1, h0, final_ok], by rw [e2, h0, final_ok], ?_, ?_⟩
    · rw [e1]; exact g1
    · rw [e2]; exact g2
  · intro s h
    obtain ⟨hm, e1, e2, e3, -, -, -⟩ := Syr2k.syr2k_before_device_call_of_ok h
    obtain ⟨s0, h0, -⟩ := bind_eq_ok (show (Syr2k.setup envS argS St.init >>= fun s =>
      Syr2k.staging envS argS s >>= Syr2k.host_pass envS argS) = Except.ok s from h)
    obtain ⟨g1, g2, g3⟩ := Syr2k.syr2k_setup_of_ok h0
    rw [h0, final_ok] at e1 e2 e3
    refine ⟨hm, by rw [e1, h0, final_ok], by rw [e2, h0, final_ok],
      by rw [e3, h0, final_ok], ?_, ?_, ?_⟩
    · rw [e1]; exact g1
    · rw [e2]; exact g2
    · rw [e3]; exact g3
  · intro s h
    obtain ⟨hm, ⟨e1, e2, e3, e4, e5⟩, -⟩ := Rotmg.rotmg_before_device_call_of_ok h
    obtain ⟨g1, g2, g3, g4, g5⟩ := Rotmg.rotmg_setup_bufs envR argR St.init
    refine ⟨hm, e1, e2, e3, e4, e5, ?_, ?_, ?_, ?_, ?_⟩
    · rw [e1]; exact g1
    · rw [e2]; exact g2
    · rw [e3]; exact g3
    · rw [e4]; exact g4
    · rw [e5]; exact g5

/-- C11 at the sample configuration, where the device routine adds `alpha = 1` to the
generated sevens: at the device-pointer-mode invocation `dC` of `testing_syr2k_batched`
holds sevens again. -/
theorem device_pass_on_generated_data_witness :
    (Her.Checked sampleArg ∧
      Syr2k.Checked ((Syr2k.sampleEnv 0).char2hipblas_operation sampleArg.transA)
        sampleArg ∧ 0 < sampleArg.batch_count ∧
      (sampleArg.unit_check || sampleArg.norm_check) = true) ∧
    (final (Syr2k.before_device_call (Syr2k.sampleEnv 0) sampleArg)).bufs Syr2k.Buf.dC =
      some [[7, 7, 7, 7], [7, 7, 7, 7]] ∧
    Syr2k.testing_syr2k_batched (Syr2k.sampleEnv 0) sampleArg =
      (Syr2k.before_device_call (Syr2k.sampleEnv 0) sampleArg >>=
        Syr2k.from_device_call (Syr2k.sampleEnv 0) sampleArg) :=
  ⟨⟨Her.her_sampleArg_checked, Syr2k.syr2k_sampleArg_checked, by decide, rfl⟩, by decide,
    (device_pass_on_generated_data (Her.sampleEnv 0) (Syr2k.sampleEnv 0) Rotmg.sampleEnv
      sampleArg sampleArg sampleArg Her.her_sampleArg_checked Syr2k.syr2k_sampleArg_checked
      (by decide) rfl rfl rfl).2.1.1⟩

/-- C13: in each harness, in any environment and for every configuration that passes
validation, no element-wise check (`unit_check_general`, `near_check_general`) is made
after a norm check (`norm_check_general`) has run; and when every call succeeds and
both checks are enabled the comparisons are, in order: the element-wise checks, then
the norm checks. -/
theorem unit_checks_before_norm_checks {T U : Type} (envH : Her.Env T U) (envS : Syr2k.Env T)
    (envR : Rotmg.Env T) (argH argS argR : Arguments) (vH : Her.Checked argH)
    (vS : Syr2k.Checked (envS.char2hipblas_operation argS.transA) argS)
    (vR : 0 < argR.batch_count) :
    (∀ t1 e t2, (final (Her.testing_her_batched envH argH)).trace = t1 ++ e :: t2 →
      e.is_norm_check = true → ∀ e2 ∈ t2, e2.is_unit_check = false) ∧
    (∀ t1 e t2, (final (Syr2k.testing_syr2k_batched envS argS)).trace = t1 ++ e :: t2 →
      e.is_norm_check = true → ∀ e2 ∈ t2, e2.is_unit_check = false) ∧
    (∀ t1 e t2, (final (Rotmg.testing_rotmg_strided_batched envR argR)).trace =
        t1 ++ e :: t2 →
      e.is_norm_check = true → ∀ e2 ∈ t2, e2.is_unit_check = false) ∧
    (envH.Succeeds → argH.unit_check = true → argH.norm_check = true →
      (final (Her.testing_her_batched envH argH)).trace.filter Event.is_comparison =
        [Event.unit_check Her.Buf.hA_cpu Her.Buf.hA_host,
         Event.unit_check Her.Buf.hA_cpu Her.Buf.hA_host,
         Event.norm_check Her.Buf.hA_cpu Her.Buf.hA_host,
         Event.norm_check Her.Buf.hA_cpu Her.Buf.hA_device]) ∧
    (envS.Succeeds → argS.unit_check = true → argS.norm_check = true →
      (final (Syr2k.testing_syr2k_batched envS argS)).trace.filter Event.is_comparison =
        [Event.unit_check Syr2k.Buf.hC_gold Syr2k.Buf.hC_host,
         Event.unit_check Syr2k.Buf.hC_gold Syr2k.Buf.hC_device,
         Event.norm_check Syr2k.Buf.hC_gold Syr2k.Buf.hC_host,
         Event.norm_check Syr2k.Buf.hC_gold Syr2k.Buf.hC_device]) ∧
    (envR.Succeeds → argR.unit_check = true → argR.norm_check = true →
      (final (Rotmg.testing_rotmg_strided_batched envR argR)).trace.filter
          Event.is_comparison =
        Rotmg.near_events Rotmg.host_bufs ++ Rotmg.near_events Rotmg.device_results ++
          Rotmg.norm_events Rotmg.host_bufs ++ Rotmg.norm_events Rotmg.device_results) := by
  refine ⟨?_, ?_, ?_, ?_, ?_, ?_⟩
  · obtain ⟨g, hg⟩ := Her.her_run_follows envH argH vH
    exact hg.unit_before_norm (Her.her_run_events_ordered argH g)
  · obtain ⟨g, hg⟩ := Syr2k.syr2k_run_follows envS argS vS
    exact hg.unit_before_norm (Syr2k.syr2k_run_events_ordered _ argS g)
  · obtain ⟨g, hg⟩ := Rotmg.rotmg_run_follows envR argR vR
    exact hg.unit_before_norm (Rotmg.rotmg_run_events_ordered argR g)
  · intro hs hu hn
    obtain ⟨g, hg⟩ := Her.her_run_yields hs argH vH
    rw [hg.trace_eq]
    have ho : (Her.oracle_events argH).filter Event.is_comparison = [] :=
      filter_map_eq_nil _ _ _ (fun _ => rfl)
    have hl := filter_loop_events (Event.is_comparison) argH.cold_iters
      (Her.live_call hipblasPointerMode_t.DEVICE (Ptr.device Her.Buf.d_alpha)) rfl rfl
      (int32 (argH.cold_iters + argH.iters)).toNat 0
    cases ht : argH.timing <;>
      simp only [Her.run_events, Her.correctness_events, Her.timing_events, ht, hu, hn,
        Bool.or_self, if_true, Bool.false_eq_true, if_false, List.filter_append,
        List.filter_cons, ho, hl, List.append_nil, List.nil_append] <;> rfl
  · intro hs hu hn
    obtain ⟨g, hg⟩ := Syr2k.syr2k_run_yields hs argS vS
    rw [hg.trace_eq]
    have ho : (Syr2k.oracle_events argS).filter Event.is_comparison = [] :=
      filter_map_eq_nil _ _ _ (fun _ => rfl)
    have hl := filter_loop_events (Event.is_comparison) argS.cold_iters
      (Syr2k.live_call hipblasPointerMode_t.DEVICE (Ptr.device Syr2k.Buf.d_alpha)
        (Ptr.device Syr2k.Buf.d_beta)) rfl rfl
      (int32 (argS.cold_iters + argS.iters)).toNat 0
    cases ht : argS.timing <;>
      simp only [Syr2k.run_events, Syr2k.correctness_events, Syr2k.timing_events, ht, hu, hn,
        Bool.or_self, if_true, Bool.false_eq_true, if_false, List.filter_append,
        List.filter_cons, ho, hl, List.append_nil, List.nil_append] <;> rfl
  · intro hs hu hn
    obtain ⟨g, hg⟩ := Rotmg.rotmg_run_yields hs argR vR
    rw [hg.trace_eq]
    have ho : (Rotmg.oracle_events argR).filter Event.is_comparison = [] :=
      filter_map_eq_nil _ _ _ (fun _ => rfl)
    have hl := filter_loop_events (Event.is_comparison) argR.cold_iters
      (Rotmg.live_call hipblasPointerMode_t.DEVICE Ptr.device Rotmg.device_bufs) rfl rfl
      (int32 (argR.cold_iters + argR.iters)).toNat 0
    cases ht : argR.timing <;>
      simp only [Rotmg.run_events, Rotmg.correctness_events, Rotmg.timing_events, ht, hu, hn,
        Bool.or_self, if_true, Bool.false_eq_true, if_false, List.filter_append,
        List.filter_cons, ho, hl, List.append_nil, List.nil_append] <;> rfl

/-- C13 at the sample configuration with both checks enabled: the comparisons of
`testing_syr2k_batched`, in order. -/
theorem unit_checks_before_norm_checks_witness :
    (Her.Checked argBothChecks ∧
      Syr2k.Checked ((Syr2k.sampleEnv 0).char2hipblas_operation argBothChecks.transA)
        argBothChecks ∧ 0 < argBothChecks.batch_count) ∧
    (final (Syr2k.testing_syr2k_batched (Syr2k.sampleEnv 0) argBothChecks)).trace.filter
        Event.is_comparison =
      [Event.unit_check Syr2k.Buf.hC_gold Syr2k.Buf.hC_host,
       Event.unit_check Syr2k.Buf.hC_gold Syr2k.Buf.hC_device,
       Event.norm_check Syr2k.Buf.hC_gold Syr2k.Buf.hC_host,
       Event.norm_check Syr2k.Buf.hC_gold Syr2k.Buf.hC_device] :=
  ⟨⟨Her.her_sampleArg_checked, Syr2k.syr2k_sampleArg_checked, by decide⟩,
    (unit_checks_before_norm_checks (Her.sampleEnv 0) (Syr2k.sampleEnv 0) Rotmg.sampleEnv
      argBothChecks argBothChecks argBothChecks Her.her_sampleArg_checked
      Syr2k.syr2k_sampleArg_checked (by decide)).2.2.2.2.1
      (Syr2k.syr2k_sampleEnv_succeeds 0) rfl rfl⟩

/-- C14: in each harness, in any environment and for every configuration that passes
validation, a call that reports a status other than success (the host-pointer-mode
invocation of the correctness block, a memory transfer or pointer-mode switch before
it, or any later asserted call) is the last external call of the run: no later device
invocation, transfer, reference call, comparison or timing iteration is made; the run
is ended there and a test failure is recorded. -/
theorem failure_stops_the_run {T U : Type} (envH : Her.Env T U) (envS : Syr2k.Env T)
    (envR : Rotmg.Env T) (argH argS argR : Arguments) (vH : Her.Checked argH)
    (vS : Syr2k.Checked (envS.char2hipblas_operation argS.transA) argS)
    (vR : 0 < argR.batch_count) :
    (∀ t1 f t2, (final (Her.testing_her_batched envH argH)).trace = t1 ++ f :: t2 →
      f.is_failure = true →
      t2 = [] ∧ aborted (Her.testing_her_batched envH argH) = true ∧
        (final (Her.testing_her_batched envH argH)).failed = true) ∧
    (∀ t1 f t2, (final (Syr2k.testing_syr2k_batched envS argS)).trace = t1 ++ f :: t2 →
      f.is_failure = true →
      t2 = [] ∧ aborted (Syr2k.testing_syr2k_batched envS argS) = true ∧
        (final (Syr2k.testing_syr2k_batched envS argS)).failed = true) ∧
    (∀ t1 f t2, (final (Rotmg.testing_rotmg_strided_batched envR argR)).trace =
        t1 ++ f :: t2 →
      f.is_failure = true →
      t2 = [] ∧ aborted (Rotmg.testing_rotmg_strided_batched envR argR) = true ∧
        (final (Rotmg.testing_rotmg_strided_batched envR argR)).failed = true) := by
  refine ⟨?_, ?_, ?_⟩
  · obtain ⟨g, hg⟩ := Her.her_run_follows envH argH vH
    obtain ⟨h1, h2⟩ := hg.fail_stop (Her.her_run_events_no_failure argH g)
    intro t1 f t2 ht hf
    exact ⟨h1 t1 f t2 ht hf, h2 f (by rw [ht]; simp) hf⟩
  · obtain ⟨g, hg⟩ := Syr2k.syr2k_run_follows envS argS vS
    obtain ⟨h1, h2⟩ := hg.fail_stop (Syr2k.syr2k_run_events_no_failure _ argS g)
    intro t1 f t2 ht hf
    exact ⟨h1 t1 f t2 ht hf, h2 f (by rw [ht]; simp) hf⟩
  · obtain ⟨g, hg⟩ := Rotmg.rotmg_run_follows envR argR vR
    obtain ⟨h1, h2⟩ := hg.fail_stop (Rotmg.rotmg_run_events_no_failure argR g)
    intro t1 f t2 ht hf
    exact ⟨h1 t1 f t2 ht hf, h2 f (by rw [ht]; simp) hf⟩

/-- C14 at the sample configuration, in the environment whose device routine reports an
internal error in host pointer mode: the failing invocation is the last call of
`testing_her_batched`, the run is aborted and the failure recorded. -/
theorem failure_stops_the_run_witness :
    (Her.Checked sampleArg ∧
      Syr2k.Checked ((Syr2k.sampleEnv 0).char2hipblas_operation sampleArg.transA)
        sampleArg ∧ 0 < sampleArg.batch_count) ∧
    (final (Her.testing_her_batched Her.failingEnv sampleArg)).trace =
      (final (Her.testing_her_batched Her.failingEnv sampleArg)).trace.dropLast ++
        [Event.device_call (some hipblasPointerMode_t.HOST)
          [Ptr.host Her.Buf.h_alpha, Ptr.device Her.Buf.dx, Ptr.device Her.Buf.dA]
          hipblasStatus_t.INTERNAL_ERROR] ∧
    (([] : List (Event Her.Buf)) = [] ∧
      aborted (Her.testing_her_batched Her.failingEnv sampleArg) = true ∧
      (final (Her.testing_her_batched Her.failingEnv sampleArg)).failed = true) :=
  ⟨⟨Her.her_sampleArg_checked, Syr2k.syr2k_sampleArg_checked, by decide⟩, by decide,
    (failure_stops_the_run Her.failingEnv (Syr2k.sampleEnv 0) Rotmg.sampleEnv
      sampleArg sampleArg sampleArg Her.her_sampleArg_checked Syr2k.syr2k_sampleArg_checked
      (by decide)).1
      (final (Her.testing_her_batched Her.failingEnv sampleArg)).trace.dropLast
      (Event.device_call (some hipblasPointerMode_t.HOST)
        [Ptr.host Her.Buf.h_alpha, Ptr.device Her.Buf.dx, Ptr.device Her.Buf.dA]
        hipblasStatus_t.INTERNAL_ERROR) [] (by decide) rfl⟩

/-- C15: for every configuration that passes validation in `testing_syr2k_batched` or
`testing_her_batched`, with 32-bit signed `N`, `K`, `lda`, `ldb`, `ldc`, the sizes
`A_size = lda * K1`, `B_size = ldb * K1` (with `K1 = K` when untransposed and `N`
otherwise), `C_size = ldc * N` and her's `A_size = lda * N` are computed without wrapping
modulo `2^64` (they equal the products), and every column-major index `i + j * ld` of an
in-shape element is below the size: for `A` and `B`, `0 ≤ i < N`, `0 ≤ j < K` when
untransposed and `0 ≤ i < K`, `0 ≤ j < N` when transposed; for `C` and her's `A`,
`0 ≤ i, j < N`. -/
theorem sizes_without_wrap (transA : hipblasOperation_t) (argS argH : Arguments)
    (rS : IsInt32 argS.N ∧ IsInt32 argS.K ∧ IsInt32 argS.lda ∧ IsInt32 argS.ldb ∧
      IsInt32 argS.ldc)
    (vS : Syr2k.Checked transA argS)
    (rH : IsInt32 argH.N ∧ IsInt32 argH.lda) (vH : Her.Checked argH) :
    ((Syr2k.A_size transA argS : Int) = argS.lda * Syr2k.K1 transA argS ∧
      (Syr2k.B_size transA argS : Int) = argS.ldb * Syr2k.K1 transA argS ∧
      (Syr2k.C_size argS : Int) = argS.ldc * argS.N ∧
      (Her.A_size argH : Int) = argH.lda * argH.N) ∧
    (∀ i j : Int, 0 ≤ i → 0 ≤ j →
      (if transA = hipblasOperation_t.OP_N then i < argS.N ∧ j < argS.K
        else i < argS.K ∧ j < argS.N) →
      i + j * argS.lda < Syr2k.A_size transA argS ∧
        i + j * argS.ldb < Syr2k.B_size transA argS) ∧
    (∀ i j : Int, 0 ≤ i → i < argS.N → 0 ≤ j → j < argS.N →
      i + j * argS.ldc < Syr2k.C_size argS) ∧
    (∀ i j : Int, 0 ≤ i → i < argH.N → 0 ≤ j → j < argH.N →
      i + j * argH.lda < Her.A_size argH) := by
  obtain ⟨⟨n0, n1⟩, ⟨k0, k1⟩, ⟨a0, a1⟩, ⟨b0, b1⟩, ⟨c0, c1⟩⟩ := rS
  obtain ⟨⟨hn0, hn1⟩, ⟨ha0, ha1⟩⟩ := rH
  obtain ⟨vS1, vS2⟩ := vS
  obtain ⟨vH1, vH2, vH3⟩ := vH
  unfold Syr2k.Invalid at vS1
  have sN : 0 ≤ argS.N := by
    by_contra h; exact vS1 (Or.inl (by omega))
  have sK : 0 ≤ argS.K := by
    by_contra h; exact vS1 (Or.inr (Or.inl (by omega)))
  have sC : argS.N ≤ argS.ldc := by
    by_contra h; exact vS1 (Or.inr (Or.inr (Or.inl (by omega))))
  have hN : 0 ≤ argH.N := by
    by_contra h; exact vH1 (Or.inl (by omega))
  have hL : argH.N ≤ argH.lda := by
    by_contra h; exact vH1 (Or.inr (Or.inl (by omega)))
  have eC : (Syr2k.C_size argS : Int) = argS.ldc * argS.N :=
    size_mul_of_int32 _ _ (by omega) sN c1 n1
  have eH : (Her.A_size argH : Int) = argH.lda * argH.N :=
    size_mul_of_int32 _ _ (by omega) hN ha1 hn1
  by_cases ht : transA = hipblasOperation_t.OP_N
  · have sA : argS.N ≤ argS.lda := by
      by_contra h
      exact vS1 (Or.inr (Or.inr (Or.inr (Or.inr (Or.inl ⟨ht, Or.inl (by omega)⟩)))))
    have sB : argS.N ≤ argS.ldb := by
      by_contra h
      exact vS1 (Or.inr (Or.inr (Or.inr (Or.inr (Or.inl ⟨ht, Or.inr (by omega)⟩)))))
    have e1 : Syr2k.K1 transA argS = argS.K := by simp [Syr2k.K1, ht]
    have eA : (Syr2k.A_size transA argS : Int) = argS.lda * Syr2k.K1 transA argS := by
      unfold Syr2k.A_size
      rw [e1]
      exact size_mul_of_int32 _ _ (by omega) sK a1 k1
    have eB : (Syr2k.B_size transA argS : Int) = argS.ldb * Syr2k.K1 transA argS := by
      unfold Syr2k.B_size
      rw [e1]
      exact size_mul_of_int32 _ _ (by omega) sK b1 k1
    refine ⟨⟨eA, eB, eC, eH⟩, ?_, ?_, ?_⟩
    · intro i j hi hj hij
      rw [if_pos ht] at hij
      rw [eA, eB, e1]
      exact ⟨index_lt i j _ _ _ hi hij.1 hij.2 sA, index_lt i j _ _ _ hi hij.1 hij.2 sB⟩
    · intro i j hi hi1 hj hj1
      rw [eC]
      exact index_lt i j _ _ _ hi hi1 hj1 sC
    · intro i j hi hi1 hj hj1
      rw [eH]
      exact index_lt i j _ _ _ hi hi1 hj1 hL
  · have sA : argS.K ≤ argS.lda := by
      by_contra h
      exact vS1 (Or.inr (Or.inr (Or.inr (Or.inr (Or.inr ⟨ht, Or.inl (by omega)⟩)))))
    have sB : argS.K ≤ argS.ldb := by
      by_contra h
      exact vS1 (Or.inr (Or.inr (Or.inr (Or.inr (Or.inr ⟨ht, Or.inr (by omega)⟩)))))
    have e1 : Syr2k.K1 transA argS = argS.N := by simp [Syr2k.K1, ht]
    have eA : (Syr2k.A_size transA argS : Int) = argS.lda * Syr2k.K1 transA argS := by
      unfold Syr2k.A_size
      rw [e1]
      exact size_mul_of_int32 _ _ (by omega) sN a1 n1
    have eB : (Syr2k.B_size transA argS : Int) = argS.ldb * Syr2k.K1 transA argS := by
      unfold Syr2k.B_size
      rw [e1]
      exact size_mul_of_int32 _ _ (by omega) sN b1 n1
    refine ⟨⟨eA, eB, eC, eH⟩, ?_, ?_, ?_⟩
    · intro i j hi hj hij
      rw [if_neg ht] at hij
      rw [eA, eB, e1]
      exact ⟨index_lt i j _ _ _ hi hij.1 hij.2 sA, index_lt i j _ _ _ hi hij.1 hij.2 sB⟩
    · intro i j hi hi1 hj hj1
      rw [eC]
      exact index_lt i j _ _ _ hi hi1 hj1 sC
    · intro i j hi hi1 hj hj1
      rw [eH]
      exact index_lt i j _ _ _ hi hi1 hj1 hL

/-- C15 at the sample configuration, untransposed: `A_size = 2 * 1`, `C_size = 2 * 2`. -/
theorem sizes_without_wrap_witness :
    ((IsInt32 sampleArg.N ∧ IsInt32 sampleArg.K ∧ IsInt32 sampleArg.lda ∧
      IsInt32 sampleArg.ldb ∧ IsInt32 sampleArg.ldc) ∧
      Syr2k.Checked hipblasOperation_t.OP_N sampleArg ∧ Her.Checked sampleArg) ∧
    ((Syr2k.A_size hipblasOperation_t.OP_N sampleArg : Int) =
        sampleArg.lda * Syr2k.K1 hipblasOperation_t.OP_N sampleArg ∧
      (Syr2k.B_size hipblasOperation_t.OP_N sampleArg : Int) =
        sampleArg.ldb * Syr2k.K1 hipblasOperation_t.OP_N sampleArg ∧
      (Syr2k.C_size sampleArg : Int) = sampleArg.ldc * sampleArg.N ∧
      (Her.A_size sampleArg : Int) = sampleArg.lda * sampleArg.N) :=
  ⟨⟨by unfold IsInt32; decide, Syr2k.syr2k_sampleArg_checked, Her.her_sampleArg_checked⟩,
    (sizes_without_wrap hipblasOperation_t.OP_N sampleArg sampleArg
      (by unfold IsInt32; decide) Syr2k.syr2k_sampleArg_checked (by unfold IsInt32; decide)
      Her.her_sampleArg_checked).1⟩

/-- C16, counterexample: with `batch_count = 16` and `stride_scale = 2^60 ≥ 1` the
products `batch_count * stride_d1` and `batch_count * stride_param` are not representable
`hipblasStride` values; both sizes come out as 0, so already the element of batch entry
0 is not inside its buffer.  Besides, `stride_param` is not the truncation of the exact
product: line 52 multiplies in `double`, and at the `double` nearest to 1.2 the rounded
product is 6 where `trunc(5 * stride_scale)` is 5; and with `batch_count = 11` and
`stride_scale = 167697673397359552` the exact `5 * stride_scale * batch_count` is below
`2^63` while `batch_count * stride_param` is not. -/
theorem rotmg_huge_stride_out_of_bounds :
    (1 ≤ argHugeStride.batch_count ∧ 1 ≤ argHugeStride.stride_scale ∧
      Rotmg.stride_d1 argHugeStride = 2 ^ 60 ∧
      Rotmg.stride_param argHugeStride = 5 * 2 ^ 60 ∧
      Rotmg.size_d1 argHugeStride = 0 ∧ Rotmg.size_param argHugeStride = 0 ∧
      ¬ (∀ b : Int, 0 ≤ b → b < argHugeStride.batch_count →
          b * Rotmg.stride_d1 argHugeStride < Rotmg.size_d1 argHugeStride)) ∧
    (1 ≤ argRoundedStride.stride_scale ∧ Rotmg.stride_param argRoundedStride = 6 ∧
      trunc (5 * argRoundedStride.stride_scale) = 5) ∧
    (Rotmg.stride_param argTieStride = 838488366986797824 ∧
      5 * argTieStride.stride_scale * argTieStride.batch_count < 2 ^ 63 ∧
      ¬ (argTieStride.batch_count * trunc (double_mul 5 argTieStride.stride_scale) <
        2 ^ 63)) := by
  refine ⟨?_, ⟨?_, Rotmg.rotmg_rounded_stride_param⟩, Rotmg.rotmg_tie_stride_param⟩
  swap
  · show (1 : ℚ) ≤ 5404319552844595 / 2 ^ 52
    norm_num
  have s1 : Rotmg.size_d1 argHugeStride = 0 := by
    unfold Rotmg.size_d1
    rw [Rotmg.rotmg_huge_stride_d1]
    decide
  have s5 : Rotmg.size_param argHugeStride = 0 := by
    unfold Rotmg.size_param
    rw [Rotmg.rotmg_huge_stride_param]
    decide
  refine ⟨by decide, ?_, Rotmg.rotmg_huge_stride_d1, Rotmg.rotmg_huge_stride_param, s1, s5, ?_⟩
  · show (1 : ℚ) ≤ 2 ^ 60
    norm_num
  · intro h
    have := h 0 (le_refl _) (by decide)
    rw [s1, Rotmg.rotmg_huge_stride_d1] at this
    simp at this

/-- C16, as amended: in `testing_rotmg_strided_batched`, with `stride_d1` the converted
`stride_scale` and `stride_param` the converted `double` product `5 * stride_scale`
(rounded to the nearest `double` before the conversion), for every `batch_count ≥ 1` and
every `stride_scale ≥ 1` with `batch_count * stride_param < 2^63` (so that strides and
sizes are representable), the offsets `b * stride` are computed without wrapping, every
element the reference routine and the comparators address is inside its buffer
(`b * stride_d1 < size_d1` and `b * stride_param + k < size_param` for
`0 ≤ b < batch_count`, `0 ≤ k < 5`), and the 5-element parameter blocks of distinct batch
entries do not overlap.  With `stride_scale = 1/2` this fails: the block of the last
batch entry reaches past `size_param`. -/
theorem rotmg_strides_in_bounds (arg : Arguments) (h : Rotmg.Strided arg) :
    (∀ b k : Int, 0 ≤ b → b < arg.batch_count → 0 ≤ k → k < 5 →
      int64 (b * Rotmg.stride_d1 arg) = b * Rotmg.stride_d1 arg ∧
      0 ≤ b * Rotmg.stride_d1 arg ∧ b * Rotmg.stride_d1 arg < Rotmg.size_d1 arg ∧
      int64 (b * Rotmg.stride_param arg) = b * Rotmg.stride_param arg ∧
      0 ≤ b * Rotmg.stride_param arg ∧
      b * Rotmg.stride_param arg + k < Rotmg.size_param arg) ∧
    (∀ b1 b2 k1 k2 : Int, 0 ≤ b1 → b1 < b2 → 0 ≤ k1 → k1 < 5 → 0 ≤ k2 →
      b1 * Rotmg.stride_param arg + k1 < b2 * Rotmg.stride_param arg + k2) ∧
    (0 ≤ (1 / 2 : ℚ) ∧ (1 / 2 : ℚ) < 1 ∧
      ¬ ((arg.batch_count - 1) * Rotmg.stride_param { arg with stride_scale := 1 / 2 } + 2 <
        Rotmg.size_param { arg with stride_scale := 1 / 2 })) := by
  obtain ⟨s1, s5, e1, e5, p1, p5⟩ := Rotmg.rotmg_strides arg h
  obtain ⟨hb, hs, hr⟩ := h
  refine ⟨?_, ?_, by norm_num, by norm_num, ?_⟩
  · intro b k b0 b1 k0 k1
    have m1 : b * Rotmg.stride_d1 arg + Rotmg.stride_d1 arg ≤
        arg.batch_count * Rotmg.stride_d1 arg := by nlinarith
    have m5 : b * Rotmg.stride_param arg + Rotmg.stride_param arg ≤
        arg.batch_count * Rotmg.stride_param arg := by nlinarith
    have n1 : 0 ≤ b * Rotmg.stride_d1 arg := by positivity
    have n5 : 0 ≤ b * Rotmg.stride_param arg := by positivity
    refine ⟨int64_eq_self _ (by omega) (by omega), n1, by rw [e1]; omega,
      int64_eq_self _ (by omega) (by omega), n5, by rw [e5]; omega⟩
  · intro b1 b2 k1 k2 h0 h12 hk0 hk1 hk2
    have : b1 * Rotmg.stride_param arg + Rotmg.stride_param arg ≤
        b2 * Rotmg.stride_param arg := by nlinarith
    omega
  · have hz : arg.batch_count * 2 < 2 ^ 63 := by nlinarith
    have e : (Rotmg.size_param { arg with stride_scale := 1 / 2 } : Int) =
        arg.batch_count * 2 := by
      unfold Rotmg.size_param
      rw [Rotmg.rotmg_half_stride_param]
      show ((size_t (int64 (arg.batch_count * 2)) : Nat) : Int) = _
      rw [int64_eq_self _ (by omega) hz, size_t_of_nonneg _ (by omega) (by omega)]
    rw [Rotmg.rotmg_half_stride_param, e]
    omega

/-- C16, as amended, at the sample configuration (`batch_count = 2`,
`stride_scale = 1`). -/
theorem rotmg_strides_in_bounds_witness :
    Rotmg.Strided sampleArg ∧
    (∀ b1 b2 k1 k2 : Int, 0 ≤ b1 → b1 < b2 → 0 ≤ k1 → k1 < 5 → 0 ≤ k2 →
      b1 * Rotmg.stride_param sampleArg + k1 < b2 * Rotmg.stride_param sampleArg + k2) :=
  ⟨Rotmg.rotmg_sampleArg_strided,
    (rotmg_strides_in_bounds sampleArg Rotmg.rotmg_sampleArg_strided).2.1⟩

end HipBLAS
